import Mathlib

/-!
Game capture session: shallow embedding of `plugins/win-capture/game-capture.c`.

Handles and pointers are natural numbers with `0` for `NULL`. Mapped views
(`global_hook_info`, `data`) are `Option`s carrying the mapped contents, `none`
for a null pointer. Unsigned 32-bit and 64-bit arithmetic is written on `Nat` with an
explicit `% 2 ^ 32` / `% 2 ^ 64` where the C expression can wrap. The two
`float` timers are the bit patterns of IEEE 754 binary32 values, added with
`f32_add` (round to nearest, ties to even) and compared with `f32_gt` and
`f32_ge`. Calls into the
operating system and the graphics subsystem are recorded as a list of `Event`s.
What the system answers during a tick is a record `tick_env`; a tick returns
`Except Fault tick_state`, a fault standing for undefined behaviour of the C
code, and logs the calls between the functions of the file as a list of `Call`s.
-/

namespace GameCapture

/-! ## Data model -/

/-- The value `(HANDLE)-1` of a 64-bit build. -/
def INVALID_HANDLE_VALUE : Nat := 18446744073709551615

/-- Record `struct game_capture_config` (lines 48-62). Strings are nullable
`char *`; `class_` is the field `class`. -/
structure game_capture_config where
  title : Option String
  class_ : Option String
  executable : Option String
  priority : Int
  scale_cx : Nat
  scale_cy : Nat
  cursor : Bool
  force_shmem : Bool
  capture_any_fullscreen : Bool
  force_scaling : Bool
  allow_transparency : Bool
  limit_framerate : Bool
  capture_overlays : Bool
  deriving DecidableEq, Repr

/-- Modelled from the spec: the header record `struct hook_info` declared in
graphics-hook-info.h, which is not among the sources. The fields are the ones
game-capture.c reads or writes; `offsets_64bit` records which of the two
precomputed offsets tables (`offsets64` / `offsets32`) was stored, and
`frame_interval` is the 64-bit interval in nanoseconds. -/
structure hook_info where
  capture_type : Nat
  window : Nat
  format : Nat
  cx : Nat
  cy : Nat
  base_cx : Nat
  base_cy : Nat
  pitch : Nat
  map_id : Nat
  map_size : Nat
  flip : Bool
  frame_interval : Nat
  use_scale : Bool
  force_shmem : Bool
  capture_overlay : Bool
  offsets_64bit : Bool
  deriving DecidableEq, Repr

/-- Modelled from the spec: the sub-record `struct shmem_data` of
graphics-hook-info.h (two buffer byte offsets and the index of the buffer the
agent wrote last, a C `int`). -/
structure shmem_data where
  last_tex : Int
  tex1_offset : Nat
  tex2_offset : Nat
  deriving DecidableEq, Repr

/-- The mapped payload view behind the union `shmem_data` / `shtex_data` /
`data` (lines 100-108): its reading as `struct shmem_data`, its reading as
`struct shtex_data` (the shared texture handle), and its raw bytes by offset
from `gc->data`. -/
structure capture_data where
  shmem : shmem_data
  tex_handle : Nat
  bytes : Nat → Nat

/-- The values the function pointer `copy_texture` takes besides `NULL`. -/
inductive copy_texture_fn where
  | copy_shmem_tex
  deriving DecidableEq, Repr

/-- Record `struct game_capture` (lines 64-111). `source` and `cursor_data`
are used for logging and cursor drawing only and are left out. `pipe` tells
whether the diagnostics pipe server is started. `texture_buffers` are byte
offsets into the payload view. The two `float` counters are the 32 bits of an
IEEE 754 binary32 value (`0` is `0.0f`). -/
structure game_capture where
  injector_process : Nat
  cx : Nat
  cy : Nat
  pitch : Nat
  process_id : Nat
  thread_id : Nat
  next_window : Nat
  window : Nat
  check_interval : Nat
  fps_reset_interval : Nat
  active : Bool
  activate_hook : Bool
  process_is_64bit : Bool
  error_aqcuiring : Bool
  dwm_capture : Bool
  initial_config : Bool
  config : game_capture_config
  pipe : Bool
  texture : Nat
  global_hook_info : Option hook_info
  keep_alive : Nat
  hook_restart : Nat
  hook_stop : Nat
  hook_ready : Nat
  hook_exit : Nat
  hook_data_map : Nat
  global_hook_info_map : Nat
  target_process : Nat
  texture_mutexes : Nat × Nat
  data : Option capture_data
  texture_buffers : Nat × Nat
  copy_texture : Option copy_texture_fn

/-- Element `i` of a two-element C array. -/
def idx2 (p : Nat × Nat) (i : Nat) : Nat :=
  if i = 0 then p.1 else p.2

/-- Calls the session makes into the operating system and the graphics
subsystem, in program order. -/
inductive Event where
  | pipe_server_stopped
  | SetEvent (h : Nat)
  | UnmapViewOfFile_hook_info
  | UnmapViewOfFile_data
  | CloseHandle (h : Nat)
  | gs_texture_destroy (t : Nat)
  | poll (h : Nat) (signalled : Bool)
  | ReleaseMutex (h : Nat)
  | gs_texture_map (ok : Bool)
  | memcpy (dst src n : Nat)
  | gs_texture_unmap
  deriving DecidableEq, Repr

/-! ## Teardown -/

/-- Function `close_handle` (lines 131-139): a non-null handle is closed unless
it is `INVALID_HANDLE_VALUE`, and the variable is set to `NULL`. -/
def close_handle (handle : Nat) : Nat × List Event :=
  if handle ≠ 0 then
    (0, if handle ≠ INVALID_HANDLE_VALUE then [Event.CloseHandle handle] else [])
  else
    (handle, [])

/-- Modelled from the spec: `ipc_pipe_server_free` of ipc-util/pipe.h, which is
not among the sources. The diagnostics pipe is one of the OS objects of the
session; freeing a started server shuts it down and zeroes the record, freeing
a zeroed record does nothing. -/
def ipc_pipe_server_free (pipe : Bool) : Bool × List Event :=
  (false, if pipe then [Event.pipe_server_stopped] else [])

/-- Function `stop_capture` (lines 160-196). -/
def stop_capture (gc : game_capture) : game_capture × List Event :=
  let p := ipc_pipe_server_free gc.pipe
  let e_stop := if gc.hook_stop ≠ 0 then [Event.SetEvent gc.hook_stop] else []
  let e_info := if gc.global_hook_info.isSome then [Event.UnmapViewOfFile_hook_info] else []
  let e_data := if gc.data.isSome then [Event.UnmapViewOfFile_data] else []
  let h1 := close_handle gc.keep_alive
  let h2 := close_handle gc.hook_restart
  let h3 := close_handle gc.hook_stop
  let h4 := close_handle gc.hook_ready
  let h5 := close_handle gc.hook_exit
  let h6 := close_handle gc.hook_data_map
  let h7 := close_handle gc.global_hook_info_map
  let h8 := close_handle gc.target_process
  let h9 := close_handle gc.texture_mutexes.1
  let h10 := close_handle gc.texture_mutexes.2
  let e_tex := if gc.texture ≠ 0 then [Event.gs_texture_destroy gc.texture] else []
  ({ gc with
      pipe := p.1
      global_hook_info := none
      data := none
      keep_alive := h1.1
      hook_restart := h2.1
      hook_stop := h3.1
      hook_ready := h4.1
      hook_exit := h5.1
      hook_data_map := h6.1
      global_hook_info_map := h7.1
      target_process := h8.1
      texture_mutexes := (h9.1, h10.1)
      texture := 0
      copy_texture := none
      active := false },
   p.2 ++ e_stop ++ e_info ++ e_data ++ h1.2 ++ h2.2 ++ h3.2 ++ h4.2 ++ h5.2 ++ h6.2 ++ h7.2
     ++ h8.2 ++ h9.2 ++ h10.2 ++ e_tex)

/-! ## Frame synchronizer -/

/-- Modelled from the spec: ownership of a named texture mutex, as the reader
sees it. A mutex is signalled exactly when the writer (the agent in the target
process) does not hold it; `reader n` is held by the calling thread `n + 1`
times. -/
inductive MutexState where
  | free
  | writer
  | reader (n : Nat)
  deriving DecidableEq, Repr

/-- What `copy_shmem_tex` touches outside the session record: the mutex objects
by handle, the outcome `gs_texture_map` will have (`none`: it fails, `some p`:
it succeeds with row pitch `p`), and the bytes of the mapped host texture by
offset from the mapped pointer. -/
structure World where
  mutex : Nat → MutexState
  tex_map : Option Nat
  tex_bytes : Nat → Nat

/-- Modelled from the spec: `object_signalled`, declared in a header that is
not among the sources. It is a poll with a zero timeout: it returns at once,
`false` for a null handle or an object that is not signalled, and a signalled
mutex becomes owned by the caller. -/
def object_signalled (w : World) (h : Nat) : Bool × World :=
  if h = 0 then (false, w)
  else
    match w.mutex h with
    | MutexState.free =>
        (true, { w with mutex := Function.update w.mutex h (MutexState.reader 0) })
    | MutexState.reader n =>
        (true, { w with mutex := Function.update w.mutex h (MutexState.reader (n + 1)) })
    | MutexState.writer => (false, w)

/-- Modelled from the spec: the system call `ReleaseMutex`: one ownership of
the calling thread is given up; a mutex the caller does not own is left as it
is. -/
def ReleaseMutex (w : World) (h : Nat) : World :=
  match w.mutex h with
  | MutexState.reader 0 => { w with mutex := Function.update w.mutex h MutexState.free }
  | MutexState.reader (n + 1) =>
      { w with mutex := Function.update w.mutex h (MutexState.reader n) }
  | _ => w

/-- The C library's `memcpy` from the payload view into the mapped texture:
`n` bytes from source offset `src_off` to destination offset `dst_off`. -/
def memcpy (dst : Nat → Nat) (dst_off : Nat) (src : Nat → Nat) (src_off n : Nat) : Nat → Nat :=
  fun a => if dst_off ≤ a ∧ a < dst_off + n then src (src_off + (a - dst_off)) else dst a

/-- One iteration of the row loop of `copy_shmem_tex` (lines 830-832); the two
products are `uint32_t`. -/
def copy_line (gc : game_capture) (d : capture_data) (input pitch best_pitch : Nat)
    (acc : (Nat → Nat) × List Event) (y : Nat) : (Nat → Nat) × List Event :=
  let line_in := input + gc.pitch * y % 2 ^ 32
  let line_out := pitch * y % 2 ^ 32
  (memcpy acc.1 line_out d.bytes line_in best_pitch,
   acc.2 ++ [Event.memcpy line_out line_in best_pitch])

/-- The copy of `copy_shmem_tex` (lines 821-834) from buffer `cur_texture` into
the mapped texture `data` of row pitch `pitch`; the byte count of the one-pass
copy is a `uint32_t` product. -/
def copy_pixels (gc : game_capture) (d : capture_data) (cur_texture pitch : Nat)
    (data : Nat → Nat) : (Nat → Nat) × List Event :=
  if pitch = gc.pitch then
    (memcpy data 0 d.bytes (idx2 gc.texture_buffers cur_texture) (pitch * gc.cy % 2 ^ 32),
     [Event.memcpy 0 (idx2 gc.texture_buffers cur_texture) (pitch * gc.cy % 2 ^ 32)])
  else
    let input := idx2 gc.texture_buffers cur_texture
    let best_pitch := if pitch < gc.pitch then pitch else gc.pitch
    (List.range gc.cy).foldl (copy_line gc d input pitch best_pitch) (data, [])

/-- Outcome of one call of `copy_shmem_tex`: the world afterwards, the calls
made, and the value of `cur_texture` when a mutex was chosen (line 820 reached). -/
structure copy_result where
  world : World
  trace : List Event
  selected : Option Nat

/-- Lines 820-839 of `copy_shmem_tex`, run once `mutex` has been chosen for
buffer `cur_texture`. -/
def copy_selected (gc : game_capture) (d : capture_data) (cur_texture mutex : Nat)
    (w : World) (polls : List Event) : copy_result :=
  match w.tex_map with
  | some pitch =>
      let r := copy_pixels gc d cur_texture pitch w.tex_bytes
      { world := ReleaseMutex { w with tex_bytes := r.1 } mutex
        trace := polls ++ [Event.gs_texture_map true] ++ r.2
          ++ [Event.gs_texture_unmap, Event.ReleaseMutex mutex]
        selected := some cur_texture }
  | none =>
      { world := ReleaseMutex w mutex
        trace := polls ++ [Event.gs_texture_map false, Event.ReleaseMutex mutex]
        selected := some cur_texture }

/-- Function `copy_shmem_tex` (lines 796-840). The result is `none` when
`gc->shmem_data` is a null pointer (the read of `last_tex` is then undefined). -/
def copy_shmem_tex (gc : game_capture) (w : World) : Option copy_result :=
  match gc.data with
  | none => none
  | some d =>
      let cur_texture : Int := d.shmem.last_tex
      if cur_texture < 0 ∨ cur_texture > 1 then
        some { world := w, trace := [], selected := none }
      else
        let next_texture : Int := if cur_texture = 1 then 0 else 1
        let m_cur := idx2 gc.texture_mutexes cur_texture.toNat
        let m_next := idx2 gc.texture_mutexes next_texture.toNat
        let p1 := object_signalled w m_cur
        if p1.1 then
          some (copy_selected gc d cur_texture.toNat m_cur p1.2 [Event.poll m_cur true])
        else
          let p2 := object_signalled p1.2 m_next
          if p2.1 then
            some (copy_selected gc d next_texture.toNat m_next p2.2
              [Event.poll m_cur false, Event.poll m_next true])
          else
            some { world := p2.2
                   trace := [Event.poll m_cur false, Event.poll m_next false]
                   selected := none }

/-! ## Configuration -/

/-- The C library's `strcmp`: zero exactly for equal strings, otherwise the
sign of the lexicographic order. -/
def strcmp (str1 str2 : String) : Int :=
  if str1 = str2 then 0 else if str1 < str2 then -1 else 1

/-- Function `s_cmp` (lines 261-267). -/
def s_cmp (str1 str2 : Option String) : Int :=
  match str1, str2 with
  | some a, some b => strcmp a b
  | _, _ => -1

/-- Function `capture_needs_reset` (lines 269-301). -/
def capture_needs_reset (cfg1 cfg2 : game_capture_config) : Bool :=
  if cfg1.capture_any_fullscreen ≠ cfg2.capture_any_fullscreen then
    true
  else if cfg1.capture_any_fullscreen = false ∧
      (s_cmp cfg1.class_ cfg2.class_ ≠ 0 ∨
       s_cmp cfg1.title cfg2.title ≠ 0 ∨
       s_cmp cfg1.executable cfg2.executable ≠ 0 ∨
       cfg1.priority ≠ cfg2.priority) then
    true
  else if cfg1.force_scaling ≠ cfg2.force_scaling then
    true
  else if cfg1.force_scaling = true ∧
      (cfg1.scale_cx ≠ cfg2.scale_cx ∨
       cfg1.scale_cy ≠ cfg2.scale_cy) then
    true
  else if cfg1.force_shmem ≠ cfg2.force_shmem then
    true
  else if cfg1.limit_framerate ≠ cfg2.limit_framerate then
    true
  else if cfg1.capture_overlays ≠ cfg2.capture_overlays then
    true
  else
    false

/-- The settings object `obs_data_t`, by the keys game-capture.c reads
(lines 20-30). -/
structure obs_data where
  window : String
  capture_any_fullscreen : Bool
  priority : Int
  sli_compatibility : Bool
  capture_cursor : Bool
  allow_transparency : Bool
  force_scaling : Bool
  scale_res : String
  limit_framerate : Bool
  capture_overlays : Bool
  activate_hook : Bool
  deriving DecidableEq, Repr

/-- The three strings `build_window_strings` hands back. -/
structure window_strings where
  class_ : Option String
  title : Option String
  executable : Option String
  deriving DecidableEq, Repr

/-- White space as `%u` skips it. -/
def isspace (c : Char) : Bool :=
  c.toNat = 32 ∨ (9 ≤ c.toNat ∧ c.toNat ≤ 13)

/-- Decimal digits. -/
def isdigit (c : Char) : Bool :=
  48 ≤ c.toNat ∧ c.toNat ≤ 57

/-- Drop leading white space. -/
def skip_spaces : List Char → List Char
  | [] => []
  | c :: cs => if isspace c then skip_spaces cs else c :: cs

/-- Read decimal digits onto the accumulator; the rest of the input is
returned. -/
def scan_digits (acc : Nat) : List Char → Nat × List Char
  | [] => (acc, [])
  | c :: cs => if isdigit c then scan_digits (acc * 10 + (c.toNat - 48)) cs else (acc, c :: cs)

/-- Outcome of one `%u` conversion. -/
inductive scan_item where
  | input_failure
  | matching_failure
  | converted (value : Nat) (rest : List Char)
  deriving DecidableEq, Repr

/-- One `%u` conversion of the C library's `sscanf`: white space is skipped,
an optional sign and at least one decimal digit are read, and the value is
stored as a 32-bit unsigned number. -/
def scan_u32 (s : List Char) : scan_item :=
  match skip_spaces s with
  | [] => scan_item.input_failure
  | c :: cs =>
      let body := if c = '-' ∨ c = '+' then cs else c :: cs
      match body with
      | [] => scan_item.matching_failure
      | b :: bs =>
          if isdigit b then
            let r := scan_digits 0 (b :: bs)
            scan_item.converted
              (if c = '-' then (2 ^ 32 - r.1 % 2 ^ 32) % 2 ^ 32 else r.1 % 2 ^ 32) r.2
          else scan_item.matching_failure

/-- Modelled from the spec: the C library call
`sscanf(scale_str, "%u" "x" "%u", &cx, &cy)` of line 247 on the resolution
string `WxH`. The result is the return value (the number of conversions
stored, `-1` for an input failure before the first one) and the contents of
the two destinations afterwards; a destination that is not stored keeps what
it held (`cx0`, `cy0`). -/
def sscanf (scale_str : String) (cx0 cy0 : Nat) : Int × Nat × Nat :=
  match scan_u32 scale_str.toList with
  | scan_item.input_failure => (-1, cx0, cy0)
  | scan_item.matching_failure => (0, cx0, cy0)
  | scan_item.converted w rest =>
      match rest with
      | 'x' :: rest2 =>
          match scan_u32 rest2 with
          | scan_item.converted h _ => (2, w, h)
          | _ => (1, w, cy0)
      | _ => (1, w, cy0)

/-- Function `get_config` (lines 219-259). `cfg` is the record the caller
passes in, whose scale fields keep their contents when `sscanf` stores
nothing; `build_window_strings` (window-helpers.h, not among the sources) is a
parameter. The priority is the settings integer cast to the 32-bit `enum`;
`&= ~2` on a `uint32_t` is the bitwise and with `0xFFFFFFFD`. -/
def get_config (build_window_strings : String → window_strings)
    (cfg : game_capture_config) (settings : obs_data) : game_capture_config :=
  let ws := build_window_strings settings.window
  let scan := sscanf settings.scale_res cfg.scale_cx cfg.scale_cy
  let ret := scan.1
  let scale_cx := Nat.land scan.2.1 4294967293
  let scale_cy := Nat.land scan.2.2 4294967293
  let clear : Bool := settings.force_scaling = true ∧ (ret ≠ 2 ∨ scale_cx = 0 ∨ scale_cy = 0)
  { title := ws.title
    class_ := ws.class_
    executable := ws.executable
    priority := Int.bmod settings.priority (2 ^ 32)
    scale_cx := if clear then 0 else scale_cx
    scale_cy := if clear then 0 else scale_cy
    cursor := settings.capture_cursor
    force_shmem := settings.sli_compatibility
    capture_any_fullscreen := settings.capture_any_fullscreen
    force_scaling := settings.force_scaling
    allow_transparency := settings.allow_transparency
    limit_framerate := settings.limit_framerate
    capture_overlays := settings.capture_overlays }

/-- Function `game_capture_update` (lines 303-331). `stack` is what the
uninitialised local `cfg` holds on entry. The result is the session, the
settings object (whose `activate_hook` the function may clear) and the calls
made. -/
def game_capture_update (build_window_strings : String → window_strings)
    (stack : game_capture_config) (gc : game_capture) (settings : obs_data) :
    game_capture × obs_data × List Event :=
  let cfg := get_config build_window_strings stack settings
  let reset_capture := capture_needs_reset cfg gc.config
  let err : Bool := cfg.force_scaling = true ∧ (cfg.scale_cx = 0 ∨ cfg.scale_cy = 0)
  let gc1 := { gc with
    error_aqcuiring := err
    config := cfg
    activate_hook := settings.activate_hook }
  if gc1.initial_config = false then
    if reset_capture then
      let r := stop_capture { gc1 with activate_hook := false }
      (r.1, { settings with activate_hook := false }, r.2)
    else
      (gc1, settings, [])
  else
    ({ gc1 with initial_config := false }, settings, [])

/-- The two fields of `struct obs_video_info` that game-capture.c reads, both
`uint32_t`. -/
structure obs_video_info where
  fps_num : Nat
  fps_den : Nat
  deriving DecidableEq, Repr

/-- Function `reset_frame_interval` (lines 476-485). `video` is what
`obs_get_video_info` yields (`none`: it returns false); it is only asked when
rate limiting is on. The product is an `unsigned long long`. The result is
`none` for a division by zero or a write through a null `global_hook_info`. -/
def reset_frame_interval (gc : game_capture) (video : Option obs_video_info) :
    Option game_capture :=
  let interval : Option Nat :=
    if gc.config.limit_framerate then
      match video with
      | some ovi =>
          if ovi.fps_num = 0 then none
          else some (ovi.fps_den * 1000000000 % 2 ^ 64 / ovi.fps_num)
      | none => some 0
    else some 0
  match interval, gc.global_hook_info with
  | some i, some hi => some { gc with global_hook_info := some { hi with frame_interval := i } }
  | _, _ => none

/-! ## Single-precision timers -/

/-- One step of the binary search for the highest set bit: when `p.1` has more
than `k` bits, drop `k` bits and count them. -/
def bit_length_step (k : Nat) (p : Nat × Nat) : Nat × Nat :=
  if p.1 < 2 ^ k then p else (p.1 / 2 ^ k, p.2 + k)

/-- The number of bits of `a` (0 for 0), for `a` below `2 ^ 512`. -/
def bit_length (a : Nat) : Nat :=
  let p := bit_length_step 1 (bit_length_step 2 (bit_length_step 4 (bit_length_step 8
    (bit_length_step 16 (bit_length_step 32 (bit_length_step 64 (bit_length_step 128
    (bit_length_step 256 (a, 0)))))))))
  p.2 + p.1

/-- The bits of the C constant `3.0f`. -/
def f32_three : Nat := 1077936128

/-- The bits of the quiet NaN an invalid operation yields. -/
def f32_nan : Nat := 2143289344

/-- The sign bit of a `float`, in place. -/
def f32_sign_bit (b : Nat) : Nat := b / 2 ^ 31 % 2 * 2 ^ 31

/-- The exponent field of a `float`. -/
def f32_exp (b : Nat) : Nat := b / 2 ^ 23 % 256

/-- The fraction field of a `float`. -/
def f32_frac (b : Nat) : Nat := b % 2 ^ 23

/-- Whether the bits are a NaN. -/
def f32_is_nan (b : Nat) : Bool := decide (f32_exp b = 255 ∧ f32_frac b ≠ 0)

/-- Whether the bits are an infinity. -/
def f32_is_inf (b : Nat) : Bool := decide (f32_exp b = 255 ∧ f32_frac b = 0)

/-- The magnitude of a finite `float` in units of `2 ^ (-149)`. -/
def f32_mag (b : Nat) : Nat :=
  if f32_exp b = 0 then f32_frac b else (2 ^ 23 + f32_frac b) * 2 ^ (f32_exp b - 1)

/-- Round a magnitude in units of `2 ^ (-149)` to the nearest `float`, ties to
even: the exponent and fraction fields of the result, the infinity on
overflow. -/
def f32_round (a : Nat) : Nat :=
  if a < 2 ^ 24 then a
  else
    let shift := bit_length a - 24
    let q := a / 2 ^ shift
    let rem := a % 2 ^ shift
    let half := 2 ^ (shift - 1)
    let q1 := if rem > half ∨ (rem = half ∧ q % 2 = 1) then q + 1 else q
    let bits := shift * 2 ^ 23 + q1
    if bits ≥ 255 * 2 ^ 23 then 255 * 2 ^ 23 else bits

/-- Addition of two `float`s (IEEE 754 binary32, round to nearest, ties to
even) on their bit patterns: the C expression `x + y` as stored back into a
`float`. A NaN operand and the sum of opposite infinities give the quiet NaN
`f32_nan`; which NaN the hardware yields there is not fixed, and every NaN
behaves alike in the comparisons below. An exact zero sum of opposite signs is
`+0.0f`. -/
def f32_add (x0 y0 : Nat) : Nat :=
  let x := x0 % 2 ^ 32
  let y := y0 % 2 ^ 32
  if f32_is_nan x = true ∨ f32_is_nan y = true then f32_nan
  else if f32_is_inf x = true then
    if f32_is_inf y = true ∧ f32_sign_bit x ≠ f32_sign_bit y then f32_nan else x
  else if f32_is_inf y = true then y
  else if f32_sign_bit x = f32_sign_bit y then f32_sign_bit x + f32_round (f32_mag x + f32_mag y)
  else if f32_mag x = f32_mag y then 0
  else if f32_mag x > f32_mag y then f32_sign_bit x + f32_round (f32_mag x - f32_mag y)
  else f32_sign_bit y + f32_round (f32_mag y - f32_mag x)

/-- The place of a `float` that is no NaN in the order of the extended reals,
as a natural number: the magnitude bits order the floats of one sign, and both
zeros share a place. -/
def f32_key (b : Nat) : Nat :=
  if f32_sign_bit b = 0 then 2 ^ 31 + b % 2 ^ 31 else 2 ^ 31 - b % 2 ^ 31

/-- The C comparison `x > y` on `float`s: false when either is a NaN. -/
def f32_gt (x y : Nat) : Bool :=
  !f32_is_nan (x % 2 ^ 32) && !f32_is_nan (y % 2 ^ 32) && decide (f32_key x > f32_key y)

/-- The C comparison `x >= y` on `float`s: false when either is a NaN. -/
def f32_ge (x y : Nat) : Bool :=
  !f32_is_nan (x % 2 ^ 32) && !f32_is_nan (y % 2 ^ 32) && decide (f32_key x ≥ f32_key y)

/-! ## Handshake and tick -/

/-- A rectangle as `GetWindowRect` and `GetMonitorInfo` report it. -/
structure rect where
  left : Int
  right : Int
  top : Int
  bottom : Int
  deriving DecidableEq, Repr

/-- What the operating system, the graphics subsystem and the host answer
during one tick: one field per call the tick can make. A handle answer of `0`
is `NULL` (the call failed). `signalled` is the state an event or process
handle shows when polled. -/
structure tick_env where
  signalled : Nat → Bool
  get_event_hook_ready : Nat
  exit_code : Nat
  event_restart : Nat
  event_stop : Nat
  event_ready : Nat
  event_exit : Nat
  open_file_mapping : Nat
  map_view_data : Option capture_data
  gs_texture_create : Nat
  gs_texture_open_shared : Nat
  foreground_window : Nat
  window_rect : Option rect
  window_style : Nat
  monitor : Nat
  monitor_rect : Option rect
  find_window_dwm : Nat
  find_window : Nat
  window_thread_id : Nat
  window_process_id : Nat
  open_process : Nat
  is_64bit_windows : Bool
  is_wow64_process : Option Bool
  create_keepalive : Nat
  mutex_texture1 : Nat
  mutex_texture2 : Nat
  get_hook_info : Nat
  map_view_hook_info : Option hook_info
  shared_texture_available : Bool
  pipe_server_start : Bool
  open_event_restart : Nat
  module_file : String → Option String
  create_file : String → Bool
  create_process : Option Nat
  is_window : Bool
  video : Option obs_video_info

/-- Undefined behaviour the C code can run into, by cause. -/
inductive Fault where
  | null_header
  | null_payload
  | null_string
  | division_by_zero
  deriving DecidableEq, Repr

/-- The steps of the two initialisation sequences, `init_hook` (lines 623-642)
and `start_capture` (lines 880-894). -/
inductive Step where
  | open_target_process
  | init_keepalive
  | init_texture_mutexes
  | init_hook_info
  | init_pipe
  | inject_hook
  | init_events
  | init_capture_data
  | init_shmem_capture
  | init_shtex_capture
  deriving DecidableEq, Repr

/-- Calls between the functions of game-capture.c, in program order; a step of
an initialisation sequence is logged with the outcome it returned. -/
inductive Call where
  | stop_capture
  | try_hook
  | init_hook
  | start_capture
  | copy_texture
  | cursor_capture
  | reset_frame_interval
  | existing_hook (found : Bool)
  | step (s : Step) (ok : Bool)
  deriving DecidableEq, Repr

/-- The state a tick threads through: the session, the world of the frame
synchronizer, the calls made so far and the calls into the system made by
`stop_capture`, `copy_shmem_tex`, `close_handle` and `SetEvent`. -/
structure tick_state where
  gc : game_capture
  world : World
  calls : List Call
  trace : List Event

/-- Modelled from the spec: `object_signalled` on an event or process handle, a
poll with a zero timeout that answers `false` for a null handle. -/
def handle_signalled (env : tick_env) (h : Nat) : Bool :=
  decide (h ≠ 0) && env.signalled h

/-- A call of `stop_capture` inside a tick. -/
def do_stop_capture (st : tick_state) : tick_state :=
  { st with
    gc := (stop_capture st.gc).1
    calls := st.calls ++ [Call.stop_capture]
    trace := st.trace ++ (stop_capture st.gc).2 }

/-- Function `check_file_integrity` (lines 363-395): a null or empty path is
not found, otherwise the file has to open for reading and execution. -/
def check_file_integrity (env : tick_env) (file : Option String) : Bool :=
  match file with
  | none => false
  | some f => if f = "" then false else env.create_file f

/-- Function `is_64bit_process` (lines 408-419), with `is_64bit_windows` and
`IsWow64Process` answered by the environment. -/
def is_64bit_process (env : tick_env) : Bool :=
  if env.is_64bit_windows then
    match env.is_wow64_process with
    | none => false
    | some x86 => !x86
  else
    false

/-- Function `open_target_process` (lines 421-433). -/
def open_target_process (env : tick_env) (gc : game_capture) : game_capture × Bool :=
  if env.open_process = 0 then
    ({ gc with target_process := env.open_process }, false)
  else
    ({ gc with target_process := env.open_process, process_is_64bit := is_64bit_process env },
     true)

/-- Function `init_keepalive` (lines 435-445). -/
def init_keepalive (env : tick_env) (gc : game_capture) : game_capture × Bool :=
  ({ gc with keep_alive := env.create_keepalive }, decide (env.create_keepalive ≠ 0))

/-- Function `init_texture_mutexes` (lines 447-460). -/
def init_texture_mutexes (env : tick_env) (gc : game_capture) : game_capture × Bool :=
  ({ gc with texture_mutexes := (env.mutex_texture1, env.mutex_texture2) },
   decide (env.mutex_texture1 ≠ 0 ∧ env.mutex_texture2 ≠ 0))

/-- Function `attempt_existing_hook` (lines 463-474): the result is the session,
whether an existing hook answered, and the `SetEvent` call made. -/
def attempt_existing_hook (env : tick_env) (gc : game_capture) :
    game_capture × Bool × List Event :=
  if env.open_event_restart ≠ 0 then
    ({ gc with hook_restart := env.open_event_restart }, true,
     [Event.SetEvent env.open_event_restart])
  else
    ({ gc with hook_restart := env.open_event_restart }, false, [])

/-- The fault behind a `reset_frame_interval` that has no result: the division
is evaluated before the header is written. -/
def reset_frame_interval_fault (gc : game_capture) (video : Option obs_video_info) : Fault :=
  match gc.config.limit_framerate, video with
  | true, some ovi => if ovi.fps_num = 0 then Fault.division_by_zero else Fault.null_header
  | _, _ => Fault.null_header

/-- Function `init_hook_info` (lines 487-525). `gs_shared_texture_available` is
asked twice with the same answer. -/
def init_hook_info (env : tick_env) (gc : game_capture) : Except Fault (game_capture × Bool) :=
  if env.get_hook_info = 0 then
    Except.ok ({ gc with global_hook_info_map := env.get_hook_info }, false)
  else
    match env.map_view_hook_info with
    | none =>
        Except.ok ({ gc with global_hook_info_map := env.get_hook_info,
                             global_hook_info := none }, false)
    | some hi =>
        let gc1 := { gc with
          global_hook_info_map := env.get_hook_info
          global_hook_info := some { hi with
            offsets_64bit := gc.process_is_64bit
            capture_overlay := gc.config.capture_overlays
            force_shmem := gc.config.force_shmem
            use_scale := gc.config.force_scaling
            cx := gc.config.scale_cx
            cy := gc.config.scale_cy } }
        match reset_frame_interval gc1 env.video with
        | none => Except.error (reset_frame_interval_fault gc1 env.video)
        | some gc2 =>
            Except.ok
              ({ gc2 with
                  global_hook_info := gc2.global_hook_info.map (fun h =>
                    { h with force_shmem :=
                        if env.shared_texture_available then h.force_shmem else true }) },
               true)

/-- Function `init_pipe` (lines 534-545). -/
def init_pipe (env : tick_env) (gc : game_capture) : game_capture × Bool :=
  ({ gc with pipe := env.pipe_server_start }, env.pipe_server_start)

/-- Function `create_inject_process` (lines 547-579); `create_process` is the
process handle `CreateProcessW` hands back, `none` when it fails. -/
def create_inject_process (env : tick_env) (gc : game_capture) : game_capture × Bool :=
  match env.create_process with
  | some h => ({ gc with injector_process := h }, true)
  | none => (gc, false)

/-- Function `inject_hook` (lines 581-608). -/
def inject_hook (env : tick_env) (gc : game_capture) : game_capture × Bool :=
  let inject_path :=
    if gc.process_is_64bit then env.module_file "inject-helper64.exe"
    else env.module_file "inject-helper32.exe"
  let hook_path :=
    if gc.process_is_64bit then env.module_file "graphics-hook64.dll"
    else env.module_file "graphics-hook32.dll"
  if check_file_integrity env inject_path = false then (gc, false)
  else if check_file_integrity env hook_path = false then (gc, false)
  else create_inject_process env gc

/-- Append one call to the log. -/
def log_call (st : tick_state) (c : Call) : tick_state :=
  { st with calls := st.calls ++ [c] }

/-- Function `init_hook` (lines 610-648); the second component is its return
value. -/
def init_hook (env : tick_env) (st : tick_state) : Except Fault (tick_state × Bool) :=
  let r1 := open_target_process env st.gc
  let st1 := { st with
    gc := r1.1
    calls := st.calls ++ [Call.init_hook, Call.step Step.open_target_process r1.2] }
  if r1.2 = false then Except.ok (st1, false)
  else
    let r2 := init_keepalive env st1.gc
    let st2 := { st1 with gc := r2.1, calls := st1.calls ++ [Call.step Step.init_keepalive r2.2] }
    if r2.2 = false then Except.ok (st2, false)
    else
      let r3 := init_texture_mutexes env st2.gc
      let st3 := { st2 with
        gc := r3.1
        calls := st2.calls ++ [Call.step Step.init_texture_mutexes r3.2] }
      if r3.2 = false then Except.ok (st3, false)
      else
        match init_hook_info env st3.gc with
        | Except.error f => Except.error f
        | Except.ok r4 =>
            let st4 := { st3 with
              gc := r4.1
              calls := st3.calls ++ [Call.step Step.init_hook_info r4.2] }
            if r4.2 = false then Except.ok (st4, false)
            else
              let r5 := init_pipe env st4.gc
              let st5 := { st4 with
                gc := r5.1
                calls := st4.calls ++ [Call.step Step.init_pipe r5.2] }
              if r5.2 = false then Except.ok (st5, false)
              else
                let r6 := attempt_existing_hook env st5.gc
                let st6 := { st5 with
                  gc := r6.1
                  calls := st5.calls ++ [Call.existing_hook r6.2.1]
                  trace := st5.trace ++ r6.2.2 }
                if r6.2.1 = true then
                  Except.ok ({ st6 with gc := { st6.gc with
                    window := st6.gc.next_window, next_window := 0, active := true } }, true)
                else
                  let r7 := inject_hook env st6.gc
                  let st7 := { st6 with
                    gc := r7.1
                    calls := st6.calls ++ [Call.step Step.inject_hook r7.2] }
                  if r7.2 = false then Except.ok (st7, false)
                  else
                    Except.ok ({ st7 with gc := { st7.gc with
                      window := st7.gc.next_window, next_window := 0, active := true } }, true)

/-- The window style bit `WS_MAXIMIZE`. -/
def WS_MAXIMIZE : Nat := 16777216

/-- The window style bit `WS_BORDER`. -/
def WS_BORDER : Nat := 8388608

/-- Function `get_fullscreen_window` (lines 650-689). -/
def get_fullscreen_window (env : tick_env) (gc : game_capture) : game_capture :=
  let window := env.foreground_window
  let found : Nat :=
    if window = 0 then 0
    else
      match env.window_rect with
      | none => 0
      | some r =>
          if Nat.land env.window_style WS_MAXIMIZE ≠ 0 ∧ Nat.land env.window_style WS_BORDER ≠ 0
          then 0
          else if env.monitor = 0 then 0
          else
            match env.monitor_rect with
            | none => 0
            | some mi =>
                if r.left = mi.left ∧ r.right = mi.right ∧ r.bottom = mi.bottom ∧ r.top = mi.top
                then window
                else 0
  { gc with next_window := found }

/-- Function `get_selected_window` (lines 691-704); `strcmpi` on a null class
string is a fault. -/
def get_selected_window (env : tick_env) (gc : game_capture) : Except Fault game_capture :=
  match gc.config.class_ with
  | none => Except.error Fault.null_string
  | some c =>
      if c.toLower = "dwm" then Except.ok { gc with next_window := env.find_window_dwm }
      else Except.ok { gc with next_window := env.find_window }

/-- Lines 708-712 of `try_hook`: look for the target window. -/
def find_target (env : tick_env) (gc : game_capture) : Except Fault game_capture :=
  if gc.config.capture_any_fullscreen then Except.ok (get_fullscreen_window env gc)
  else get_selected_window env gc

/-- Function `try_hook` (lines 706-731). -/
def try_hook (env : tick_env) (st : tick_state) : Except Fault tick_state :=
  let st0 := log_call st Call.try_hook
  match find_target env st0.gc with
  | Except.error f => Except.error f
  | Except.ok gc1 =>
      if gc1.next_window ≠ 0 then
        let gc2 := { gc1 with
          thread_id := env.window_thread_id
          process_id := env.window_process_id }
        if gc2.thread_id = 0 ∨ gc2.process_id = 0 then
          Except.ok { st0 with gc := { gc2 with error_aqcuiring := true } }
        else
          match init_hook env { st0 with gc := gc2 } with
          | Except.error f => Except.error f
          | Except.ok r => if r.2 = false then Except.ok (do_stop_capture r.1) else Except.ok r.1
      else
        Except.ok { st0 with gc := { gc1 with active := false } }

/-- Function `init_events` (lines 733-767). -/
def init_events (env : tick_env) (gc : game_capture) : game_capture × Bool :=
  let gc1 := if gc.hook_restart = 0 then { gc with hook_restart := env.event_restart } else gc
  if gc1.hook_restart = 0 then (gc1, false)
  else
    let gc2 := { gc1 with hook_stop := env.event_stop }
    if gc2.hook_stop = 0 then (gc2, false)
    else
      let gc3 := { gc2 with hook_ready := env.event_ready }
      if gc3.hook_ready = 0 then (gc3, false)
      else
        let gc4 := { gc3 with hook_exit := env.event_exit }
        if gc4.hook_exit = 0 then (gc4, false) else (gc4, true)

/-- Function `init_capture_data` (lines 769-794); reading the header through a
null `global_hook_info` is a fault. -/
def init_capture_data (env : tick_env) (gc : game_capture) : Except Fault (game_capture × Bool) :=
  match gc.global_hook_info with
  | none => Except.error Fault.null_header
  | some hi =>
      let gc1 := { gc with
        cx := hi.cx
        cy := hi.cy
        pitch := hi.pitch
        hook_data_map := env.open_file_mapping }
      if gc1.hook_data_map = 0 then Except.ok (gc1, false)
      else
        let gc2 := { gc1 with data := env.map_view_data }
        if gc2.data.isNone then Except.ok (gc2, false) else Except.ok (gc2, true)

/-- Modelled from the spec: the discriminant `CAPTURE_TYPE_MEMORY` of the
header's transfer type (CPU memory as opposed to GPU texture), declared in
graphics-hook-info.h, which is not among the sources. -/
def CAPTURE_TYPE_MEMORY : Nat := 0

/-- Function `init_shmem_capture` (lines 842-862). -/
def init_shmem_capture (env : tick_env) (gc : game_capture) : Except Fault (game_capture × Bool) :=
  match gc.data, gc.global_hook_info with
  | none, _ => Except.error Fault.null_payload
  | some _, none => Except.error Fault.null_header
  | some d, some _ =>
      let gc1 := { gc with
        texture_buffers := (d.shmem.tex1_offset, d.shmem.tex2_offset)
        texture := env.gs_texture_create }
      if gc1.texture = 0 then Except.ok (gc1, false)
      else Except.ok ({ gc1 with copy_texture := some copy_texture_fn.copy_shmem_tex }, true)

/-- Function `init_shtex_capture` (lines 864-876). -/
def init_shtex_capture (env : tick_env) (gc : game_capture) : Except Fault (game_capture × Bool) :=
  match gc.data with
  | none => Except.error Fault.null_payload
  | some _ =>
      let gc1 := { gc with texture := env.gs_texture_open_shared }
      if gc1.texture = 0 then Except.ok (gc1, false) else Except.ok (gc1, true)

/-- Function `start_capture` (lines 878-897); the second component is its
return value. -/
def start_capture (env : tick_env) (st : tick_state) : Except Fault (tick_state × Bool) :=
  let r1 := init_events env st.gc
  let st1 := { st with
    gc := r1.1
    calls := st.calls ++ [Call.start_capture, Call.step Step.init_events r1.2] }
  if r1.2 = false then Except.ok (st1, false)
  else
    match init_capture_data env st1.gc with
    | Except.error f => Except.error f
    | Except.ok r2 =>
        let st2 := { st1 with
          gc := r2.1
          calls := st1.calls ++ [Call.step Step.init_capture_data r2.2] }
        if r2.2 = false then Except.ok (st2, false)
        else
          match st2.gc.global_hook_info with
          | none => Except.error Fault.null_header
          | some hi =>
              if hi.capture_type = CAPTURE_TYPE_MEMORY then
                match init_shmem_capture env st2.gc with
                | Except.error f => Except.error f
                | Except.ok r3 =>
                    Except.ok ({ st2 with
                      gc := r3.1
                      calls := st2.calls ++ [Call.step Step.init_shmem_capture r3.2] }, r3.2)
              else
                match init_shtex_capture env st2.gc with
                | Except.error f => Except.error f
                | Except.ok r3 =>
                    Except.ok ({ st2 with
                      gc := r3.1
                      calls := st2.calls ++ [Call.step Step.init_shtex_capture r3.2] }, r3.2)

/-- Lines 903-905 of `game_capture_tick`: the stop event. -/
def tick_stop (env : tick_env) (st : tick_state) : tick_state :=
  if st.gc.hook_stop ≠ 0 ∧ handle_signalled env st.gc.hook_stop = true then do_stop_capture st
  else st

/-- Lines 907-910 of `game_capture_tick`: open the ready event. -/
def tick_open_ready (env : tick_env) (st : tick_state) : tick_state :=
  if st.gc.active = true ∧ st.gc.hook_ready = 0 ∧ st.gc.process_id ≠ 0 then
    { st with gc := { st.gc with hook_ready := env.get_event_hook_ready } }
  else st

/-- Lines 912-922 of `game_capture_tick`: the injector process. -/
def tick_injector (env : tick_env) (st : tick_state) : tick_state :=
  if st.gc.injector_process ≠ 0 ∧ handle_signalled env st.gc.injector_process = true then
    let h := close_handle st.gc.injector_process
    { st with
      gc := { st.gc with
        injector_process := h.1
        error_aqcuiring := if env.exit_code ≠ 0 then true else st.gc.error_aqcuiring }
      trace := st.trace ++ h.2 }
  else st

/-- Lines 924-929 of `game_capture_tick`: the ready event. -/
def tick_ready (env : tick_env) (st : tick_state) : Except Fault tick_state :=
  if st.gc.hook_ready ≠ 0 ∧ handle_signalled env st.gc.hook_ready = true then
    match start_capture env st with
    | Except.error f => Except.error f
    | Except.ok r =>
        if r.2 = false then
          let s := do_stop_capture r.1
          Except.ok { s with gc := { s.gc with error_aqcuiring := true } }
        else Except.ok r.1
  else Except.ok st

/-- Lines 933-940 of `game_capture_tick`: the inactive session. -/
def tick_search (env : tick_env) (st : tick_state) : Except Fault tick_state :=
  if st.gc.error_aqcuiring = false ∧ f32_gt st.gc.check_interval f32_three = true then
    if st.gc.config.capture_any_fullscreen = true ∨ st.gc.activate_hook = true then
      match try_hook env st with
      | Except.error f => Except.error f
      | Except.ok s => Except.ok { s with gc := { s.gc with check_interval := 0 } }
    else Except.ok st
  else Except.ok st

/-- Lines 948-964 of `game_capture_tick`: copy, cursor and frame interval of a
capturing session. -/
def tick_frame (env : tick_env) (st : tick_state) (seconds : Nat) : Except Fault tick_state :=
  let copied : Except Fault tick_state :=
    match st.gc.copy_texture with
    | some copy_texture_fn.copy_shmem_tex =>
        match copy_shmem_tex st.gc st.world with
        | none => Except.error Fault.null_payload
        | some r =>
            Except.ok { st with
              world := r.world
              calls := st.calls ++ [Call.copy_texture]
              trace := st.trace ++ r.trace }
    | none => Except.ok st
  match copied with
  | Except.error f => Except.error f
  | Except.ok st1 =>
      let st2 := if st1.gc.config.cursor then log_call st1 Call.cursor_capture else st1
      let gc3 := { st2.gc with
        fps_reset_interval := f32_add st2.gc.fps_reset_interval seconds }
      if f32_ge gc3.fps_reset_interval f32_three = true then
        match reset_frame_interval gc3 env.video with
        | none => Except.error (reset_frame_interval_fault gc3 env.video)
        | some gc4 =>
            Except.ok { st2 with
              gc := { gc4 with fps_reset_interval := 0 }
              calls := st2.calls ++ [Call.reset_frame_interval] }
      else Except.ok { st2 with gc := gc3 }

/-- Lines 942-966 of `game_capture_tick`: the active session. -/
def tick_capture (env : tick_env) (st : tick_state) (seconds : Nat) : Except Fault tick_state :=
  if (env.is_window = false ∧ st.gc.dwm_capture = false) ∨
      handle_signalled env st.gc.target_process = true then
    Except.ok (do_stop_capture st)
  else tick_frame env st seconds

/-- Function `game_capture_tick` (lines 899-967). `env` answers the calls made
during the tick, `w` is the world of the frame synchronizer on entry, `seconds`
the elapsed time. The result is a fault where the C code's behaviour is
undefined. -/
def game_capture_tick (env : tick_env) (gc : game_capture) (w : World) (seconds : Nat) :
    Except Fault tick_state :=
  let st0 : tick_state := { gc := gc, world := w, calls := [], trace := [] }
  let st3 := tick_injector env (tick_open_ready env (tick_stop env st0))
  match tick_ready env st3 with
  | Except.error f => Except.error f
  | Except.ok st4 =>
      let st5 := { st4 with
        gc := { st4.gc with check_interval := f32_add st4.gc.check_interval seconds } }
      if st5.gc.active = false then tick_search env st5
      else tick_capture env st5 seconds

/-- Function `game_capture_create` (lines 333-341): `bzalloc` zeroes the
session and `initial_config` is set before the first update. -/
def game_capture_create (build_window_strings : String → window_strings)
    (stack : game_capture_config) (settings : obs_data) :
    game_capture × obs_data × List Event :=
  game_capture_update build_window_strings stack
    { injector_process := 0, cx := 0, cy := 0, pitch := 0, process_id := 0, thread_id := 0,
      next_window := 0, window := 0, check_interval := 0, fps_reset_interval := 0,
      active := false, activate_hook := false, process_is_64bit := false,
      error_aqcuiring := false, dwm_capture := false, initial_config := true,
      config :=
        { title := none, class_ := none, executable := none, priority := 0,
          scale_cx := 0, scale_cy := 0, cursor := false, force_shmem := false,
          capture_any_fullscreen := false, force_scaling := false,
          allow_transparency := false, limit_framerate := false, capture_overlays := false },
      pipe := false, texture := 0, global_hook_info := none,
      keep_alive := 0, hook_restart := 0, hook_stop := 0, hook_ready := 0, hook_exit := 0,
      hook_data_map := 0, global_hook_info_map := 0, target_process := 0,
      texture_mutexes := (0, 0), data := none, texture_buffers := (0, 0),
      copy_texture := none }
    settings

/-- Function `game_capture_width` (lines 1018-1022). -/
def game_capture_width (gc : game_capture) : Except Fault Nat :=
  if gc.active then
    match gc.global_hook_info with
    | none => Except.error Fault.null_header
    | some hi => Except.ok hi.cx
  else Except.ok 0

/-- Function `game_capture_height` (lines 1024-1028). -/
def game_capture_height (gc : game_capture) : Except Fault Nat :=
  if gc.active then
    match gc.global_hook_info with
    | none => Except.error Fault.null_header
    | some hi => Except.ok hi.cy
  else Except.ok 0

/-- The draw calls of `game_capture_render`. -/
inductive render_call where
  | obs_source_draw (texture : Nat) (flip : Bool)
  | cursor_draw
  deriving DecidableEq, Repr

/-- Function `game_capture_render_cursor` (lines 969-988). -/
def game_capture_render_cursor (gc : game_capture) : Except Fault (List render_call) :=
  match gc.global_hook_info with
  | none => Except.error Fault.null_header
  | some hi =>
      if hi.window = 0 ∨ hi.base_cx = 0 ∨ hi.base_cy = 0 then Except.ok []
      else Except.ok [render_call.cursor_draw]

/-- One pass of the effect loop of `game_capture_render` (lines 999-1014). -/
def render_pass (gc : game_capture) : Except Fault (List render_call) :=
  match gc.global_hook_info with
  | none => Except.error Fault.null_header
  | some hi =>
      if gc.config.cursor then
        match game_capture_render_cursor gc with
        | Except.error f => Except.error f
        | Except.ok l => Except.ok (render_call.obs_source_draw gc.texture hi.flip :: l)
      else Except.ok [render_call.obs_source_draw gc.texture hi.flip]

/-- Function `game_capture_render` (lines 990-1016); `passes` is the number of
times `gs_effect_loop` lets the body run. -/
def game_capture_render (gc : game_capture) (passes : Nat) : Except Fault (List render_call) :=
  if gc.texture = 0 then Except.ok []
  else
    match passes with
    | 0 => Except.ok []
    | n + 1 =>
        match render_pass gc with
        | Except.error f => Except.error f
        | Except.ok l => Except.ok ((List.replicate (n + 1) l).flatten)

/-- What the agent in the target process may do between two calls of the host:
rewrite the contents of the mapped header and payload. The views stay mapped
or unmapped as they were. -/
def agent_write (f : hook_info → hook_info) (g : capture_data → capture_data)
    (gc : game_capture) : game_capture :=
  { gc with global_hook_info := gc.global_hook_info.map f, data := gc.data.map g }

/-- The session states reachable from `game_capture_create` by
`game_capture_update`, `game_capture_tick` (when it completes) and
`stop_capture`, with the agent writing to the shared views in between. -/
inductive Reachable : game_capture → Prop where
  | create (bws : String → window_strings) (stack : game_capture_config) (settings : obs_data) :
      Reachable (game_capture_create bws stack settings).1
  | update (bws : String → window_strings) (stack : game_capture_config) (settings : obs_data)
      (gc : game_capture) :
      Reachable gc → Reachable (game_capture_update bws stack gc settings).1
  | tick (env : tick_env) (w : World) (seconds : Nat) (gc : game_capture) (st : tick_state) :
      Reachable gc → game_capture_tick env gc w seconds = Except.ok st → Reachable st.gc
  | stop (gc : game_capture) : Reachable gc → Reachable (stop_capture gc).1
  | agent (f : hook_info → hook_info) (g : capture_data → capture_data) (gc : game_capture) :
      Reachable gc → Reachable (agent_write f g gc)

/-- A torn-down session: inactive, both views unmapped, no texture, no copy
function, and every handle `stop_capture` closes is null. -/
def torn_down (gc : game_capture) : Prop :=
  gc.active = false ∧ gc.global_hook_info = none ∧ gc.data = none ∧ gc.texture = 0 ∧
  gc.copy_texture = none ∧
  gc.keep_alive = 0 ∧ gc.hook_restart = 0 ∧ gc.hook_stop = 0 ∧ gc.hook_ready = 0 ∧
  gc.hook_exit = 0 ∧ gc.hook_data_map = 0 ∧ gc.global_hook_info_map = 0 ∧
  gc.target_process = 0 ∧ gc.texture_mutexes = (0, 0)

/-- The invariant of the session between calls: an active session has its
header mapped, and a ready event or a texture exists only in an active
session. -/
def session_inv (gc : game_capture) : Prop :=
  (gc.active = true → gc.global_hook_info ≠ none) ∧
  (gc.hook_ready ≠ 0 → gc.active = true) ∧
  (gc.texture ≠ 0 → gc.active = true)

/-- A call log without a failed initialisation step. -/
def clean (l : List Call) : Prop :=
  ∀ s, Call.step s false ∉ l

/-- A handle that `close_handle` really closes. -/
def real_handle (h : Nat) : Prop :=
  h ≠ 0 ∧ h ≠ INVALID_HANDLE_VALUE

/-- Whether a logged call is the entry into an initialisation sequence or one
of its steps that succeeded. -/
def ok_step : Call → Bool
  | Call.start_capture => true
  | Call.init_hook => true
  | Call.existing_hook _ => true
  | Call.step _ true => true
  | _ => false

/-- A stretch of an initialisation sequence in which every step succeeded. -/
def ok_steps (l : List Call) : Prop :=
  ∀ c, c ∈ l → ok_step c = true

/-- The fields a step of the handshake leaves alone: the two flags, the ready
event and the texture. -/
def frame (g1 g2 : game_capture) : Prop :=
  g2.active = g1.active ∧ g2.error_aqcuiring = g1.error_aqcuiring ∧
  g2.hook_ready = g1.hook_ready ∧ g2.texture = g1.texture

/-- Whether a step belongs to `start_capture` (as opposed to `init_hook`). -/
def start_step : Step → Bool
  | Step.init_events => true
  | Step.init_capture_data => true
  | Step.init_shmem_capture => true
  | Step.init_shtex_capture => true
  | _ => false

/-- The fields of the session that the first phases of a tick (opening the
ready event, polling the injector) leave alone. -/
def same_session (g1 g2 : game_capture) : Prop :=
  g2.active = g1.active ∧ g2.target_process = g1.target_process ∧
  g2.dwm_capture = g1.dwm_capture ∧ g2.copy_texture = g1.copy_texture ∧
  g2.keep_alive = g1.keep_alive ∧ g2.hook_restart = g1.hook_restart ∧
  g2.hook_stop = g1.hook_stop ∧ g2.hook_exit = g1.hook_exit ∧
  g2.hook_data_map = g1.hook_data_map ∧
  g2.global_hook_info_map = g1.global_hook_info_map ∧
  g2.texture_mutexes = g1.texture_mutexes ∧ g2.texture = g1.texture ∧
  g2.global_hook_info = g1.global_hook_info ∧ g2.data = g1.data ∧
  g2.config = g1.config ∧ g2.activate_hook = g1.activate_hook

/-- Whether a logged call is compatible with the initialisation sequence
`start` (`true` for `start_capture`, `false` for `init_hook`): anything but a
step of the other sequence. -/
def in_sequence (start : Bool) : Call → Bool
  | Call.step s _ => start_step s == start
  | _ => true

/-- The session `g` holds what the steps of `init_hook` in the log `l` obtained
from the system: the target process, the keep-alive event, the two texture
mutexes, the header mapping with its view, and the started pipe server. -/
def hook_held (env : tick_env) (l : List Call) (g : game_capture) : Prop :=
  (∀ b, Call.step Step.open_target_process b ∈ l → g.target_process = env.open_process) ∧
  (∀ b, Call.step Step.init_keepalive b ∈ l → g.keep_alive = env.create_keepalive) ∧
  (∀ b, Call.step Step.init_texture_mutexes b ∈ l →
    g.texture_mutexes = (env.mutex_texture1, env.mutex_texture2)) ∧
  (∀ b, Call.step Step.init_hook_info b ∈ l →
    g.global_hook_info_map = env.get_hook_info ∧
    (env.get_hook_info ≠ 0 → env.map_view_hook_info ≠ none → g.global_hook_info ≠ none)) ∧
  (Call.step Step.init_pipe true ∈ l → g.pipe = true)

/-- What the steps of `init_hook` in the log `l` obtained from the system has
been released in the trace `t`: every real handle closed, the header view
unmapped, the pipe server stopped. -/
def hook_released (env : tick_env) (l : List Call) (t : List Event) : Prop :=
  (∀ b, Call.step Step.open_target_process b ∈ l → real_handle env.open_process →
    Event.CloseHandle env.open_process ∈ t) ∧
  (∀ b, Call.step Step.init_keepalive b ∈ l → real_handle env.create_keepalive →
    Event.CloseHandle env.create_keepalive ∈ t) ∧
  (∀ b, Call.step Step.init_texture_mutexes b ∈ l →
    (real_handle env.mutex_texture1 → Event.CloseHandle env.mutex_texture1 ∈ t) ∧
    (real_handle env.mutex_texture2 → Event.CloseHandle env.mutex_texture2 ∈ t)) ∧
  (∀ b, Call.step Step.init_hook_info b ∈ l →
    (real_handle env.get_hook_info → Event.CloseHandle env.get_hook_info ∈ t) ∧
    (env.get_hook_info ≠ 0 → env.map_view_hook_info ≠ none →
      Event.UnmapViewOfFile_hook_info ∈ t)) ∧
  (Call.step Step.init_pipe true ∈ l → Event.pipe_server_stopped ∈ t)

/-- The session `g` holds what `start_capture`, entered with the session `g0`
and logged in `l`, obtained from the system: the restart event when it was not
open yet, the stop, ready and exit events as far as `init_events` got, and the
payload mapping with its view. -/
def start_held (env : tick_env) (g0 : game_capture) (l : List Call) (g : game_capture) : Prop :=
  (g0.hook_restart = 0 → g.hook_restart = env.event_restart) ∧
  (g0.hook_restart ≠ 0 ∨ env.event_restart ≠ 0 → g.hook_stop = env.event_stop) ∧
  (g0.hook_restart ≠ 0 ∨ env.event_restart ≠ 0 → env.event_stop ≠ 0 →
    g.hook_ready = env.event_ready) ∧
  (g0.hook_restart ≠ 0 ∨ env.event_restart ≠ 0 → env.event_stop ≠ 0 → env.event_ready ≠ 0 →
    g.hook_exit = env.event_exit) ∧
  (∀ b, Call.step Step.init_capture_data b ∈ l →
    g.hook_data_map = env.open_file_mapping ∧
    (env.open_file_mapping ≠ 0 → env.map_view_data ≠ none → g.data ≠ none))

/-- What `start_capture`, entered with the session `g0` and logged in `l`,
obtained from the system has been released in the trace `t`: every real handle
closed and the payload view unmapped. -/
def start_released (env : tick_env) (g0 : game_capture) (l : List Call) (t : List Event) :
    Prop :=
  (g0.hook_restart = 0 → real_handle env.event_restart →
    Event.CloseHandle env.event_restart ∈ t) ∧
  (g0.hook_restart ≠ 0 ∨ env.event_restart ≠ 0 → real_handle env.event_stop →
    Event.CloseHandle env.event_stop ∈ t) ∧
  (g0.hook_restart ≠ 0 ∨ env.event_restart ≠ 0 → env.event_stop ≠ 0 →
    real_handle env.event_ready → Event.CloseHandle env.event_ready ∈ t) ∧
  (g0.hook_restart ≠ 0 ∨ env.event_restart ≠ 0 → env.event_stop ≠ 0 → env.event_ready ≠ 0 →
    real_handle env.event_exit → Event.CloseHandle env.event_exit ∈ t) ∧
  (∀ b, Call.step Step.init_capture_data b ∈ l →
    (real_handle env.open_file_mapping → Event.CloseHandle env.open_file_mapping ∈ t) ∧
    (env.open_file_mapping ≠ 0 → env.map_view_data ≠ none →
      Event.UnmapViewOfFile_data ∈ t))

/-! ## Concrete sessions used as instances -/

/-- The bits of `1.0f`. -/
def f32_one : Nat := 1065353216

/-- The bits of `4.0f`. -/
def f32_four : Nat := 1082130432

/-- The bits of `5.0f`. -/
def f32_five : Nat := 1084227584

/-- The bits of `10.0f`. -/
def f32_ten : Nat := 1092616192


/-- The all-zero configuration (`memset` to zero). -/
def cfg_zero : game_capture_config :=
  { title := none, class_ := none, executable := none, priority := 0,
    scale_cx := 0, scale_cy := 0, cursor := false, force_shmem := false,
    capture_any_fullscreen := false, force_scaling := false,
    allow_transparency := false, limit_framerate := false, capture_overlays := false }

/-- The session as `bzalloc` leaves it: every field zero. -/
def gc_zero : game_capture :=
  { injector_process := 0, cx := 0, cy := 0, pitch := 0, process_id := 0, thread_id := 0,
    next_window := 0, window := 0, check_interval := 0, fps_reset_interval := 0,
    active := false, activate_hook := false, process_is_64bit := false,
    error_aqcuiring := false, dwm_capture := false, initial_config := false,
    config := cfg_zero, pipe := false, texture := 0, global_hook_info := none,
    keep_alive := 0, hook_restart := 0, hook_stop := 0, hook_ready := 0, hook_exit := 0,
    hook_data_map := 0, global_hook_info_map := 0, target_process := 0,
    texture_mutexes := (0, 0), data := none, texture_buffers := (0, 0),
    copy_texture := none }

/-- The all-zero header record. -/
def hook_info_zero : hook_info :=
  { capture_type := 0, window := 0, format := 0, cx := 0, cy := 0, base_cx := 0, base_cy := 0,
    pitch := 0, map_id := 0, map_size := 0, flip := false, frame_interval := 0,
    use_scale := false, force_shmem := false, capture_overlay := false, offsets_64bit := false }

/-- Settings with every toggle off, an empty window string and the
resolution string `res`. -/
def settings_of (force_scaling : Bool) (res : String) : obs_data :=
  { window := "", capture_any_fullscreen := false, priority := 0, sli_compatibility := false,
    capture_cursor := false, allow_transparency := false, force_scaling := force_scaling,
    scale_res := res, limit_framerate := false, capture_overlays := false,
    activate_hook := false }

/-- A `build_window_strings` that finds no target in any string. -/
def no_window_strings (_ : String) : window_strings :=
  { class_ := none, title := none, executable := none }

/-- A payload view whose `last_tex` is `last` and whose bytes are all `b`. -/
def payload_const (last : Int) (b : Nat) : capture_data :=
  { shmem := { last_tex := last, tex1_offset := 0, tex2_offset := 0 },
    tex_handle := 0, bytes := fun _ => b }

/-- A capturing session in CPU-memory mode: mutex handles 11 and 12, texture 5,
geometry `pitch` by `cy`, payload `d`. -/
def gc_shmem (pitch cy : Nat) (d : capture_data) : game_capture :=
  { gc_zero with
    active := true, pitch := pitch, cy := cy, texture := 5,
    texture_mutexes := (11, 12), data := some d,
    copy_texture := some copy_texture_fn.copy_shmem_tex }

/-- A world in which mutex 11 has state `m11`, every other mutex is free, the
texture maps with row pitch `p` and all its bytes are zero. -/
def world_of (m11 : MutexState) (p : Option Nat) : World :=
  { mutex := fun h => if h = 11 then m11 else MutexState.free,
    tex_map := p, tex_bytes := fun _ => 0 }

/-- A never-started session: the pipe is not started, every handle that
`stop_capture` looks at is null, both views and the texture are null, there is
no copy function and the session is inactive. -/
def never_started (gc : game_capture) : Prop :=
  gc.pipe = false ∧ gc.global_hook_info = none ∧ gc.data = none ∧
  gc.keep_alive = 0 ∧ gc.hook_restart = 0 ∧ gc.hook_stop = 0 ∧ gc.hook_ready = 0 ∧
  gc.hook_exit = 0 ∧ gc.hook_data_map = 0 ∧ gc.global_hook_info_map = 0 ∧
  gc.target_process = 0 ∧ gc.texture_mutexes = (0, 0) ∧ gc.texture = 0 ∧
  gc.copy_texture = none ∧ gc.active = false

/-- An environment in which every call fails or answers nothing. -/
def env_zero : tick_env :=
  { signalled := fun _ => false, get_event_hook_ready := 0, exit_code := 0,
    event_restart := 0, event_stop := 0, event_ready := 0, event_exit := 0,
    open_file_mapping := 0, map_view_data := none, gs_texture_create := 0,
    gs_texture_open_shared := 0, foreground_window := 0, window_rect := none,
    window_style := 0, monitor := 0, monitor_rect := none, find_window_dwm := 0,
    find_window := 0, window_thread_id := 0, window_process_id := 0, open_process := 0,
    is_64bit_windows := false, is_wow64_process := none, create_keepalive := 0,
    mutex_texture1 := 0, mutex_texture2 := 0, get_hook_info := 0,
    map_view_hook_info := none, shared_texture_available := false,
    pipe_server_start := false, open_event_restart := 0, module_file := fun _ => none,
    create_file := fun _ => false, create_process := none, is_window := false,
    video := none }

/-- A rectangle that fills its monitor. -/
def rect_full : rect :=
  { left := 0, right := 1920, top := 0, bottom := 1080 }

/-- An environment with a fullscreen foreground window (window 100 of thread 7
in process 8) in which every step of `init_hook` up to the pipe succeeds but no
agent answers the restart event and the agent binaries are not found. -/
def env_no_agent : tick_env :=
  { env_zero with
    foreground_window := 100, window_rect := some rect_full, monitor := 1,
    monitor_rect := some rect_full, window_thread_id := 7, window_process_id := 8,
    open_process := 20, create_keepalive := 21, mutex_texture1 := 22, mutex_texture2 := 23,
    get_hook_info := 24, map_view_hook_info := some hook_info_zero,
    pipe_server_start := true, is_window := true }

/-- The same environment with an agent already in the target: the restart
event (handle 25) opens. -/
def env_hooked : tick_env :=
  { env_no_agent with open_event_restart := 25 }

/-- An environment for a capturing session in which the target process (handle
20) has exited. -/
def env_target_exit : tick_env :=
  { env_zero with signalled := fun h => decide (h = 20), is_window := true }

/-- An environment for a capturing session in which nothing happens. -/
def env_quiet : tick_env :=
  { env_zero with is_window := true }

/-- An inactive session configured to capture any fullscreen window. -/
def gc_search : game_capture :=
  { gc_zero with config := { cfg_zero with capture_any_fullscreen := true } }

/-- A session as a successful `init_hook` leaves it: hooked to process 8,
holding handles 20 to 25, the header mapped, waiting for the agent. -/
def gc_hooked : game_capture :=
  { gc_zero with
    active := true, process_id := 8, thread_id := 7, window := 100,
    config := { cfg_zero with capture_any_fullscreen := true },
    target_process := 20, keep_alive := 21, texture_mutexes := (22, 23),
    global_hook_info_map := 24, global_hook_info := some hook_info_zero, pipe := true,
    hook_restart := 25 }

/-- The state in which a tick of four seconds on `gc_search` reaches the search
branch. -/
def st_search : tick_state :=
  { gc := { gc_search with check_interval := f32_add gc_search.check_interval f32_four },
    world := world_of MutexState.free none, calls := [], trace := [] }

/-- The state a completed tick ends in (the empty state for a fault). -/
def st_of (r : Except Fault tick_state) : tick_state :=
  match r with
  | Except.ok st => st
  | Except.error _ =>
      { gc := gc_zero, world := world_of MutexState.free none, calls := [], trace := [] }

/-- The tick that finds the fullscreen window and an agent already in the
target: four seconds after `gc_search`. -/
def st_hooked : tick_state :=
  st_of (game_capture_tick env_hooked gc_search (world_of MutexState.free none) f32_four)

/-- The tick that finds the fullscreen window, no agent in the target and no
agent binaries: four seconds after `gc_search`. -/
def st_no_agent : tick_state :=
  st_of (game_capture_tick env_no_agent gc_search (world_of MutexState.free none) f32_four)

/-- Settings that ask for any fullscreen window. -/
def settings_fullscreen : obs_data :=
  { settings_of false "0x0" with capture_any_fullscreen := true }

/-- An idle session whose `error_aqcuiring` flag is set. -/
def gc_suspended : game_capture :=
  { gc_search with error_aqcuiring := true, check_interval := f32_ten }

/-- The state the tick of `gc_suspended` ends in after five seconds. -/
def st_suspended : tick_state :=
  { gc := { gc_suspended with check_interval := f32_add gc_suspended.check_interval f32_five },
    world := world_of MutexState.free none, calls := [], trace := [] }

/-- The state the tick of `gc_hooked` ends in when the target has exited. -/
def st_target_exit : tick_state :=
  st_of (game_capture_tick env_target_exit gc_hooked (world_of MutexState.free none) f32_one)

/-- An environment for the hooked session in which the agent signals ready
(event 30) and `init_events` then gets the stop event (handle 31) but not the
ready event. -/
def env_ready_fail : tick_env :=
  { env_zero with
    signalled := fun h => decide (h = 30), get_event_hook_ready := 30, event_stop := 31,
    is_window := true }

/-- The state the tick of `gc_hooked` ends in when `start_capture` fails in
`init_events`. -/
def st_ready_fail : tick_state :=
  st_of (game_capture_tick env_ready_fail gc_hooked (world_of MutexState.free none) f32_one)

/-- Whether the event is a poll that found its object signalled (and so took a
mutex). -/
def is_acquire : Event → Bool
  | Event.poll _ true => true
  | _ => false

/-- Whether the event is a `ReleaseMutex` call. -/
def is_release : Event → Bool
  | Event.ReleaseMutex _ => true
  | _ => false

/-- Whether the event is a `memcpy` call. -/
def is_memcpy : Event → Bool
  | Event.memcpy _ _ _ => true
  | _ => false

/-! ## Lemmas on the frame synchronizer -/

theorem object_signalled_false (w : World) (h : Nat)
    (hs : (object_signalled w h).1 = false) : (object_signalled w h).2 = w := by
  unfold object_signalled at hs ⊢
  by_cases h0 : h = 0
  · simp [h0]
  · simp only [h0, if_false] at hs ⊢
    cases hm : w.mutex h <;> simp_all

theorem release_after_acquire (w : World) (h : Nat) (tb : Nat → Nat)
    (hs : (object_signalled w h).1 = true) :
    (ReleaseMutex { (object_signalled w h).2 with tex_bytes := tb } h).mutex = w.mutex := by
  unfold object_signalled at hs ⊢
  by_cases h0 : h = 0
  · simp [h0] at hs
  · simp only [h0, if_false] at hs ⊢
    cases hm : w.mutex h with
    | free =>
        simp only [ReleaseMutex, Function.update_same, Function.update_idem]
        rw [← hm]
        exact Function.update_eq_self h w.mutex
    | writer => simp [hm] at hs
    | reader n =>
        simp only [ReleaseMutex, Function.update_same, Function.update_idem]
        rw [← hm]
        exact Function.update_eq_self h w.mutex

theorem copy_rows_trace (gc : game_capture) (d : capture_data) (input pitch bp : Nat) :
    ∀ (n : Nat) (acc : (Nat → Nat) × List Event),
      ((List.range n).foldl (copy_line gc d input pitch bp) acc).2 =
        acc.2 ++ (List.range n).map
          (fun y => Event.memcpy (pitch * y % 2 ^ 32) (input + gc.pitch * y % 2 ^ 32) bp) := by
  intro n
  induction n with
  | zero => intro acc; simp
  | succ k ih =>
      intro acc
      rw [List.range_succ, List.foldl_append, List.map_append]
      simp only [List.foldl_cons, List.foldl_nil, List.map_cons, List.map_nil]
      simp only [copy_line]
      rw [ih acc, List.append_assoc]

theorem copy_rows_bytes (gc : game_capture) (d : capture_data) (input pitch bp : Nat)
    (hbp : bp ≤ pitch) :
    ∀ (n : Nat) (acc : (Nat → Nat) × List Event),
      (∀ y, y < n → pitch * y < 2 ^ 32 ∧ gc.pitch * y < 2 ^ 32) →
      (∀ y x, y < n → x < bp →
        ((List.range n).foldl (copy_line gc d input pitch bp) acc).1 (pitch * y + x) =
          d.bytes (input + gc.pitch * y + x)) ∧
      (∀ a, (∀ y x, y < n → x < bp → a ≠ pitch * y + x) →
        ((List.range n).foldl (copy_line gc d input pitch bp) acc).1 a = acc.1 a) := by
  intro n
  induction n with
  | zero =>
      intro acc _
      exact ⟨fun y x hy _ => absurd hy (Nat.not_lt_zero y), fun a _ => by simp⟩
  | succ k ih =>
      intro acc hov
      have hk := hov k (Nat.lt_succ_self k)
      obtain ⟨ih1, ih2⟩ := ih acc (fun y hy => hov y (Nat.lt_succ_of_lt hy))
      rw [List.range_succ, List.foldl_append]
      simp only [List.foldl_cons, List.foldl_nil]
      simp only [copy_line, memcpy, Nat.mod_eq_of_lt hk.1, Nat.mod_eq_of_lt hk.2]
      constructor
      · intro y x hy hx
        rcases Nat.lt_succ_iff_lt_or_eq.mp hy with hlt | heq
        · have h1 : pitch * y + x < pitch * k := by
            calc pitch * y + x < pitch * y + pitch := by omega
              _ = pitch * (y + 1) := by ring
              _ ≤ pitch * k := Nat.mul_le_mul_left pitch hlt
          have h2 : ¬ (pitch * k ≤ pitch * y + x ∧ pitch * y + x < pitch * k + bp) := by omega
          rw [if_neg h2]
          exact ih1 y x hlt hx
        · subst heq
          have h2 : pitch * y ≤ pitch * y + x ∧ pitch * y + x < pitch * y + bp := by omega
          rw [if_pos h2]
          congr 1
          omega
      · intro a ha
        have h2 : ¬ (pitch * k ≤ a ∧ a < pitch * k + bp) := by
          intro ⟨h3, h4⟩
          exact ha k (a - pitch * k) (Nat.lt_succ_self k) (by omega) (by omega)
        rw [if_neg h2]
        exact ih2 a (fun y x hy hx => ha y x (Nat.lt_succ_of_lt hy) hx)

theorem filter_map_memcpy (p : Event → Bool) (f : Nat → Event) (hp : ∀ y, p (f y) = false)
    (l : List Nat) : (l.map f).filter p = [] := by
  simp [List.filter_eq_nil_iff, hp]

theorem filter_map_memcpy_all (p : Event → Bool) (f : Nat → Event) (hp : ∀ y, p (f y) = true)
    (l : List Nat) : (l.map f).filter p = l.map f := by
  simp [List.filter_eq_self, hp]

theorem copy_pixels_trace (gc : game_capture) (d : capture_data) (i dp : Nat)
    (data : Nat → Nat) :
    (copy_pixels gc d i dp data).2 =
      if dp = gc.pitch then
        [Event.memcpy 0 (idx2 gc.texture_buffers i) (dp * gc.cy % 2 ^ 32)]
      else
        (List.range gc.cy).map (fun y =>
          Event.memcpy (dp * y % 2 ^ 32) (idx2 gc.texture_buffers i + gc.pitch * y % 2 ^ 32)
            (if dp < gc.pitch then dp else gc.pitch)) := by
  unfold copy_pixels
  by_cases h : dp = gc.pitch
  · simp [h]
  · simp only [h, if_false]
    rw [copy_rows_trace]
    simp

theorem copy_pixels_no_acquire (gc : game_capture) (d : capture_data) (i dp : Nat)
    (data : Nat → Nat) :
    (copy_pixels gc d i dp data).2.filter is_acquire = [] ∧
    (copy_pixels gc d i dp data).2.filter is_release = [] ∧
    (copy_pixels gc d i dp data).2.filter is_memcpy = (copy_pixels gc d i dp data).2 := by
  rw [copy_pixels_trace]
  by_cases h : dp = gc.pitch
  · simp [h, is_acquire, is_release, is_memcpy]
  · simp only [h, if_false]
    refine ⟨filter_map_memcpy _ _ (fun y => rfl) _, filter_map_memcpy _ _ (fun y => rfl) _,
      filter_map_memcpy_all _ _ (fun y => rfl) _⟩

theorem copy_pixels_bytes (gc : game_capture) (d : capture_data) (i dp : Nat)
    (data : Nat → Nat) (hsrc : gc.pitch * gc.cy < 2 ^ 32) (hdst : dp * gc.cy < 2 ^ 32) :
    (∀ y x, y < gc.cy → x < min gc.pitch dp →
      (copy_pixels gc d i dp data).1 (dp * y + x) =
        d.bytes (idx2 gc.texture_buffers i + gc.pitch * y + x)) ∧
    (∀ a, (∀ y x, y < gc.cy → x < min gc.pitch dp → a ≠ dp * y + x) →
      (copy_pixels gc d i dp data).1 a = data a) := by
  unfold copy_pixels
  by_cases h : dp = gc.pitch
  · rw [← h]
    simp only [eq_self_iff_true, if_true, Nat.mod_eq_of_lt hdst, memcpy, Nat.min_self]
    constructor
    · intro y x hy hx
      have h1 : dp * y + x < dp * gc.cy := by
        calc dp * y + x < dp * y + dp := by omega
          _ = dp * (y + 1) := by ring
          _ ≤ dp * gc.cy := Nat.mul_le_mul_left dp hy
      simp only [Nat.zero_le, Nat.zero_add, h1, and_self, if_true, Nat.sub_zero]
      congr 1
      omega
    · intro a ha
      have h2 : ¬ (0 ≤ a ∧ a < 0 + dp * gc.cy) := by
        intro ⟨_, h4⟩
        have hpos : 0 < dp := by
          rcases Nat.eq_zero_or_pos dp with h0 | h0
          · simp [h0] at h4
          · exact h0
        have hdiv : a / dp < gc.cy := by
          rw [Nat.div_lt_iff_lt_mul hpos]
          rw [Nat.zero_add, Nat.mul_comm] at h4
          exact h4
        exact ha (a / dp) (a % dp) hdiv (Nat.mod_lt a hpos) (Nat.div_add_mod a dp).symm
      rw [if_neg h2]
  · simp only [h, if_false]
    have hbp : (if dp < gc.pitch then dp else gc.pitch) = min gc.pitch dp := by
      by_cases h1 : dp < gc.pitch
      · rw [if_pos h1, Nat.min_eq_right (Nat.le_of_lt h1)]
      · rw [if_neg h1, Nat.min_eq_left (Nat.le_of_not_lt h1)]
    rw [hbp]
    have hov : ∀ y, y < gc.cy → dp * y < 2 ^ 32 ∧ gc.pitch * y < 2 ^ 32 := by
      intro y hy
      exact ⟨Nat.lt_of_le_of_lt (Nat.mul_le_mul_left dp (Nat.le_of_lt hy)) hdst,
        Nat.lt_of_le_of_lt (Nat.mul_le_mul_left gc.pitch (Nat.le_of_lt hy)) hsrc⟩
    exact copy_rows_bytes gc d (idx2 gc.texture_buffers i) dp (min gc.pitch dp)
      (Nat.min_le_right _ _) gc.cy (data, []) hov

theorem ReleaseMutex_tex_bytes (w : World) (h : Nat) :
    (ReleaseMutex w h).tex_bytes = w.tex_bytes := by
  unfold ReleaseMutex
  split <;> rfl

theorem object_signalled_tex (w : World) (h : Nat) :
    (object_signalled w h).2.tex_bytes = w.tex_bytes ∧
    (object_signalled w h).2.tex_map = w.tex_map := by
  unfold object_signalled
  by_cases h0 : h = 0
  · simp [h0]
  · simp only [h0, if_false]
    cases w.mutex h <;> simp

theorem copy_selected_selected (gc : game_capture) (d : capture_data) (i m : Nat) (w : World)
    (polls : List Event) : (copy_selected gc d i m w polls).selected = some i := by
  unfold copy_selected
  cases w.tex_map <;> rfl

theorem copy_selected_mutex (gc : game_capture) (d : capture_data) (i m : Nat) (w : World)
    (polls : List Event) (hs : (object_signalled w m).1 = true) :
    (copy_selected gc d i m (object_signalled w m).2 polls).world.mutex = w.mutex := by
  unfold copy_selected
  split
  · exact release_after_acquire w m _ hs
  · exact release_after_acquire w m (object_signalled w m).2.tex_bytes hs

theorem copy_selected_trace (gc : game_capture) (d : capture_data) (i m : Nat) (w : World)
    (polls : List Event) :
    (copy_selected gc d i m w polls).trace.filter is_acquire = polls.filter is_acquire ∧
    (copy_selected gc d i m w polls).trace.filter is_release =
      polls.filter is_release ++ [Event.ReleaseMutex m] ∧
    (copy_selected gc d i m w polls).trace.getLast? = some (Event.ReleaseMutex m) := by
  unfold copy_selected
  cases w.tex_map with
  | none =>
      refine ⟨by simp [is_acquire], by simp [is_release], ?_⟩
      have h : polls ++ [Event.gs_texture_map false, Event.ReleaseMutex m] =
          (polls ++ [Event.gs_texture_map false]) ++ [Event.ReleaseMutex m] := by simp
      show (polls ++ [Event.gs_texture_map false, Event.ReleaseMutex m]).getLast? = _
      rw [h, List.getLast?_concat]
  | some p =>
      obtain ⟨h1, h2, _⟩ := copy_pixels_no_acquire gc d i p w.tex_bytes
      refine ⟨by simp [is_acquire, h1], by simp [is_release, h2], ?_⟩
      have h : polls ++ [Event.gs_texture_map true] ++ (copy_pixels gc d i p w.tex_bytes).2
            ++ [Event.gs_texture_unmap, Event.ReleaseMutex m] =
          (polls ++ [Event.gs_texture_map true] ++ (copy_pixels gc d i p w.tex_bytes).2
            ++ [Event.gs_texture_unmap]) ++ [Event.ReleaseMutex m] := by simp
      show (polls ++ [Event.gs_texture_map true] ++ (copy_pixels gc d i p w.tex_bytes).2
            ++ [Event.gs_texture_unmap, Event.ReleaseMutex m]).getLast? = _
      rw [h, List.getLast?_concat]

theorem copy_selected_copy (gc : game_capture) (d : capture_data) (i m dp : Nat) (w : World)
    (polls : List Event) (hmap : w.tex_map = some dp) :
    (copy_selected gc d i m w polls).world.tex_bytes = (copy_pixels gc d i dp w.tex_bytes).1 ∧
    (copy_selected gc d i m w polls).trace.filter is_memcpy =
      polls.filter is_memcpy ++ (copy_pixels gc d i dp w.tex_bytes).2 := by
  unfold copy_selected
  rw [hmap]
  obtain ⟨_, _, h3⟩ := copy_pixels_no_acquire gc d i dp w.tex_bytes
  simp [ReleaseMutex_tex_bytes, is_memcpy, h3]

/-- The three ways a call of `copy_shmem_tex` on a mapped payload ends. -/
theorem copy_shmem_tex_cases (gc : game_capture) (w : World) (d : capture_data)
    (hd : gc.data = some d) :
    (copy_shmem_tex gc w = some { world := w, trace := [], selected := none } ∧
      d.shmem.last_tex ≠ 0 ∧ d.shmem.last_tex ≠ 1) ∨
    (∃ a b, copy_shmem_tex gc w =
        some { world := w, trace := [Event.poll a false, Event.poll b false], selected := none } ∧
      (object_signalled w gc.texture_mutexes.1).1 = false ∧
      (object_signalled w gc.texture_mutexes.2).1 = false) ∨
    (∃ i polls, i ≤ 1 ∧ (object_signalled w (idx2 gc.texture_mutexes i)).1 = true ∧
      polls.filter is_acquire = [Event.poll (idx2 gc.texture_mutexes i) true] ∧
      polls.filter is_release = [] ∧ polls.filter is_memcpy = [] ∧
      copy_shmem_tex gc w = some (copy_selected gc d i (idx2 gc.texture_mutexes i)
        (object_signalled w (idx2 gc.texture_mutexes i)).2 polls)) := by
  unfold copy_shmem_tex
  simp only [hd]
  by_cases hr : d.shmem.last_tex < 0 ∨ d.shmem.last_tex > 1
  · left
    exact ⟨by rw [if_pos hr], by omega, by omega⟩
  · right
    have h01 : d.shmem.last_tex = 0 ∨ d.shmem.last_tex = 1 := by omega
    rcases h01 with h0 | h1
    · simp only [h0]
      cases hs0 : (object_signalled w gc.texture_mutexes.1).1
      · have hw := object_signalled_false w _ hs0
        cases hs1 : (object_signalled w gc.texture_mutexes.2).1
        · left
          exact ⟨gc.texture_mutexes.1, gc.texture_mutexes.2,
            by simp [idx2, hs0, hs1, hw, object_signalled_false w _ hs1], rfl, rfl⟩
        · right
          exact ⟨1, [Event.poll gc.texture_mutexes.1 false, Event.poll gc.texture_mutexes.2 true],
            by omega, by simp [idx2, hs1], by simp [idx2, is_acquire], rfl, rfl,
            by simp [idx2, hs0, hs1, hw]⟩
      · right
        exact ⟨0, [Event.poll gc.texture_mutexes.1 true], by omega, by simp [idx2, hs0],
          by simp [idx2, is_acquire], rfl, rfl, by simp [idx2, hs0]⟩
    · simp only [h1]
      cases hs1 : (object_signalled w gc.texture_mutexes.2).1
      · have hw := object_signalled_false w _ hs1
        cases hs0 : (object_signalled w gc.texture_mutexes.1).1
        · left
          exact ⟨gc.texture_mutexes.2, gc.texture_mutexes.1,
            by simp [idx2, hs0, hs1, hw, object_signalled_false w _ hs0], rfl, rfl⟩
        · right
          exact ⟨0, [Event.poll gc.texture_mutexes.2 false, Event.poll gc.texture_mutexes.1 true],
            by omega, by simp [idx2, hs0], by simp [idx2, is_acquire], rfl, rfl,
            by simp [idx2, hs0, hs1, hw]⟩
      · right
        exact ⟨1, [Event.poll gc.texture_mutexes.2 true], by omega, by simp [idx2, hs1],
          by simp [idx2, is_acquire], rfl, rfl, by simp [idx2, hs1]⟩

/-! ## Claims on the frame synchronizer -/

/-- C1: buffer selection in `copy_shmem_tex`. With the payload mapped, the call
returns, and the buffer it selects is: none when `last_tex` is neither 0 nor 1;
`last_tex` when that buffer's mutex is signalled (uncontended); otherwise
`1 - last_tex` when that mutex is signalled; otherwise none. When no buffer is
selected the world (texture bytes included) is unchanged and the only calls
made are failed polls. In particular `last_tex = 0` with mutex 0 uncontended
selects 0, and `last_tex = 0` with mutex 0 contended and mutex 1 uncontended
selects 1. -/
theorem C1_buffer_selection (gc : game_capture) (w : World) (d : capture_data)
    (hd : gc.data = some d) :
    ∃ r, copy_shmem_tex gc w = some r ∧
      r.selected =
        (if d.shmem.last_tex ≠ 0 ∧ d.shmem.last_tex ≠ 1 then none
         else if (object_signalled w (idx2 gc.texture_mutexes d.shmem.last_tex.toNat)).1 then
           some d.shmem.last_tex.toNat
         else if (object_signalled w
             (idx2 gc.texture_mutexes (1 - d.shmem.last_tex.toNat))).1 then
           some (1 - d.shmem.last_tex.toNat)
         else none) ∧
      (r.selected = none →
        r.world = w ∧ ∀ e, e ∈ r.trace → ∃ h, e = Event.poll h false) ∧
      (d.shmem.last_tex = 0 → (object_signalled w gc.texture_mutexes.1).1 = true →
        r.selected = some 0) ∧
      (d.shmem.last_tex = 0 → (object_signalled w gc.texture_mutexes.1).1 = false →
        (object_signalled w gc.texture_mutexes.2).1 = true → r.selected = some 1) := by
  unfold copy_shmem_tex
  simp only [hd]
  by_cases hr : d.shmem.last_tex < 0 ∨ d.shmem.last_tex > 1
  · have hne : d.shmem.last_tex ≠ 0 ∧ d.shmem.last_tex ≠ 1 := by omega
    refine ⟨_, by rw [if_pos hr], ?_, ?_, ?_, ?_⟩
    · simp [hne]
    · intro _
      exact ⟨rfl, fun e he => by simp at he⟩
    · intro h0; omega
    · intro h0; omega
  · have h01 : d.shmem.last_tex = 0 ∨ d.shmem.last_tex = 1 := by omega
    rcases h01 with h0 | h1
    · simp only [h0, idx2]
      cases hs0 : (object_signalled w gc.texture_mutexes.1).1
      · have hw := object_signalled_false w _ hs0
        cases hs1 : (object_signalled w gc.texture_mutexes.2).1
        · simp [hs0, hs1, hw, object_signalled_false w _ hs1]
        · simp [hs0, hs1, hw, copy_selected_selected]
      · simp [hs0, copy_selected_selected]
    · simp only [h1, idx2]
      cases hs1 : (object_signalled w gc.texture_mutexes.2).1
      · have hw := object_signalled_false w _ hs1
        cases hs0 : (object_signalled w gc.texture_mutexes.1).1
        · simp [hs0, hs1, hw, object_signalled_false w _ hs0]
        · simp [hs0, hs1, hw, copy_selected_selected]
      · simp [hs1, copy_selected_selected]

/-- C1 at a concrete session: `last_tex = 0`, mutex 0 held by the writer, mutex 1
free: buffer 1 is selected. -/
theorem C1_buffer_selection_witness :
    (gc_shmem 4 2 (payload_const 0 7)).data = some (payload_const 0 7) ∧
    ∃ r, copy_shmem_tex (gc_shmem 4 2 (payload_const 0 7))
        (world_of MutexState.writer (some 4)) = some r ∧ r.selected = some 1 :=
  ⟨rfl, by
    obtain ⟨r, hr, _, _, _, h5⟩ := C1_buffer_selection (gc_shmem 4 2 (payload_const 0 7))
      (world_of MutexState.writer (some 4)) (payload_const 0 7) rfl
    exact ⟨r, hr, h5 rfl rfl rfl⟩⟩

/-- C2 as stated fails where the 32-bit byte count wraps: with source and
destination pitch 65536 and height 65536 the one-pass copy is of
`65536 * 65536 mod 2^32 = 0` bytes, so the destination byte at offset 0 (row 0,
column 0) keeps its old value 0 instead of the source byte 1. -/
theorem C2_row_copy_counterexample :
    ∃ r, copy_shmem_tex (gc_shmem 65536 65536 (payload_const 0 1))
        (world_of MutexState.free (some 65536)) = some r ∧
      r.selected = some 0 ∧
      r.trace.filter is_memcpy = [Event.memcpy 0 0 0] ∧
      r.world.tex_bytes (65536 * 0 + 0) ≠ (payload_const 0 1).bytes (0 + 65536 * 0 + 0) := by
  have hmap : (object_signalled (world_of MutexState.free (some 65536)) 11).2.tex_map
      = some 65536 := rfl
  obtain ⟨hb, ht⟩ := copy_selected_copy (gc_shmem 65536 65536 (payload_const 0 1))
    (payload_const 0 1) 0 11 65536 (object_signalled (world_of MutexState.free (some 65536)) 11).2
    [Event.poll 11 true] hmap
  refine ⟨copy_selected (gc_shmem 65536 65536 (payload_const 0 1)) (payload_const 0 1) 0 11
    (object_signalled (world_of MutexState.free (some 65536)) 11).2 [Event.poll 11 true],
    rfl, copy_selected_selected _ _ _ _ _ _, ?_, ?_⟩
  · rw [ht, copy_pixels_trace]
    simp [is_memcpy, gc_shmem, gc_zero, idx2]
  · rw [hb]
    simp [copy_pixels, memcpy, gc_shmem, gc_zero, idx2, object_signalled, world_of, payload_const]

/-- C2 (amended): row copy in `copy_shmem_tex` when neither 32-bit product
wraps (`gc.pitch * gc.cy` and `dp * gc.cy` below `2^32`). With the payload
mapped, `last_tex` 0 or 1, one of the two mutexes signalled and the texture
mapping with row pitch `dp`, a buffer `i` is selected and afterwards every
destination byte at `dp * y + x` with `y < cy` and `x < min pitch dp` equals the
source byte at `pitch * y + x` of that buffer, every other destination byte is
unchanged, and the `memcpy` calls are: for different pitches exactly one per
row `y < cy`, of `min pitch dp` bytes, to destination offset `dp * y` from
source offset `pitch * y`; for equal pitches one call of `dp * cy` bytes. -/
theorem C2_row_copy (gc : game_capture) (w : World) (d : capture_data) (dp : Nat)
    (hd : gc.data = some d)
    (hlast : d.shmem.last_tex = 0 ∨ d.shmem.last_tex = 1)
    (hsig : (object_signalled w gc.texture_mutexes.1).1 = true ∨
      (object_signalled w gc.texture_mutexes.2).1 = true)
    (hmap : w.tex_map = some dp)
    (hsrc : gc.pitch * gc.cy < 2 ^ 32) (hdst : dp * gc.cy < 2 ^ 32) :
    ∃ r i, copy_shmem_tex gc w = some r ∧ r.selected = some i ∧
      (∀ y x, y < gc.cy → x < min gc.pitch dp →
        r.world.tex_bytes (dp * y + x) =
          d.bytes (idx2 gc.texture_buffers i + gc.pitch * y + x)) ∧
      (∀ a, (∀ y x, y < gc.cy → x < min gc.pitch dp → a ≠ dp * y + x) →
        r.world.tex_bytes a = w.tex_bytes a) ∧
      (dp ≠ gc.pitch → r.trace.filter is_memcpy =
        (List.range gc.cy).map (fun y =>
          Event.memcpy (dp * y) (idx2 gc.texture_buffers i + gc.pitch * y) (min gc.pitch dp))) ∧
      (dp = gc.pitch → r.trace.filter is_memcpy =
        [Event.memcpy 0 (idx2 gc.texture_buffers i) (dp * gc.cy)]) := by
  rcases copy_shmem_tex_cases gc w d hd with ⟨_, h0, h1⟩ | ⟨a, b, _, h0, h1⟩ | ⟨i, polls, _, hs, _, _, hm, hr⟩
  · omega
  · rcases hsig with h | h
    · rw [h0] at h; cases h
    · rw [h1] at h; cases h
  · obtain ⟨ht1, ht2⟩ := object_signalled_tex w (idx2 gc.texture_mutexes i)
    obtain ⟨hb, ht⟩ := copy_selected_copy gc d i (idx2 gc.texture_mutexes i) dp
      (object_signalled w (idx2 gc.texture_mutexes i)).2 polls (ht2.trans hmap)
    obtain ⟨hc1, hc2⟩ := copy_pixels_bytes gc d i dp w.tex_bytes hsrc hdst
    refine ⟨_, i, hr, copy_selected_selected _ _ _ _ _ _, ?_, ?_, ?_, ?_⟩
    · intro y x hy hx
      rw [hb, ht1]
      exact hc1 y x hy hx
    · intro a ha
      rw [hb, ht1]
      exact hc2 a ha
    · intro hne
      rw [ht, hm, copy_pixels_trace, if_neg hne, List.nil_append]
      apply List.map_congr_left
      intro y hy
      have hy2 : y < gc.cy := List.mem_range.mp hy
      have e1 : dp * y % 2 ^ 32 = dp * y :=
        Nat.mod_eq_of_lt (Nat.lt_of_le_of_lt (Nat.mul_le_mul_left dp (Nat.le_of_lt hy2)) hdst)
      have e2 : gc.pitch * y % 2 ^ 32 = gc.pitch * y :=
        Nat.mod_eq_of_lt (Nat.lt_of_le_of_lt (Nat.mul_le_mul_left gc.pitch (Nat.le_of_lt hy2)) hsrc)
      have e3 : (if dp < gc.pitch then dp else gc.pitch) = min gc.pitch dp := by
        by_cases h1 : dp < gc.pitch
        · rw [if_pos h1, Nat.min_eq_right (Nat.le_of_lt h1)]
        · rw [if_neg h1, Nat.min_eq_left (Nat.le_of_not_lt h1)]
      rw [e1, e2, e3]
    · intro heq
      rw [ht, hm, copy_pixels_trace, if_pos heq, List.nil_append, Nat.mod_eq_of_lt hdst]

/-- C3: the reader never waits on or keeps a texture mutex. For every session
with the payload mapped and every world (whatever the mutex states, and
whether mapping the texture succeeds or fails), `copy_shmem_tex` returns with
every mutex in the ownership state it had on entry; it takes at most one
mutex; when buffer `i` is selected the only mutex taken is that of buffer `i`,
the only release is of that mutex, and the release is the last call made; when
no buffer is selected nothing is taken or released. -/
theorem C3_mutex_released (gc : game_capture) (w : World) (d : capture_data)
    (hd : gc.data = some d) :
    ∃ r, copy_shmem_tex gc w = some r ∧
      r.world.mutex = w.mutex ∧
      (r.trace.filter is_acquire).length ≤ 1 ∧
      (∀ i, r.selected = some i →
        r.trace.filter is_acquire = [Event.poll (idx2 gc.texture_mutexes i) true] ∧
        r.trace.filter is_release = [Event.ReleaseMutex (idx2 gc.texture_mutexes i)] ∧
        r.trace.getLast? = some (Event.ReleaseMutex (idx2 gc.texture_mutexes i))) ∧
      (r.selected = none →
        r.trace.filter is_acquire = [] ∧ r.trace.filter is_release = []) := by
  rcases copy_shmem_tex_cases gc w d hd with ⟨hr, _, _⟩ | ⟨a, b, hr, _, _⟩ | ⟨i, polls, _, hs, ha, hl, _, hr⟩
  · exact ⟨_, hr, rfl, by simp, fun i hi => (by cases hi), fun _ => ⟨rfl, rfl⟩⟩
  · exact ⟨_, hr, rfl, by simp [is_acquire], fun i hi => (by cases hi),
      fun _ => ⟨by simp [is_acquire], by simp [is_release]⟩⟩
  · obtain ⟨t1, t2, t3⟩ := copy_selected_trace gc d i (idx2 gc.texture_mutexes i)
      (object_signalled w (idx2 gc.texture_mutexes i)).2 polls
    have hsel := copy_selected_selected gc d i (idx2 gc.texture_mutexes i)
      (object_signalled w (idx2 gc.texture_mutexes i)).2 polls
    refine ⟨_, hr, copy_selected_mutex gc d i _ w polls hs, ?_, ?_, ?_⟩
    · rw [t1, ha]; simp
    · intro j hj
      rw [hsel] at hj
      cases hj
      exact ⟨by rw [t1, ha], by rw [t2, hl]; rfl, t3⟩
    · intro hn
      rw [hsel] at hn
      cases hn

/-- C2 at source pitch 1920, destination pitch 2048, height 1080: exactly 1080
row copies of 1920 bytes, row `y` to destination offset `2048 * y`. -/
theorem C2_row_copy_witness :
    ((gc_shmem 1920 1080 (payload_const 0 7)).data = some (payload_const 0 7) ∧
     ((payload_const 0 7).shmem.last_tex = 0 ∨ (payload_const 0 7).shmem.last_tex = 1) ∧
     ((object_signalled (world_of MutexState.free (some 2048))
          (gc_shmem 1920 1080 (payload_const 0 7)).texture_mutexes.1).1 = true ∨
      (object_signalled (world_of MutexState.free (some 2048))
          (gc_shmem 1920 1080 (payload_const 0 7)).texture_mutexes.2).1 = true) ∧
     (world_of MutexState.free (some 2048)).tex_map = some 2048 ∧
     (gc_shmem 1920 1080 (payload_const 0 7)).pitch * (gc_shmem 1920 1080 (payload_const 0 7)).cy
        < 2 ^ 32 ∧
     2048 * (gc_shmem 1920 1080 (payload_const 0 7)).cy < 2 ^ 32) ∧
    ∃ r i, copy_shmem_tex (gc_shmem 1920 1080 (payload_const 0 7))
        (world_of MutexState.free (some 2048)) = some r ∧ r.selected = some i ∧
      r.trace.filter is_memcpy =
        (List.range 1080).map (fun y => Event.memcpy (2048 * y) (idx2 (0, 0) i + 1920 * y) 1920) ∧
      (r.trace.filter is_memcpy).length = 1080 :=
  ⟨⟨rfl, Or.inl rfl, Or.inl rfl, rfl, by decide, by decide⟩, by
    obtain ⟨r, i, hr, hsel, _, _, hne, _⟩ := C2_row_copy (gc_shmem 1920 1080 (payload_const 0 7))
      (world_of MutexState.free (some 2048)) (payload_const 0 7) 2048
      rfl (Or.inl rfl) (Or.inl rfl) rfl (by decide) (by decide)
    have h := hne (by decide)
    exact ⟨r, i, hr, hsel, h, by rw [h]; simp [gc_shmem]⟩⟩

/-- C3 at a concrete session whose texture fails to map: the mutex of the
selected buffer is still released, and nothing else is taken. -/
theorem C3_mutex_released_witness :
    (gc_shmem 4 2 (payload_const 0 7)).data = some (payload_const 0 7) ∧
    ∃ r, copy_shmem_tex (gc_shmem 4 2 (payload_const 0 7)) (world_of MutexState.free none) = some r ∧
      r.world.mutex = (world_of MutexState.free none).mutex ∧
      r.trace = [Event.poll 11 true, Event.gs_texture_map false, Event.ReleaseMutex 11] :=
  ⟨rfl, by
    obtain ⟨r, hr, hm, _, _, _⟩ := C3_mutex_released (gc_shmem 4 2 (payload_const 0 7))
      (world_of MutexState.free none) (payload_const 0 7) rfl
    refine ⟨r, hr, hm, ?_⟩
    have h2 : copy_shmem_tex (gc_shmem 4 2 (payload_const 0 7)) (world_of MutexState.free none)
        = some (copy_selected (gc_shmem 4 2 (payload_const 0 7)) (payload_const 0 7) 0 11
          (object_signalled (world_of MutexState.free none) 11).2 [Event.poll 11 true]) := rfl
    rw [h2] at hr
    cases hr
    rfl⟩

/-! ## Claims on teardown -/

theorem close_handle_fst (h : Nat) : (close_handle h).1 = 0 := by
  unfold close_handle
  by_cases h0 : h = 0
  · simp [h0]
  · simp [h0]

theorem close_handle_zero : close_handle 0 = (0, []) := rfl

theorem close_handle_closes (h : Nat) (h0 : h ≠ 0) (h1 : h ≠ INVALID_HANDLE_VALUE) :
    (close_handle h).2 = [Event.CloseHandle h] := by
  simp [close_handle, h0, h1]

theorem stop_capture_state (gc : game_capture) :
    (stop_capture gc).1 =
      { gc with
        pipe := false
        global_hook_info := none
        data := none
        keep_alive := 0
        hook_restart := 0
        hook_stop := 0
        hook_ready := 0
        hook_exit := 0
        hook_data_map := 0
        global_hook_info_map := 0
        target_process := 0
        texture_mutexes := (0, 0)
        texture := 0
        copy_texture := none
        active := false } := by
  simp [stop_capture, close_handle_fst, ipc_pipe_server_free]

/-- C4: teardown is idempotent. For every session state a second `stop_capture`
leaves the state of the first unchanged and makes no call at all (no event is
signalled, no handle closed, nothing unmapped or destroyed); and on a
never-started session `stop_capture` changes nothing and makes no call. -/
theorem C4_stop_capture_idempotent (gc : game_capture) :
    (stop_capture (stop_capture gc).1).1 = (stop_capture gc).1 ∧
    (stop_capture (stop_capture gc).1).2 = [] ∧
    (never_started gc → (stop_capture gc).1 = gc ∧ (stop_capture gc).2 = []) := by
  refine ⟨?_, ?_, ?_⟩
  · rw [stop_capture_state (stop_capture gc).1, stop_capture_state gc]
  · rw [stop_capture_state gc]
    simp [stop_capture, close_handle_zero, ipc_pipe_server_free]
  · intro h
    obtain ⟨h1, h2, h3, h4, h5, h6, h7, h8, h9, h10, h11, h12, h13, h14, h15⟩ := h
    constructor
    · rw [stop_capture_state gc]
      cases gc
      simp_all
    · simp [stop_capture, close_handle, ipc_pipe_server_free, h1, h2, h3, h4, h5, h6, h7, h8, h9,
        h10, h11, h12, h13, h14, h15]

/-- C4 at the session `bzalloc` leaves: it is never-started, and teardown
leaves it as it is. -/
theorem C4_stop_capture_idempotent_witness :
    never_started gc_zero ∧ (stop_capture gc_zero).1 = gc_zero ∧ (stop_capture gc_zero).2 = [] :=
  ⟨by simp [never_started, gc_zero],
   (C4_stop_capture_idempotent gc_zero).2.2 (by simp [never_started, gc_zero])⟩

/-- C5 as stated fails for the injector-process handle: a session whose only
open handle is the injector process (handle 7) comes out of `stop_capture` with
that handle still set, and no `CloseHandle` call was made. -/
theorem C5_injector_counterexample :
    (stop_capture { gc_zero with injector_process := 7 }).1.injector_process = 7 ∧
    (stop_capture { gc_zero with injector_process := 7 }).2 = [] := by
  constructor <;> rfl

/-- C5 (amended): after `stop_capture` on any session state the keep-alive,
restart, stop, ready and exit events, both texture mutexes, the target-process
handle and both file-mapping handles are null, and each of them that was a real
handle (neither null nor `INVALID_HANDLE_VALUE`) has been closed; both mapped
views and the texture are null, the copy function is cleared and the session is
inactive. The injector-process handle is not part of teardown: `stop_capture`
leaves it as it was. -/
theorem C5_stop_capture_releases (gc : game_capture) :
    (stop_capture gc).1.keep_alive = 0 ∧
    (stop_capture gc).1.hook_restart = 0 ∧
    (stop_capture gc).1.hook_stop = 0 ∧
    (stop_capture gc).1.hook_ready = 0 ∧
    (stop_capture gc).1.hook_exit = 0 ∧
    (stop_capture gc).1.texture_mutexes = (0, 0) ∧
    (stop_capture gc).1.target_process = 0 ∧
    (stop_capture gc).1.hook_data_map = 0 ∧
    (stop_capture gc).1.global_hook_info_map = 0 ∧
    (stop_capture gc).1.global_hook_info = none ∧
    (stop_capture gc).1.data = none ∧
    (stop_capture gc).1.texture = 0 ∧
    (stop_capture gc).1.copy_texture = none ∧
    (stop_capture gc).1.active = false ∧
    (stop_capture gc).1.injector_process = gc.injector_process ∧
    (∀ h, h ∈ [gc.keep_alive, gc.hook_restart, gc.hook_stop, gc.hook_ready, gc.hook_exit,
          gc.hook_data_map, gc.global_hook_info_map, gc.target_process,
          gc.texture_mutexes.1, gc.texture_mutexes.2] →
        h ≠ 0 → h ≠ INVALID_HANDLE_VALUE → Event.CloseHandle h ∈ (stop_capture gc).2) := by
  rw [stop_capture_state gc]
  refine ⟨rfl, rfl, rfl, rfl, rfl, rfl, rfl, rfl, rfl, rfl, rfl, rfl, rfl, rfl, rfl, ?_⟩
  intro h hmem h0 h1
  have hc := close_handle_closes h h0 h1
  simp only [List.mem_cons, List.mem_singleton, List.not_mem_nil, or_false] at hmem
  simp only [stop_capture, List.mem_append]
  rcases hmem with rfl | rfl | rfl | rfl | rfl | rfl | rfl | rfl | rfl | rfl <;> simp [hc]

/-- C5 at a session holding a stop event (handle 3) and a target process
(handle 4): both are closed and null afterwards. -/
theorem C5_stop_capture_releases_witness :
    (stop_capture { gc_zero with hook_stop := 3, target_process := 4 }).1.hook_stop = 0 ∧
    (stop_capture { gc_zero with hook_stop := 3, target_process := 4 }).1.target_process = 0 ∧
    Event.CloseHandle 3 ∈ (stop_capture { gc_zero with hook_stop := 3, target_process := 4 }).2 ∧
    Event.CloseHandle 4 ∈ (stop_capture { gc_zero with hook_stop := 3, target_process := 4 }).2 := by
  have h := C5_stop_capture_releases { gc_zero with hook_stop := 3, target_process := 4 }
  obtain ⟨_, _, h3, _, _, _, h7, _, _, _, _, _, _, _, _, hc⟩ := h
  exact ⟨h3, h7, hc 3 (by simp [gc_zero]) (by decide) (by decide),
    hc 4 (by simp [gc_zero]) (by decide) (by decide)⟩

/-! ## Claims on the configuration -/

theorem s_cmp_self (s : String) : s_cmp (some s) (some s) = 0 := by
  simp [s_cmp, strcmp]

theorem s_cmp_ne (a b : Option String) (h : a ≠ b) : s_cmp a b ≠ 0 := by
  cases a with
  | none => simp [s_cmp]
  | some x =>
      cases b with
      | none => simp [s_cmp]
      | some y =>
          have hxy : x ≠ y := fun e => h (by rw [e])
          simp only [s_cmp, strcmp, if_neg hxy]
          split <;> decide

/-- C6 as stated fails when a target string is null and any-fullscreen is off:
`s_cmp` answers -1 for a null string, so two configurations that differ only in
the cursor toggle need a reset. -/
theorem C6_cursor_only_counterexample :
    capture_needs_reset cfg_zero { cfg_zero with cursor := true } = true := by
  decide

/-- C6 (amended): for every configuration `c` in which any-fullscreen is on, or
class, title and executable are all non-null, and every configuration that
equals `c` in every field other than the cursor toggle, `capture_needs_reset`
returns false (in either argument order). -/
theorem C6_cursor_only (c : game_capture_config) (b : Bool)
    (h : c.capture_any_fullscreen = true ∨
      (c.class_ ≠ none ∧ c.title ≠ none ∧ c.executable ≠ none)) :
    capture_needs_reset c { c with cursor := b } = false ∧
    capture_needs_reset { c with cursor := b } c = false := by
  rcases h with h | ⟨h1, h2, h3⟩
  · simp [capture_needs_reset, h]
  · obtain ⟨x, hx⟩ := Option.ne_none_iff_exists'.mp h1
    obtain ⟨y, hy⟩ := Option.ne_none_iff_exists'.mp h2
    obtain ⟨z, hz⟩ := Option.ne_none_iff_exists'.mp h3
    simp [capture_needs_reset, hx, hy, hz, s_cmp_self]

/-- C6 at a configuration with all three target strings set. -/
theorem C6_cursor_only_witness :
    ((({ cfg_zero with class_ := some "c", title := some "t", executable := some "e" } :
        game_capture_config).capture_any_fullscreen = true) ∨
      (({ cfg_zero with class_ := some "c", title := some "t", executable := some "e" } :
        game_capture_config).class_ ≠ none ∧
       ({ cfg_zero with class_ := some "c", title := some "t", executable := some "e" } :
        game_capture_config).title ≠ none ∧
       ({ cfg_zero with class_ := some "c", title := some "t", executable := some "e" } :
        game_capture_config).executable ≠ none)) ∧
    capture_needs_reset
      { cfg_zero with class_ := some "c", title := some "t", executable := some "e" }
      { cfg_zero with class_ := some "c", title := some "t", executable := some "e",
                      cursor := true } = false :=
  ⟨Or.inr ⟨by decide, by decide, by decide⟩,
   (C6_cursor_only { cfg_zero with class_ := some "c", title := some "t", executable := some "e" }
      true (Or.inr ⟨by decide, by decide, by decide⟩)).1⟩

/-- C7 as stated fails behind the two guards: with any-fullscreen on in both
configurations a different class does not force a reset, and with forced
scaling off in both a different `scale_cx` does not either. -/
theorem C7_target_scale_counterexample :
    capture_needs_reset
      { cfg_zero with capture_any_fullscreen := true, class_ := some "a" }
      { cfg_zero with capture_any_fullscreen := true, class_ := some "b" } = false ∧
    capture_needs_reset
      { cfg_zero with capture_any_fullscreen := true, scale_cx := 1280 }
      { cfg_zero with capture_any_fullscreen := true, scale_cx := 1920 } = false := by
  constructor <;> decide

/-- C7 (amended): `capture_needs_reset` returns true for every pair of
configurations that differ in class, title, executable or priority while
any-fullscreen is off in at least one of them, and for every pair that differ
in `scale_cx` or `scale_cy` while forced scaling is on in at least one of
them. -/
theorem C7_target_scale (c1 c2 : game_capture_config)
    (h : ((c1.capture_any_fullscreen = false ∨ c2.capture_any_fullscreen = false) ∧
        (c1.class_ ≠ c2.class_ ∨ c1.title ≠ c2.title ∨ c1.executable ≠ c2.executable ∨
          c1.priority ≠ c2.priority)) ∨
      ((c1.force_scaling = true ∨ c2.force_scaling = true) ∧
        (c1.scale_cx ≠ c2.scale_cx ∨ c1.scale_cy ≠ c2.scale_cy))) :
    capture_needs_reset c1 c2 = true := by
  unfold capture_needs_reset
  by_cases hf : c1.capture_any_fullscreen = c2.capture_any_fullscreen
  · rcases h with ⟨hany, hdiff⟩ | ⟨hsc, hdiff⟩
    · have h1 : c1.capture_any_fullscreen = false := by
        rcases hany with h1 | h2
        · exact h1
        · rw [hf]; exact h2
      have hcond : c1.capture_any_fullscreen = false ∧
          (s_cmp c1.class_ c2.class_ ≠ 0 ∨ s_cmp c1.title c2.title ≠ 0 ∨
            s_cmp c1.executable c2.executable ≠ 0 ∨ c1.priority ≠ c2.priority) := by
        refine ⟨h1, ?_⟩
        rcases hdiff with hd | hd | hd | hd
        · exact Or.inl (s_cmp_ne _ _ hd)
        · exact Or.inr (Or.inl (s_cmp_ne _ _ hd))
        · exact Or.inr (Or.inr (Or.inl (s_cmp_ne _ _ hd)))
        · exact Or.inr (Or.inr (Or.inr hd))
      rw [if_neg (not_not.mpr hf), if_pos hcond]
    · by_cases hs : c1.force_scaling = c2.force_scaling
      · have h1 : c1.force_scaling = true := by
          rcases hsc with h1 | h2
          · exact h1
          · rw [hs]; exact h2
        have hcond : c1.force_scaling = true ∧
            (c1.scale_cx ≠ c2.scale_cx ∨ c1.scale_cy ≠ c2.scale_cy) := ⟨h1, hdiff⟩
        simp only [hcond, and_self, if_true, ite_self]
      · simp only [ne_eq, hs, not_false_eq_true, if_true, ite_self]
  · rw [if_pos hf]

/-- C7 at two configurations with any-fullscreen off and different classes. -/
theorem C7_target_scale_witness :
    capture_needs_reset { cfg_zero with class_ := some "a" }
      { cfg_zero with class_ := some "b" } = true :=
  C7_target_scale { cfg_zero with class_ := some "a" } { cfg_zero with class_ := some "b" }
    (Or.inl ⟨Or.inl rfl, Or.inl (by decide)⟩)

/-- C8: `capture_needs_reset` returns true for every pair of configurations
that differ in `force_shmem`, in `limit_framerate` or in `capture_overlays`,
whatever the other fields hold. -/
theorem C8_toggles (c1 c2 : game_capture_config)
    (h : c1.force_shmem ≠ c2.force_shmem ∨ c1.limit_framerate ≠ c2.limit_framerate ∨
      c1.capture_overlays ≠ c2.capture_overlays) :
    capture_needs_reset c1 c2 = true := by
  unfold capture_needs_reset
  rcases h with h | h | h <;> simp only [h, ne_eq, not_false_eq_true, if_true, ite_self]

/-- C8 at two configurations that differ in the overlay toggle only. -/
theorem C8_toggles_witness :
    ((({ cfg_zero with capture_any_fullscreen := true } : game_capture_config).force_shmem ≠
        ({ cfg_zero with capture_any_fullscreen := true, capture_overlays := true } :
          game_capture_config).force_shmem) ∨
      (({ cfg_zero with capture_any_fullscreen := true } : game_capture_config).limit_framerate ≠
        ({ cfg_zero with capture_any_fullscreen := true, capture_overlays := true } :
          game_capture_config).limit_framerate) ∨
      (({ cfg_zero with capture_any_fullscreen := true } : game_capture_config).capture_overlays ≠
        ({ cfg_zero with capture_any_fullscreen := true, capture_overlays := true } :
          game_capture_config).capture_overlays)) ∧
    capture_needs_reset { cfg_zero with capture_any_fullscreen := true }
      { cfg_zero with capture_any_fullscreen := true, capture_overlays := true } = true :=
  ⟨Or.inr (Or.inr (by decide)),
   C8_toggles { cfg_zero with capture_any_fullscreen := true }
     { cfg_zero with capture_any_fullscreen := true, capture_overlays := true }
     (Or.inr (Or.inr (by decide)))⟩

/-- C9: frame-interval formula. With the header mapped: when rate limiting is
on and video info is available with 32-bit `fps_den` and `fps_num > 0`, the
64-bit product `fps_den * 1000000000` does not wrap and
`reset_frame_interval` publishes exactly `fps_den * 1000000000 / fps_num`
(rounded down); when rate limiting is off, or video info is unavailable, it
publishes 0. -/
theorem C9_frame_interval (gc : game_capture) (hi : hook_info)
    (hh : gc.global_hook_info = some hi) :
    (∀ ovi : obs_video_info, gc.config.limit_framerate = true →
      ovi.fps_den < 2 ^ 32 → ovi.fps_num < 2 ^ 32 → 0 < ovi.fps_num →
        ovi.fps_den * 1000000000 < 2 ^ 64 ∧
        reset_frame_interval gc (some ovi) =
          some { gc with
            global_hook_info :=
              some { hi with frame_interval := ovi.fps_den * 1000000000 / ovi.fps_num } }) ∧
    (∀ video : Option obs_video_info, gc.config.limit_framerate = false →
        reset_frame_interval gc video =
          some { gc with global_hook_info := some { hi with frame_interval := 0 } }) ∧
    reset_frame_interval gc none =
      some { gc with global_hook_info := some { hi with frame_interval := 0 } } := by
  refine ⟨?_, ?_, ?_⟩
  · intro ovi hl hden _ hnum
    have hprod : ovi.fps_den * 1000000000 < 2 ^ 64 := by omega
    refine ⟨hprod, ?_⟩
    have hne : ovi.fps_num ≠ 0 := by omega
    have hmod : ovi.fps_den * 1000000000 % 2 ^ 64 = ovi.fps_den * 1000000000 :=
      Nat.mod_eq_of_lt hprod
    simp only [reset_frame_interval, hl, hh, hne, hmod, if_true, if_false]
  · intro video hl
    simp [reset_frame_interval, hl, hh]
  · cases hl : gc.config.limit_framerate <;> simp [reset_frame_interval, hl, hh]

/-- C9 at the host frame rate 60000/1001 with rate limiting on: the published
interval is 16683333 nanoseconds. -/
theorem C9_frame_interval_witness :
    ({ gc_zero with
        global_hook_info := some hook_info_zero
        config := { cfg_zero with limit_framerate := true } } : game_capture).global_hook_info
      = some hook_info_zero ∧
    reset_frame_interval
      { gc_zero with
        global_hook_info := some hook_info_zero
        config := { cfg_zero with limit_framerate := true } }
      (some { fps_num := 60000, fps_den := 1001 }) =
      some { gc_zero with
        global_hook_info := some { hook_info_zero with frame_interval := 16683333 }
        config := { cfg_zero with limit_framerate := true } } :=
  ⟨rfl,
   ((C9_frame_interval
      { gc_zero with
        global_hook_info := some hook_info_zero
        config := { cfg_zero with limit_framerate := true } }
      hook_info_zero rfl).1 { fps_num := 60000, fps_den := 1001 } rfl
      (by decide) (by decide) (by decide)).2⟩

theorem sscanf_0x0 (cx0 cy0 : Nat) : sscanf "0x0" cx0 cy0 = (2, 0, 0) := by
  rfl

theorem stop_capture_error (gc : game_capture) :
    (stop_capture gc).1.error_aqcuiring = gc.error_aqcuiring := rfl

/-- C10: forced scaling with a resolution string that is "0x0", or from which
`sscanf` reads fewer than two numbers. For every settings object with forced
scaling on and such a string, whatever the session, the window strings and the
prior contents of the local configuration, `get_config` yields
`scale_cx = 0` and `scale_cy = 0` and `game_capture_update` leaves
`error_aqcuiring` set. -/
theorem C10_forced_scaling_zero (bws : String → window_strings)
    (stack : game_capture_config) (gc : game_capture) (settings : obs_data)
    (hf : settings.force_scaling = true)
    (hs : settings.scale_res = "0x0" ∨
      (sscanf settings.scale_res stack.scale_cx stack.scale_cy).1 ≠ 2) :
    (get_config bws stack settings).scale_cx = 0 ∧
    (get_config bws stack settings).scale_cy = 0 ∧
    (game_capture_update bws stack gc settings).1.error_aqcuiring = true := by
  have hclear : (sscanf settings.scale_res stack.scale_cx stack.scale_cy).1 ≠ 2 ∨
      Nat.land (sscanf settings.scale_res stack.scale_cx stack.scale_cy).2.1 4294967293 = 0 ∨
      Nat.land (sscanf settings.scale_res stack.scale_cx stack.scale_cy).2.2 4294967293 = 0 := by
    rcases hs with h | h
    · rw [h, sscanf_0x0]
      exact Or.inr (Or.inl rfl)
    · exact Or.inl h
  have hcx : (get_config bws stack settings).scale_cx = 0 := by
    simp only [get_config, hf, true_and, decide_eq_true_eq, hclear, if_true]
  have hcy : (get_config bws stack settings).scale_cy = 0 := by
    simp only [get_config, hf, true_and, decide_eq_true_eq, hclear, if_true]
  have hfs : (get_config bws stack settings).force_scaling = true := hf
  refine ⟨hcx, hcy, ?_⟩
  unfold game_capture_update
  simp only [hcx, hfs, true_or, and_self, decide_True]
  split
  · split
    · rw [stop_capture_error]
    · rfl
  · rfl

/-- C10 at forced scaling with the unparsable resolution string "wide" and
prior contents 640 and 480 in the local configuration. -/
theorem C10_forced_scaling_zero_witness :
    ((settings_of true "wide").force_scaling = true ∧
     ((settings_of true "wide").scale_res = "0x0" ∨
      (sscanf (settings_of true "wide").scale_res
        ({ cfg_zero with scale_cx := 640, scale_cy := 480 } : game_capture_config).scale_cx
        ({ cfg_zero with scale_cx := 640, scale_cy := 480 } : game_capture_config).scale_cy).1
        ≠ 2)) ∧
    ((get_config no_window_strings { cfg_zero with scale_cx := 640, scale_cy := 480 }
        (settings_of true "wide")).scale_cx = 0 ∧
     (get_config no_window_strings { cfg_zero with scale_cx := 640, scale_cy := 480 }
        (settings_of true "wide")).scale_cy = 0 ∧
     (game_capture_update no_window_strings { cfg_zero with scale_cx := 640, scale_cy := 480 }
        gc_zero (settings_of true "wide")).1.error_aqcuiring = true) :=
  ⟨⟨rfl, Or.inr (by decide)⟩,
   C10_forced_scaling_zero no_window_strings { cfg_zero with scale_cx := 640, scale_cy := 480 }
     gc_zero (settings_of true "wide") rfl (Or.inr (by decide))⟩

/-! ## Lemmas on the handshake and the tick -/

theorem session_inv_of_active (gc : game_capture) (ha : gc.active = true)
    (hh : gc.global_hook_info ≠ none) : session_inv gc :=
  ⟨fun _ => hh, fun _ => ha, fun _ => ha⟩

theorem session_inv_congr (g1 g2 : game_capture) (h : session_inv g1)
    (ha : g2.active = g1.active) (hh : g2.global_hook_info.isSome = g1.global_hook_info.isSome)
    (hr : g2.hook_ready = g1.hook_ready) (ht : g2.texture = g1.texture) : session_inv g2 := by
  obtain ⟨h1, h2, h3⟩ := h
  refine ⟨?_, ?_, ?_⟩
  · intro a
    rw [ha] at a
    have := h1 a
    intro hn
    rw [hn] at hh
    cases hg : g1.global_hook_info with
    | none => exact this hg
    | some x => rw [hg] at hh; simp at hh
  · intro a
    rw [hr] at a
    rw [ha]
    exact h2 a
  · intro a
    rw [ht] at a
    rw [ha]
    exact h3 a

theorem stop_capture_torn_down (gc : game_capture) : torn_down (stop_capture gc).1 := by
  rw [stop_capture_state]
  exact ⟨rfl, rfl, rfl, rfl, rfl, rfl, rfl, rfl, rfl, rfl, rfl, rfl, rfl, rfl⟩

theorem torn_down_inv (gc : game_capture) (h : torn_down gc) : session_inv gc := by
  obtain ⟨ha, _, _, ht, _, _, _, _, hr, _⟩ := h
  refine ⟨?_, ?_, ?_⟩
  · intro a; rw [ha] at a; cases a
  · intro a; exact absurd hr a
  · intro a; exact absurd ht a

theorem stop_capture_inv (gc : game_capture) : session_inv (stop_capture gc).1 :=
  torn_down_inv _ (stop_capture_torn_down gc)

theorem tick_stop_inv (env : tick_env) (st : tick_state) (h : session_inv st.gc) :
    session_inv (tick_stop env st).gc := by
  unfold tick_stop
  split
  · exact stop_capture_inv st.gc
  · exact h

theorem tick_open_ready_inv (env : tick_env) (st : tick_state) (h : session_inv st.gc) :
    session_inv (tick_open_ready env st).gc := by
  unfold tick_open_ready
  split
  · rename_i hc
    exact session_inv_of_active _ hc.1 (h.1 hc.1)
  · exact h

theorem tick_injector_inv (env : tick_env) (st : tick_state) (h : session_inv st.gc) :
    session_inv (tick_injector env st).gc := by
  unfold tick_injector
  split
  · exact session_inv_congr st.gc _ h rfl rfl rfl rfl
  · exact h

theorem init_events_frame (env : tick_env) (gc : game_capture) :
    (init_events env gc).1.active = gc.active ∧
    (init_events env gc).1.global_hook_info = gc.global_hook_info ∧
    (init_events env gc).1.error_aqcuiring = gc.error_aqcuiring ∧
    (init_events env gc).1.data = gc.data := by
  unfold init_events
  dsimp only
  split_ifs <;> simp

theorem init_capture_data_frame (env : tick_env) (gc : game_capture) (r : game_capture × Bool)
    (h : init_capture_data env gc = Except.ok r) :
    r.1.active = gc.active ∧ r.1.global_hook_info = gc.global_hook_info ∧
    r.1.error_aqcuiring = gc.error_aqcuiring ∧ (r.2 = true → r.1.data ≠ none) := by
  unfold init_capture_data at h
  cases hg : gc.global_hook_info with
  | none => simp [hg] at h
  | some hi =>
      simp only [hg] at h
      split_ifs at h with h1 h2
      · cases h; simp [hg]
      · cases h; simp [hg]
      · cases h
        simp only [hg, true_and]
        intro _ hn
        simp [hn] at h2

theorem init_capture_data_fault (env : tick_env) (gc : game_capture)
    (hh : gc.global_hook_info ≠ none) (f : Fault) :
    init_capture_data env gc ≠ Except.error f := by
  unfold init_capture_data
  cases hg : gc.global_hook_info with
  | none => exact absurd hg hh
  | some hi =>
      dsimp only
      split_ifs <;> simp

theorem init_shmem_capture_frame (env : tick_env) (gc : game_capture) (r : game_capture × Bool)
    (h : init_shmem_capture env gc = Except.ok r) :
    r.1.active = gc.active ∧ r.1.global_hook_info = gc.global_hook_info ∧
    r.1.error_aqcuiring = gc.error_aqcuiring := by
  unfold init_shmem_capture at h
  split at h
  · cases h
  · cases h
  · dsimp only at h
    split_ifs at h <;> cases h <;> simp

theorem init_shmem_capture_fault (env : tick_env) (gc : game_capture)
    (hh : gc.global_hook_info ≠ none) :
    init_shmem_capture env gc ≠ Except.error Fault.null_header := by
  unfold init_shmem_capture
  split
  · simp
  · rename_i hn; exact absurd hn hh
  · dsimp only
    split_ifs <;> simp

theorem init_shtex_capture_frame (env : tick_env) (gc : game_capture) (r : game_capture × Bool)
    (h : init_shtex_capture env gc = Except.ok r) :
    r.1.active = gc.active ∧ r.1.global_hook_info = gc.global_hook_info ∧
    r.1.error_aqcuiring = gc.error_aqcuiring := by
  unfold init_shtex_capture at h
  split at h
  · cases h
  · dsimp only at h
    split_ifs at h <;> cases h <;> simp

theorem init_shtex_capture_fault (env : tick_env) (gc : game_capture) :
    init_shtex_capture env gc ≠ Except.error Fault.null_header := by
  unfold init_shtex_capture
  split
  · simp
  · dsimp only
    split_ifs <;> simp

theorem ok_steps_clean (l : List Call) (h : ok_steps l) :
    clean l ∧ Call.try_hook ∉ l ∧ Call.stop_capture ∉ l ∧ Call.copy_texture ∉ l := by
  refine ⟨?_, ?_, ?_, ?_⟩
  · intro s hs
    have := h _ hs
    simp [ok_step] at this
  · intro hs
    have := h _ hs
    simp [ok_step] at this
  · intro hs
    have := h _ hs
    simp [ok_step] at this
  · intro hs
    have := h _ hs
    simp [ok_step] at this

theorem start_capture_spec (env : tick_env) (st : tick_state) (r : tick_state × Bool)
    (h : start_capture env st = Except.ok r) :
    r.1.gc.active = st.gc.active ∧
    r.1.gc.global_hook_info = st.gc.global_hook_info ∧
    r.1.gc.error_aqcuiring = st.gc.error_aqcuiring ∧
    r.1.world = st.world ∧ r.1.trace = st.trace ∧
    ((r.2 = true ∧ ∃ l, r.1.calls = st.calls ++ l ∧ ok_steps l) ∨
     (r.2 = false ∧ ∃ l s, r.1.calls = st.calls ++ (l ++ [Call.step s false]) ∧ ok_steps l ∧
        start_step s = true)) := by
  obtain ⟨e1, e2, e3, _⟩ := init_events_frame env st.gc
  unfold start_capture at h
  dsimp only at h
  split_ifs at h with h1
  · cases h
    refine ⟨e1, e2, e3, rfl, rfl, Or.inr ⟨rfl, [Call.start_capture], Step.init_events, ?_, ?_, rfl⟩⟩
    · simp [h1]
    · simp [ok_steps, ok_step]
  · have h1t : (init_events env st.gc).2 = true := by simpa using h1
    cases hd : init_capture_data env (init_events env st.gc).1 with
    | error f => simp [hd] at h
    | ok r2 =>
        obtain ⟨d1, d2, d3, _⟩ := init_capture_data_frame _ _ _ hd
        simp only [hd] at h
        split_ifs at h with h2
        · cases h
          refine ⟨d1.trans e1, d2.trans e2, d3.trans e3, rfl, rfl,
            Or.inr ⟨rfl, [Call.start_capture, Call.step Step.init_events true],
              Step.init_capture_data, ?_, ?_, rfl⟩⟩
          · simp [h1t, h2]
          · simp [ok_steps, ok_step]
        · have h2t : r2.2 = true := by simpa using h2
          cases hg : r2.1.global_hook_info with
          | none => simp [hg] at h
          | some hi =>
              simp only [hg] at h
              split_ifs at h with h3
              · cases hs : init_shmem_capture env r2.1 with
                | error f => simp [hs] at h
                | ok r3 =>
                    obtain ⟨s1, s2, s3⟩ := init_shmem_capture_frame _ _ _ hs
                    simp only [hs] at h
                    cases h
                    refine ⟨s1.trans (d1.trans e1), s2.trans (d2.trans e2),
                      s3.trans (d3.trans e3), rfl, rfl, ?_⟩
                    cases hb : r3.2
                    · exact Or.inr ⟨rfl, [Call.start_capture, Call.step Step.init_events true,
                        Call.step Step.init_capture_data true], Step.init_shmem_capture,
                        by simp [h1t, h2t, hb], by simp [ok_steps, ok_step], rfl⟩
                    · exact Or.inl ⟨rfl, [Call.start_capture, Call.step Step.init_events true,
                        Call.step Step.init_capture_data true,
                        Call.step Step.init_shmem_capture true],
                        by simp [h1t, h2t, hb], by simp [ok_steps, ok_step]⟩
              · cases hs : init_shtex_capture env r2.1 with
                | error f => simp [hs] at h
                | ok r3 =>
                    obtain ⟨s1, s2, s3⟩ := init_shtex_capture_frame _ _ _ hs
                    simp only [hs] at h
                    cases h
                    refine ⟨s1.trans (d1.trans e1), s2.trans (d2.trans e2),
                      s3.trans (d3.trans e3), rfl, rfl, ?_⟩
                    cases hb : r3.2
                    · exact Or.inr ⟨rfl, [Call.start_capture, Call.step Step.init_events true,
                        Call.step Step.init_capture_data true], Step.init_shtex_capture,
                        by simp [h1t, h2t, hb], by simp [ok_steps, ok_step], rfl⟩
                    · exact Or.inl ⟨rfl, [Call.start_capture, Call.step Step.init_events true,
                        Call.step Step.init_capture_data true,
                        Call.step Step.init_shtex_capture true],
                        by simp [h1t, h2t, hb], by simp [ok_steps, ok_step]⟩

theorem start_capture_fault (env : tick_env) (st : tick_state)
    (hh : st.gc.global_hook_info ≠ none) :
    start_capture env st ≠ Except.error Fault.null_header := by
  obtain ⟨_, e2, _, _⟩ := init_events_frame env st.gc
  unfold start_capture
  dsimp only
  split_ifs with h1
  · simp
  · have hh1 : (init_events env st.gc).1.global_hook_info ≠ none := by rw [e2]; exact hh
    cases hd : init_capture_data env (init_events env st.gc).1 with
    | error f => exact absurd hd (init_capture_data_fault _ _ hh1 f)
    | ok r2 =>
        obtain ⟨_, d2, _, _⟩ := init_capture_data_frame _ _ _ hd
        have hh2 : r2.1.global_hook_info ≠ none := by rw [d2]; exact hh1
        dsimp only
        split_ifs with h2
        · simp
        · cases hg : r2.1.global_hook_info with
          | none => exact absurd hg hh2
          | some hi =>
              dsimp only
              split_ifs with h3
              · cases hs : init_shmem_capture env r2.1 with
                | error f =>
                    intro hc
                    simp only [Except.error.injEq] at hc
                    rw [hc] at hs
                    exact init_shmem_capture_fault _ _ hh2 hs
                | ok r3 => simp
              · cases hs : init_shtex_capture env r2.1 with
                | error f =>
                    intro hc
                    simp only [Except.error.injEq] at hc
                    rw [hc] at hs
                    exact init_shtex_capture_fault _ _ hs
                | ok r3 => simp

theorem reset_frame_interval_frame (gc g : game_capture) (video : Option obs_video_info)
    (h : reset_frame_interval gc video = some g) :
    g.active = gc.active ∧ g.global_hook_info ≠ none ∧
    g.error_aqcuiring = gc.error_aqcuiring ∧ g.hook_ready = gc.hook_ready ∧
    g.texture = gc.texture := by
  unfold reset_frame_interval at h
  dsimp only at h
  generalize (if gc.config.limit_framerate = true then
      match video with
      | some ovi =>
          if ovi.fps_num = 0 then none
          else some (ovi.fps_den * 1000000000 % 2 ^ 64 / ovi.fps_num)
      | none => some 0
    else some 0) = interval at h
  cases interval with
  | none => cases h
  | some i =>
      cases hg : gc.global_hook_info with
      | none => simp [hg] at h
      | some hi =>
          simp only [hg, Option.some.injEq] at h
          subst h
          simp

theorem reset_frame_interval_none (gc : game_capture) (video : Option obs_video_info)
    (h : reset_frame_interval gc video = none) (hh : gc.global_hook_info ≠ none) :
    reset_frame_interval_fault gc video = Fault.division_by_zero := by
  unfold reset_frame_interval at h
  unfold reset_frame_interval_fault
  cases hg : gc.global_hook_info with
  | none => exact absurd hg hh
  | some hi =>
      cases hl : gc.config.limit_framerate with
      | false => simp [hg, hl] at h
      | true =>
          cases hv : video with
          | none => simp [hg, hl, hv] at h
          | some ovi =>
              by_cases h0 : ovi.fps_num = 0
              · simp [h0]
              · simp [hg, hl, hv, h0] at h

theorem init_hook_info_spec (env : tick_env) (gc : game_capture) :
    init_hook_info env gc ≠ Except.error Fault.null_header ∧
    ∀ r, init_hook_info env gc = Except.ok r →
      r.1.active = gc.active ∧ r.1.error_aqcuiring = gc.error_aqcuiring ∧
      r.1.hook_ready = gc.hook_ready ∧ r.1.texture = gc.texture ∧
      (r.2 = true → r.1.global_hook_info ≠ none) := by
  unfold init_hook_info
  by_cases h0 : env.get_hook_info = 0
  · rw [if_pos h0]
    refine ⟨by simp, ?_⟩
    intro r hr
    cases hr
    simp
  · rw [if_neg h0]
    cases hv : env.map_view_hook_info with
    | none =>
        refine ⟨by simp, ?_⟩
        intro r hr
        cases hr
        simp
    | some hi =>
        dsimp only
        split
        · rename_i hn
          refine ⟨?_, by intro r hr; cases hr⟩
          rw [reset_frame_interval_none _ _ hn (by simp)]
          simp
        · rename_i gc2 hs
          obtain ⟨a1, a2, a3, a4, a5⟩ := reset_frame_interval_frame _ _ _ hs
          refine ⟨by simp, ?_⟩
          intro r hr
          cases hr
          refine ⟨a1, a3, a4, a5, ?_⟩
          intro _
          cases hg : gc2.global_hook_info with
          | none => exact absurd hg a2
          | some x => simp

theorem frame_refl (g : game_capture) : frame g g := ⟨rfl, rfl, rfl, rfl⟩

theorem frame_trans (g1 g2 g3 : game_capture) (h1 : frame g1 g2) (h2 : frame g2 g3) :
    frame g1 g3 :=
  ⟨h2.1.trans h1.1, h2.2.1.trans h1.2.1, h2.2.2.1.trans h1.2.2.1, h2.2.2.2.trans h1.2.2.2⟩

theorem open_target_process_frame (env : tick_env) (gc : game_capture) :
    frame gc (open_target_process env gc).1 := by
  unfold open_target_process
  split_ifs <;> exact ⟨rfl, rfl, rfl, rfl⟩

theorem init_keepalive_frame (env : tick_env) (gc : game_capture) :
    frame gc (init_keepalive env gc).1 := ⟨rfl, rfl, rfl, rfl⟩

theorem init_texture_mutexes_frame (env : tick_env) (gc : game_capture) :
    frame gc (init_texture_mutexes env gc).1 := ⟨rfl, rfl, rfl, rfl⟩

theorem init_pipe_frame (env : tick_env) (gc : game_capture) :
    frame gc (init_pipe env gc).1 ∧
    (init_pipe env gc).1.global_hook_info = gc.global_hook_info := ⟨⟨rfl, rfl, rfl, rfl⟩, rfl⟩

theorem attempt_existing_hook_frame (env : tick_env) (gc : game_capture) :
    frame gc (attempt_existing_hook env gc).1 ∧
    (attempt_existing_hook env gc).1.global_hook_info = gc.global_hook_info := by
  unfold attempt_existing_hook
  split_ifs <;> exact ⟨⟨rfl, rfl, rfl, rfl⟩, rfl⟩

theorem inject_hook_frame (env : tick_env) (gc : game_capture) :
    frame gc (inject_hook env gc).1 ∧
    (inject_hook env gc).1.global_hook_info = gc.global_hook_info := by
  unfold inject_hook create_inject_process
  dsimp only
  split_ifs <;>
    first
    | exact ⟨⟨rfl, rfl, rfl, rfl⟩, rfl⟩
    | (split <;> exact ⟨⟨rfl, rfl, rfl, rfl⟩, rfl⟩)

theorem init_hook_info_frame (env : tick_env) (gc : game_capture) (r : game_capture × Bool)
    (h : init_hook_info env gc = Except.ok r) :
    frame gc r.1 ∧ (r.2 = true → r.1.global_hook_info ≠ none) := by
  obtain ⟨a1, a2, a3, a4, a5⟩ := (init_hook_info_spec env gc).2 r h
  exact ⟨⟨a1, a2, a3, a4⟩, a5⟩

theorem init_hook_spec (env : tick_env) (st : tick_state) (r : tick_state × Bool)
    (h : init_hook env st = Except.ok r) :
    r.1.world = st.world ∧
    r.1.gc.error_aqcuiring = st.gc.error_aqcuiring ∧
    r.1.gc.hook_ready = st.gc.hook_ready ∧
    r.1.gc.texture = st.gc.texture ∧
    ((r.2 = true ∧ r.1.gc.active = true ∧ r.1.gc.global_hook_info ≠ none ∧
        ∃ l, r.1.calls = st.calls ++ l ∧ ok_steps l) ∨
     (r.2 = false ∧ ∃ l s, r.1.calls = st.calls ++ (l ++ [Call.step s false]) ∧ ok_steps l ∧
        start_step s = false)) := by
  have f1 := open_target_process_frame env st.gc
  have f2 := init_keepalive_frame env (open_target_process env st.gc).1
  have f3 := init_texture_mutexes_frame env (init_keepalive env (open_target_process env st.gc).1).1
  have f13 := frame_trans _ _ _ (frame_trans _ _ _ f1 f2) f3
  unfold init_hook at h
  dsimp only at h
  by_cases h1 : (open_target_process env st.gc).2 = false
  · rw [if_pos h1] at h
    cases h
    refine ⟨rfl, f1.2.1, f1.2.2.1, f1.2.2.2, Or.inr ⟨rfl, [Call.init_hook],
      Step.open_target_process, by simp [h1], by simp [ok_steps, ok_step], rfl⟩⟩
  rw [if_neg h1] at h
  have h1t : (open_target_process env st.gc).2 = true := by simpa using h1
  by_cases h2 : (init_keepalive env (open_target_process env st.gc).1).2 = false
  · rw [if_pos h2] at h
    cases h
    have f := frame_trans _ _ _ f1 f2
    refine ⟨rfl, f.2.1, f.2.2.1, f.2.2.2, Or.inr ⟨rfl,
      [Call.init_hook, Call.step Step.open_target_process true],
      Step.init_keepalive, by simp [h1t, h2], by simp [ok_steps, ok_step], rfl⟩⟩
  rw [if_neg h2] at h
  have h2t : (init_keepalive env (open_target_process env st.gc).1).2 = true := by simpa using h2
  by_cases h3 : (init_texture_mutexes env
      (init_keepalive env (open_target_process env st.gc).1).1).2 = false
  · rw [if_pos h3] at h
    cases h
    refine ⟨rfl, f13.2.1, f13.2.2.1, f13.2.2.2, Or.inr ⟨rfl,
      [Call.init_hook, Call.step Step.open_target_process true,
        Call.step Step.init_keepalive true],
      Step.init_texture_mutexes, by simp [h1t, h2t, h3], by simp [ok_steps, ok_step], rfl⟩⟩
  rw [if_neg h3] at h
  have h3t : (init_texture_mutexes env
      (init_keepalive env (open_target_process env st.gc).1).1).2 = true := by simpa using h3
  cases h4e : init_hook_info env (init_texture_mutexes env
      (init_keepalive env (open_target_process env st.gc).1).1).1 with
  | error f => simp [h4e] at h
  | ok r4 =>
      obtain ⟨f4, hh4⟩ := init_hook_info_frame _ _ _ h4e
      have f14 := frame_trans _ _ _ f13 f4
      simp only [h4e] at h
      by_cases h4 : r4.2 = false
      · rw [if_pos h4] at h
        cases h
        refine ⟨rfl, f14.2.1, f14.2.2.1, f14.2.2.2, Or.inr ⟨rfl,
          [Call.init_hook, Call.step Step.open_target_process true,
            Call.step Step.init_keepalive true, Call.step Step.init_texture_mutexes true],
          Step.init_hook_info, by simp [h1t, h2t, h3t, h4], by simp [ok_steps, ok_step], rfl⟩⟩
      rw [if_neg h4] at h
      have h4t : r4.2 = true := by simpa using h4
      obtain ⟨f5, g5⟩ := init_pipe_frame env r4.1
      have f15 := frame_trans _ _ _ f14 f5
      by_cases h5 : (init_pipe env r4.1).2 = false
      · rw [if_pos h5] at h
        cases h
        refine ⟨rfl, f15.2.1, f15.2.2.1, f15.2.2.2, Or.inr ⟨rfl,
          [Call.init_hook, Call.step Step.open_target_process true,
            Call.step Step.init_keepalive true, Call.step Step.init_texture_mutexes true,
            Call.step Step.init_hook_info true],
          Step.init_pipe, by simp [h1t, h2t, h3t, h4t, h5], by simp [ok_steps, ok_step], rfl⟩⟩
      rw [if_neg h5] at h
      have h5t : (init_pipe env r4.1).2 = true := by simpa using h5
      obtain ⟨f6, g6⟩ := attempt_existing_hook_frame env (init_pipe env r4.1).1
      have f16 := frame_trans _ _ _ f15 f6
      have hh6 : (attempt_existing_hook env (init_pipe env r4.1).1).1.global_hook_info ≠ none := by
        rw [g6, g5]; exact hh4 h4t
      by_cases h6 : (attempt_existing_hook env (init_pipe env r4.1).1).2.1 = true
      · rw [if_pos h6] at h
        cases h
        refine ⟨rfl, f16.2.1, f16.2.2.1, f16.2.2.2, Or.inl ⟨rfl, rfl, hh6,
          [Call.init_hook, Call.step Step.open_target_process true,
            Call.step Step.init_keepalive true, Call.step Step.init_texture_mutexes true,
            Call.step Step.init_hook_info true, Call.step Step.init_pipe true,
            Call.existing_hook true],
          by simp [h1t, h2t, h3t, h4t, h5t, h6], by simp [ok_steps, ok_step]⟩⟩
      rw [if_neg h6] at h
      have h6f : (attempt_existing_hook env (init_pipe env r4.1).1).2.1 = false := by
        simpa using h6
      obtain ⟨f7, g7⟩ := inject_hook_frame env (attempt_existing_hook env (init_pipe env r4.1).1).1
      have f17 := frame_trans _ _ _ f16 f7
      by_cases h7 : (inject_hook env (attempt_existing_hook env (init_pipe env r4.1).1).1).2 = false
      · rw [if_pos h7] at h
        cases h
        refine ⟨rfl, f17.2.1, f17.2.2.1, f17.2.2.2, Or.inr ⟨rfl,
          [Call.init_hook, Call.step Step.open_target_process true,
            Call.step Step.init_keepalive true, Call.step Step.init_texture_mutexes true,
            Call.step Step.init_hook_info true, Call.step Step.init_pipe true,
            Call.existing_hook false],
          Step.inject_hook, by simp [h1t, h2t, h3t, h4t, h5t, h6f, h7],
          by simp [ok_steps, ok_step], rfl⟩⟩
      rw [if_neg h7] at h
      have h7t : (inject_hook env (attempt_existing_hook env (init_pipe env r4.1).1).1).2 = true := by
        simpa using h7
      cases h
      refine ⟨rfl, f17.2.1, f17.2.2.1, f17.2.2.2, Or.inl ⟨rfl, rfl, by rw [← g7] at hh6; exact hh6,
        [Call.init_hook, Call.step Step.open_target_process true,
          Call.step Step.init_keepalive true, Call.step Step.init_texture_mutexes true,
          Call.step Step.init_hook_info true, Call.step Step.init_pipe true,
          Call.existing_hook false, Call.step Step.inject_hook true],
        by simp [h1t, h2t, h3t, h4t, h5t, h6f, h7t], by simp [ok_steps, ok_step]⟩⟩

theorem init_hook_fault (env : tick_env) (st : tick_state) :
    init_hook env st ≠ Except.error Fault.null_header := by
  unfold init_hook
  dsimp only
  split_ifs
  · simp
  · simp
  · simp
  · cases h4e : init_hook_info env (init_texture_mutexes env
        (init_keepalive env (open_target_process env st.gc).1).1).1 with
    | error f =>
        intro hc
        simp only [Except.error.injEq] at hc
        rw [hc] at h4e
        exact (init_hook_info_spec env _).1 h4e
    | ok r4 =>
        dsimp only
        split_ifs <;> simp

theorem clean_nil : clean [] := by
  intro s hs
  cases hs

theorem clean_append (a b : List Call) (ha : clean a) (hb : clean b) : clean (a ++ b) := by
  intro s hs
  rcases List.mem_append.mp hs with h | h
  · exact ha s h
  · exact hb s h

theorem clean_of_ok_steps (l : List Call) (h : ok_steps l) : clean l :=
  (ok_steps_clean l h).1

theorem torn_down_congr (g1 g2 : game_capture) (h : torn_down g1)
    (e : g2 = { g1 with error_aqcuiring := g2.error_aqcuiring,
                        check_interval := g2.check_interval }) : torn_down g2 := by
  rw [e]
  exact h

theorem do_stop_capture_torn_down (st : tick_state) : torn_down (do_stop_capture st).gc :=
  stop_capture_torn_down st.gc

theorem find_target_spec (env : tick_env) (gc g : game_capture)
    (h : find_target env gc = Except.ok g) :
    frame gc g ∧ g.global_hook_info = gc.global_hook_info := by
  unfold find_target at h
  split_ifs at h
  · cases h
    exact ⟨⟨rfl, rfl, rfl, rfl⟩, rfl⟩
  · unfold get_selected_window at h
    split at h
    · cases h
    · split_ifs at h <;> cases h <;> exact ⟨⟨rfl, rfl, rfl, rfl⟩, rfl⟩

theorem find_target_fault (env : tick_env) (gc : game_capture) :
    find_target env gc ≠ Except.error Fault.null_header := by
  unfold find_target get_selected_window
  split_ifs
  · simp
  · split
    · simp
    · split_ifs <;> simp

theorem try_hook_spec (env : tick_env) (st st' : tick_state)
    (h : try_hook env st = Except.ok st') :
    st'.world = st.world ∧
    ((∃ l, st'.calls = st.calls ++ l ∧ clean l ∧ Call.try_hook ∈ l) ∨
     (∃ l s, st'.calls = st.calls ++ (l ++ [Call.step s false, Call.stop_capture]) ∧ clean l ∧
        start_step s = false ∧ torn_down st'.gc ∧
        st'.gc.error_aqcuiring = st.gc.error_aqcuiring)) := by
  unfold try_hook at h
  dsimp only [log_call] at h
  cases hf : find_target env st.gc with
  | error f => simp [hf] at h
  | ok g =>
      obtain ⟨fg, _⟩ := find_target_spec _ _ _ hf
      simp only [hf] at h
      split_ifs at h with h1 h2
      · cases h
        exact ⟨rfl, Or.inl ⟨[Call.try_hook], rfl, by simp [clean], by simp⟩⟩
      · cases hi : init_hook env
            { st with
              gc := { g with thread_id := env.window_thread_id,
                             process_id := env.window_process_id }
              calls := st.calls ++ [Call.try_hook] } with
        | error f => simp [hi] at h
        | ok r =>
            obtain ⟨w1, e1, _, _, hr⟩ := init_hook_spec _ _ _ hi
            simp only [hi] at h
            rcases hr with ⟨rt, _, _, l, hl, hok⟩ | ⟨rf, l, s, hl, hok, hs⟩
            · rw [if_neg (by simp [rt])] at h
              cases h
              refine ⟨w1, Or.inl ⟨Call.try_hook :: l, ?_, ?_, by simp⟩⟩
              · rw [hl]; simp
              · intro s hs
                rcases List.mem_cons.mp hs with h0 | h0
                · cases h0
                · exact clean_of_ok_steps l hok s h0
            · rw [if_pos rf] at h
              cases h
              refine ⟨w1, Or.inr ⟨Call.try_hook :: l, s, ?_, ?_, hs,
                do_stop_capture_torn_down _, ?_⟩⟩
              · simp [do_stop_capture, hl]
              · intro s hs
                rcases List.mem_cons.mp hs with h0 | h0
                · cases h0
                · exact clean_of_ok_steps l hok s h0
              · show (stop_capture r.1.gc).1.error_aqcuiring = _
                rw [stop_capture_error, e1]
                exact fg.2.1
      · cases h
        exact ⟨rfl, Or.inl ⟨[Call.try_hook], rfl, by simp [clean], by simp⟩⟩

theorem try_hook_inv (env : tick_env) (st : tick_state) (hinv : session_inv st.gc)
    (ha : st.gc.active = false) :
    try_hook env st ≠ Except.error Fault.null_header ∧
    ∀ st', try_hook env st = Except.ok st' → session_inv st'.gc := by
  have hr0 : st.gc.hook_ready = 0 := by
    by_contra hc
    have := hinv.2.1 hc
    rw [ha] at this
    cases this
  have ht0 : st.gc.texture = 0 := by
    by_contra hc
    have := hinv.2.2 hc
    rw [ha] at this
    cases this
  unfold try_hook
  dsimp only [log_call]
  cases hf : find_target env st.gc with
  | error f =>
      refine ⟨?_, fun st' h => by cases h⟩
      intro hc
      simp only [Except.error.injEq] at hc
      rw [hc] at hf
      exact find_target_fault _ _ hf
  | ok g =>
      obtain ⟨fg, hg⟩ := find_target_spec _ _ _ hf
      dsimp only
      split_ifs with h1 h2
      · refine ⟨by simp, ?_⟩
        intro st' h
        cases h
        refine session_inv_congr st.gc _ hinv fg.1 ?_ fg.2.2.1 fg.2.2.2
        show g.global_hook_info.isSome = _
        rw [hg]
      · cases hi : init_hook env
            { st with
              gc := { g with thread_id := env.window_thread_id,
                             process_id := env.window_process_id }
              calls := st.calls ++ [Call.try_hook] } with
        | error f =>
            refine ⟨?_, fun st' h => by cases h⟩
            intro hc
            simp only [Except.error.injEq] at hc
            rw [hc] at hi
            exact init_hook_fault _ _ hi
        | ok r =>
            obtain ⟨_, _, _, _, hr⟩ := init_hook_spec _ _ _ hi
            dsimp only
            split_ifs with hb
            · refine ⟨by simp, ?_⟩
              intro st' h
              cases h
              exact stop_capture_inv _
            · refine ⟨by simp, ?_⟩
              intro st' h
              cases h
              rcases hr with ⟨_, hact, hhdr, _⟩ | ⟨rf, _⟩
              · exact session_inv_of_active _ hact hhdr
              · exact absurd rf hb
      · refine ⟨by simp, ?_⟩
        intro st' h
        cases h
        refine ⟨?_, ?_, ?_⟩
        · intro a; cases a
        · intro a
          exact absurd (fg.2.2.1.trans hr0) a
        · intro a
          exact absurd (fg.2.2.2.trans ht0) a

theorem tick_ready_spec (env : tick_env) (st st' : tick_state)
    (h : tick_ready env st = Except.ok st') :
    st'.world = st.world ∧
    (st.gc.error_aqcuiring = true → st'.gc.error_aqcuiring = true) ∧
    ((∃ l, st'.calls = st.calls ++ l ∧ clean l ∧ Call.try_hook ∉ l ∧ Call.stop_capture ∉ l ∧
        Call.copy_texture ∉ l ∧ st'.gc.active = st.gc.active ∧
        st'.gc.error_aqcuiring = st.gc.error_aqcuiring ∧ st'.trace = st.trace) ∨
     (∃ l s, st'.calls = st.calls ++ (l ++ [Call.step s false, Call.stop_capture]) ∧ ok_steps l ∧
        start_step s = true ∧ torn_down st'.gc ∧ st'.gc.error_aqcuiring = true)) := by
  unfold tick_ready at h
  split_ifs at h with hc
  · cases hs : start_capture env st with
    | error f => simp [hs] at h
    | ok r =>
        obtain ⟨a1, _, a3, a4, a5, hr⟩ := start_capture_spec _ _ _ hs
        simp only [hs] at h
        rcases hr with ⟨rt, l, hl, hok⟩ | ⟨rf, l, s, hl, hok, hss⟩
        · rw [if_neg (by simp [rt])] at h
          cases h
          obtain ⟨c1, c2, c3, c4⟩ := ok_steps_clean l hok
          exact ⟨a4, fun e => a3.trans e, Or.inl ⟨l, hl, c1, c2, c3, c4, a1, a3, a5⟩⟩
        · rw [if_pos rf] at h
          cases h
          refine ⟨a4, fun _ => rfl, Or.inr ⟨l, s, ?_, hok, hss, ?_, rfl⟩⟩
          · simp [do_stop_capture, hl]
          · exact do_stop_capture_torn_down r.1
  · cases h
    exact ⟨rfl, fun e => e, Or.inl ⟨[], by simp, clean_nil, by simp, by simp, by simp,
      rfl, rfl, rfl⟩⟩

theorem tick_ready_inv (env : tick_env) (st : tick_state) (hinv : session_inv st.gc) :
    tick_ready env st ≠ Except.error Fault.null_header ∧
    ∀ st', tick_ready env st = Except.ok st' → session_inv st'.gc := by
  unfold tick_ready
  split_ifs with hc
  · have hact := hinv.2.1 hc.1
    have hhdr := hinv.1 hact
    cases hs : start_capture env st with
    | error f =>
        refine ⟨?_, fun st' h => by cases h⟩
        intro hc
        simp only [Except.error.injEq] at hc
        rw [hc] at hs
        exact start_capture_fault _ _ hhdr hs
    | ok r =>
        obtain ⟨a1, a2, _, _, _, _⟩ := start_capture_spec _ _ _ hs
        dsimp only
        split_ifs with hb
        · refine ⟨by simp, ?_⟩
          intro st' h
          cases h
          exact torn_down_inv _ (do_stop_capture_torn_down r.1)
        · refine ⟨by simp, ?_⟩
          intro st' h
          cases h
          exact session_inv_of_active _ (a1.trans hact) (by rw [a2]; exact hhdr)
  · exact ⟨by simp, fun st' h => by cases h; exact hinv⟩

theorem tick_search_spec (env : tick_env) (st st' : tick_state)
    (h : tick_search env st = Except.ok st') :
    st'.world = st.world ∧
    (st.gc.error_aqcuiring = true → st' = st) ∧
    ((∃ l, st'.calls = st.calls ++ l ∧ clean l) ∨
     (∃ l s, st'.calls = st.calls ++ (l ++ [Call.step s false, Call.stop_capture]) ∧ clean l ∧
        start_step s = false ∧ torn_down st'.gc ∧ st'.gc.error_aqcuiring = false)) := by
  unfold tick_search at h
  split_ifs at h with h1 h2
  · cases ht : try_hook env st with
    | error f => simp [ht] at h
    | ok s =>
        obtain ⟨w1, hr⟩ := try_hook_spec _ _ _ ht
        simp only [ht] at h
        cases h
        refine ⟨w1, fun e => ?_, ?_⟩
        · rw [h1.1] at e; cases e
        · rcases hr with ⟨l, hl, hc, _⟩ | ⟨l, s', hl, hc, hs, htd, he⟩
          · exact Or.inl ⟨l, hl, hc⟩
          · exact Or.inr ⟨l, s', hl, hc, hs, htd, he.trans h1.1⟩
  · cases h
    exact ⟨rfl, fun _ => rfl, Or.inl ⟨[], by simp, clean_nil⟩⟩
  · cases h
    exact ⟨rfl, fun _ => rfl, Or.inl ⟨[], by simp, clean_nil⟩⟩

theorem tick_search_inv (env : tick_env) (st : tick_state) (hinv : session_inv st.gc)
    (ha : st.gc.active = false) :
    tick_search env st ≠ Except.error Fault.null_header ∧
    ∀ st', tick_search env st = Except.ok st' → session_inv st'.gc := by
  obtain ⟨t1, t2⟩ := try_hook_inv env st hinv ha
  unfold tick_search
  split_ifs with h1 h2
  · cases ht : try_hook env st with
    | error f =>
        refine ⟨?_, fun st' h => by cases h⟩
        intro hc
        simp only [Except.error.injEq] at hc
        rw [hc] at ht
        exact t1 ht
    | ok s =>
        refine ⟨by simp, ?_⟩
        intro st' h
        cases h
        exact session_inv_congr s.gc _ (t2 s ht) rfl rfl rfl rfl
  · exact ⟨by simp, fun st' h => by cases h; exact hinv⟩
  · exact ⟨by simp, fun st' h => by cases h; exact hinv⟩

theorem tick_frame_spec (env : tick_env) (st st' : tick_state) (seconds : Nat)
    (h : tick_frame env st seconds = Except.ok st') :
    st'.gc.active = st.gc.active ∧
    st'.gc.error_aqcuiring = st.gc.error_aqcuiring ∧
    st'.gc.hook_ready = st.gc.hook_ready ∧ st'.gc.texture = st.gc.texture ∧
    st'.gc.global_hook_info.isSome = st.gc.global_hook_info.isSome ∧
    ∃ l, st'.calls = st.calls ++ l ∧ clean l ∧ Call.try_hook ∉ l ∧ Call.stop_capture ∉ l ∧
      (st.gc.copy_texture ≠ none → Call.copy_texture ∈ l) := by
  unfold tick_frame at h
  dsimp only at h
  -- the copy
  have hcopy : ∃ st1 l1, (match st.gc.copy_texture with
      | some copy_texture_fn.copy_shmem_tex =>
          match copy_shmem_tex st.gc st.world with
          | none => Except.error Fault.null_payload
          | some r =>
              Except.ok { st with
                world := r.world
                calls := st.calls ++ [Call.copy_texture]
                trace := st.trace ++ r.trace }
      | none => Except.ok st) = Except.ok st1 ∧ st1.gc = st.gc ∧ st1.calls = st.calls ++ l1 ∧
      clean l1 ∧ Call.try_hook ∉ l1 ∧ Call.stop_capture ∉ l1 ∧
      (st.gc.copy_texture ≠ none → Call.copy_texture ∈ l1) := by
    cases hc : st.gc.copy_texture with
    | none =>
        exact ⟨st, [], rfl, rfl, by simp, clean_nil, by simp, by simp, by simp⟩
    | some fn =>
        cases fn
        cases hr : copy_shmem_tex st.gc st.world with
        | none => simp [hc, hr] at h
        | some r =>
            exact ⟨_, [Call.copy_texture], rfl, rfl, rfl, by simp [clean], by simp, by simp,
              by simp⟩
  obtain ⟨st1, l1, e1, g1, c1, k1, n1, m1, p1⟩ := hcopy
  rw [e1] at h
  dsimp only at h
  have hcur : ∃ l2, (if st1.gc.config.cursor = true then log_call st1 Call.cursor_capture
      else st1).calls = st.calls ++ l2 ∧
      (if st1.gc.config.cursor = true then log_call st1 Call.cursor_capture else st1).gc = st.gc ∧
      clean l2 ∧ Call.try_hook ∉ l2 ∧ Call.stop_capture ∉ l2 ∧
      (st.gc.copy_texture ≠ none → Call.copy_texture ∈ l2) := by
    split_ifs
    · refine ⟨l1 ++ [Call.cursor_capture], by simp [log_call, c1], g1, ?_, ?_, ?_, ?_⟩
      · exact clean_append _ _ k1 (by simp [clean])
      · simp [n1]
      · simp [m1]
      · intro hh; simp [p1 hh]
    · exact ⟨l1, c1, g1, k1, n1, m1, p1⟩
  obtain ⟨l2, c2, g2, k2, n2, m2, p2⟩ := hcur
  generalize (if st1.gc.config.cursor = true then log_call st1 Call.cursor_capture else st1)
    = st2 at h c2 g2
  split_ifs at h with hi
  · cases hrf : reset_frame_interval
        { st2.gc with fps_reset_interval := f32_add st2.gc.fps_reset_interval seconds }
        env.video with
    | none => simp [hrf] at h
    | some g4 =>
        obtain ⟨r1, r2, r3, r4, r5⟩ := reset_frame_interval_frame _ _ _ hrf
        simp only [hrf] at h
        cases h
        have hsome : g4.global_hook_info.isSome = true := by
          cases hg : g4.global_hook_info with
          | none => exact absurd hg r2
          | some x => rfl
        have hsome0 : st.gc.global_hook_info.isSome = true := by
          unfold reset_frame_interval at hrf
          cases hg : st.gc.global_hook_info with
          | none =>
              rw [g2] at hrf
              simp [hg] at hrf
          | some x => rfl
        refine ⟨?_, ?_, ?_, ?_, ?_, l2 ++ [Call.reset_frame_interval], ?_, ?_, ?_, ?_, ?_⟩
        · show g4.active = _
          rw [r1, ← g2]
        · show g4.error_aqcuiring = _
          rw [r3, ← g2]
        · show g4.hook_ready = _
          rw [r4, ← g2]
        · show g4.texture = _
          rw [r5, ← g2]
        · show g4.global_hook_info.isSome = _
          rw [hsome, hsome0]
        · simp [c2]
        · exact clean_append _ _ k2 (by simp [clean])
        · simp [n2]
        · simp [m2]
        · intro hh; simp [p2 hh]
  · cases h
    refine ⟨?_, ?_, ?_, ?_, ?_, l2, c2, k2, n2, m2, p2⟩
    · show st2.gc.active = _
      rw [g2]
    · show st2.gc.error_aqcuiring = _
      rw [g2]
    · show st2.gc.hook_ready = _
      rw [g2]
    · show st2.gc.texture = _
      rw [g2]
    · show st2.gc.global_hook_info.isSome = _
      rw [g2]

theorem tick_frame_fault (env : tick_env) (st : tick_state) (seconds : Nat)
    (hh : st.gc.global_hook_info ≠ none) :
    tick_frame env st seconds ≠ Except.error Fault.null_header := by
  unfold tick_frame
  dsimp only
  cases hc : st.gc.copy_texture with
  | some fn =>
      cases fn
      dsimp only
      cases hr : copy_shmem_tex st.gc st.world with
      | none => simp
      | some r =>
          dsimp only
          split_ifs
          · split
            · rename_i hn
              rw [reset_frame_interval_none _ _ hn (by simpa [log_call] using hh)]
              simp
            · simp
          · simp
          · split
            · rename_i hn
              rw [reset_frame_interval_none _ _ hn (by simpa using hh)]
              simp
            · simp
          · simp
  | none =>
      dsimp only
      split_ifs
      · split
        · rename_i hn
          rw [reset_frame_interval_none _ _ hn (by simpa [log_call] using hh)]
          simp
        · simp
      · simp
      · split
        · rename_i hn
          rw [reset_frame_interval_none _ _ hn (by simpa using hh)]
          simp
        · simp
      · simp

theorem tick_capture_inv (env : tick_env) (st : tick_state) (seconds : Nat)
    (hinv : session_inv st.gc) (ha : st.gc.active = true) :
    tick_capture env st seconds ≠ Except.error Fault.null_header ∧
    ∀ st', tick_capture env st seconds = Except.ok st' → session_inv st'.gc := by
  unfold tick_capture
  split_ifs
  · exact ⟨by simp, fun st' h => by cases h; exact stop_capture_inv _⟩
  · refine ⟨tick_frame_fault env st seconds (hinv.1 ha), ?_⟩
    intro st' h
    obtain ⟨a1, _, a3, a4, a5, _⟩ := tick_frame_spec _ _ _ _ h
    exact session_inv_congr st.gc _ hinv a1 a5 a3 a4

theorem tick_capture_spec (env : tick_env) (st st' : tick_state) (seconds : Nat)
    (h : tick_capture env st seconds = Except.ok st') :
    (st.gc.error_aqcuiring = true → st'.gc.error_aqcuiring = true) ∧
    ∃ l, st'.calls = st.calls ++ l ∧ clean l ∧ Call.try_hook ∉ l := by
  unfold tick_capture at h
  split_ifs at h
  · cases h
    refine ⟨fun e => ?_, [Call.stop_capture], rfl, by simp [clean], by simp⟩
    show (stop_capture st.gc).1.error_aqcuiring = true
    rw [stop_capture_error]
    exact e
  · obtain ⟨_, a2, _, _, _, l, hl, hc, hn, _⟩ := tick_frame_spec _ _ _ _ h
    exact ⟨fun e => a2.trans e, l, hl, hc, hn⟩

theorem tick_stop_spec (env : tick_env) (st : tick_state) :
    (tick_stop env st).world = st.world ∧
    (tick_stop env st).gc.error_aqcuiring = st.gc.error_aqcuiring ∧
    ∃ l, (tick_stop env st).calls = st.calls ++ l ∧ clean l ∧ Call.try_hook ∉ l := by
  unfold tick_stop
  split_ifs
  · exact ⟨rfl, stop_capture_error st.gc,
      [Call.stop_capture], rfl, by simp [clean], by simp⟩
  · exact ⟨rfl, rfl, [], by simp, clean_nil, by simp⟩

theorem tick_open_ready_spec (env : tick_env) (st : tick_state) :
    (tick_open_ready env st).world = st.world ∧
    (tick_open_ready env st).gc.error_aqcuiring = st.gc.error_aqcuiring ∧
    (tick_open_ready env st).calls = st.calls := by
  unfold tick_open_ready
  split_ifs <;> exact ⟨rfl, rfl, rfl⟩

theorem tick_injector_spec (env : tick_env) (st : tick_state) :
    (tick_injector env st).world = st.world ∧
    (st.gc.error_aqcuiring = true → (tick_injector env st).gc.error_aqcuiring = true) ∧
    (tick_injector env st).calls = st.calls := by
  unfold tick_injector
  by_cases hc : st.gc.injector_process ≠ 0 ∧ handle_signalled env st.gc.injector_process = true
  · rw [if_pos hc]
    refine ⟨rfl, ?_, rfl⟩
    intro e
    dsimp only
    split_ifs
    · rfl
    · exact e
  · rw [if_neg hc]
    exact ⟨rfl, fun e => e, rfl⟩

theorem tick_pre_spec (env : tick_env) (st : tick_state) :
    (tick_injector env (tick_open_ready env (tick_stop env st))).world = st.world ∧
    (st.gc.error_aqcuiring = true →
      (tick_injector env (tick_open_ready env (tick_stop env st))).gc.error_aqcuiring = true) ∧
    ∃ l, (tick_injector env (tick_open_ready env (tick_stop env st))).calls = st.calls ++ l ∧
      clean l ∧ Call.try_hook ∉ l := by
  obtain ⟨a1, a2, l, a3, a4, a5⟩ := tick_stop_spec env st
  obtain ⟨b1, b2, b3⟩ := tick_open_ready_spec env (tick_stop env st)
  obtain ⟨c1, c2, c3⟩ := tick_injector_spec env (tick_open_ready env (tick_stop env st))
  refine ⟨c1.trans (b1.trans a1), ?_, l, ?_, a4, a5⟩
  · intro e
    exact c2 (b2.trans (a2.trans e))
  · rw [c3, b3, a3]

theorem tick_pre_inv (env : tick_env) (st : tick_state) (h : session_inv st.gc) :
    session_inv (tick_injector env (tick_open_ready env (tick_stop env st))).gc :=
  tick_injector_inv _ _ (tick_open_ready_inv _ _ (tick_stop_inv _ _ h))

theorem tick_inv (env : tick_env) (gc : game_capture) (w : World) (seconds : Nat)
    (hinv : session_inv gc) :
    game_capture_tick env gc w seconds ≠ Except.error Fault.null_header ∧
    ∀ st, game_capture_tick env gc w seconds = Except.ok st → session_inv st.gc := by
  have h3 := tick_pre_inv env { gc := gc, world := w, calls := [], trace := [] } hinv
  obtain ⟨r1, r2⟩ := tick_ready_inv env _ h3
  unfold game_capture_tick
  dsimp only
  cases hr : tick_ready env (tick_injector env (tick_open_ready env
      (tick_stop env { gc := gc, world := w, calls := [], trace := [] }))) with
  | error f =>
      refine ⟨?_, fun st h => by cases h⟩
      intro hc
      simp only [Except.error.injEq] at hc
      rw [hc] at hr
      exact r1 hr
  | ok st4 =>
      have h4 := r2 st4 hr
      have h5 : session_inv
          { st4 with
            gc := { st4.gc with check_interval := f32_add st4.gc.check_interval seconds } }.gc :=
        session_inv_congr st4.gc _ h4 rfl rfl rfl rfl
      dsimp only
      split_ifs with ha
      · exact tick_search_inv env _ h5 ha
      · exact tick_capture_inv env _ seconds h5 (by simpa using ha)

theorem tick_calls (env : tick_env) (gc : game_capture) (w : World) (seconds : Nat)
    (st : tick_state) (h : game_capture_tick env gc w seconds = Except.ok st) :
    clean st.calls ∨
    ∃ l s, st.calls = l ++ [Call.step s false, Call.stop_capture] ∧ clean l ∧
      torn_down st.gc ∧ st.gc.error_aqcuiring = start_step s := by
  obtain ⟨_, _, l0, c0, k0, _⟩ :=
    tick_pre_spec env { gc := gc, world := w, calls := [], trace := [] }
  unfold game_capture_tick at h
  dsimp only at h
  cases hr : tick_ready env (tick_injector env (tick_open_ready env
      (tick_stop env { gc := gc, world := w, calls := [], trace := [] }))) with
  | error f => simp [hr] at h
  | ok st4 =>
      obtain ⟨_, _, hcase⟩ := tick_ready_spec _ _ _ hr
      simp only [hr] at h
      rcases hcase with ⟨l, hl, hc, _⟩ | ⟨l, s, hl, hok, hs, htd, he⟩
      · have h4 : st4.calls = l0 ++ l := by rw [hl, c0]; simp
        split_ifs at h with ha
        · obtain ⟨_, _, hsr⟩ := tick_search_spec _ _ _ h
          rcases hsr with ⟨l', hl', hc'⟩ | ⟨l', s, hl', hc', hs, htd, he⟩
          · left
            rw [hl']
            show clean (st4.calls ++ l')
            rw [h4]
            exact clean_append _ _ (clean_append _ _ k0 hc) hc'
          · right
            refine ⟨l0 ++ l ++ l', s, ?_, clean_append _ _ (clean_append _ _ k0 hc) hc',
              htd, ?_⟩
            · rw [hl']
              show st4.calls ++ _ = _
              rw [h4]
              simp
            · rw [he, hs]
        · obtain ⟨_, l', hl', hc', _⟩ := tick_capture_spec _ _ _ _ h
          left
          rw [hl']
          show clean (st4.calls ++ l')
          rw [h4]
          exact clean_append _ _ (clean_append _ _ k0 hc) hc'
      · have ha : st4.gc.active = false := htd.1
        rw [if_pos (by simpa using ha)] at h
        obtain ⟨_, hsame, _⟩ := tick_search_spec _ _ _ h
        have := hsame (by simpa using he)
        subst this
        right
        refine ⟨l0 ++ l, s, ?_, clean_append _ _ k0 (clean_of_ok_steps l hok), htd, ?_⟩
        · show st4.calls = _
          rw [hl, c0]
          simp
        · show st4.gc.error_aqcuiring = _
          rw [he, hs]

theorem tick_error (env : tick_env) (gc : game_capture) (w : World) (seconds : Nat)
    (st : tick_state) (he : gc.error_aqcuiring = true)
    (h : game_capture_tick env gc w seconds = Except.ok st) :
    st.gc.error_aqcuiring = true ∧ Call.try_hook ∉ st.calls := by
  obtain ⟨_, e0, l0, c0, _, n0⟩ :=
    tick_pre_spec env { gc := gc, world := w, calls := [], trace := [] }
  have e3 := e0 he
  unfold game_capture_tick at h
  dsimp only at h
  cases hr : tick_ready env (tick_injector env (tick_open_ready env
      (tick_stop env { gc := gc, world := w, calls := [], trace := [] }))) with
  | error f => simp [hr] at h
  | ok st4 =>
      obtain ⟨_, e4, hcase⟩ := tick_ready_spec _ _ _ hr
      have e4' := e4 e3
      simp only [hr] at h
      have hn4 : Call.try_hook ∉ st4.calls := by
        rcases hcase with ⟨l, hl, _, hn, _⟩ | ⟨l, s, hl, hok, _⟩
        · rw [hl, c0]
          simp [n0, hn]
        · rw [hl, c0]
          have := (ok_steps_clean l hok).2.1
          simp [n0, this]
      split_ifs at h with ha
      · obtain ⟨_, hsame, _⟩ := tick_search_spec _ _ _ h
        have := hsame (by simpa using e4')
        subst this
        exact ⟨e4', hn4⟩
      · obtain ⟨e5, l', hl', _, hn'⟩ := tick_capture_spec _ _ _ _ h
        refine ⟨e5 (by simpa using e4'), ?_⟩
        rw [hl']
        intro hm
        rcases List.mem_append.mp hm with h1 | h1
        · exact hn4 h1
        · exact hn' h1

theorem update_inv (bws : String → window_strings) (stack : game_capture_config)
    (gc : game_capture) (settings : obs_data) (h : session_inv gc) :
    session_inv (game_capture_update bws stack gc settings).1 := by
  unfold game_capture_update
  dsimp only
  split_ifs
  · exact stop_capture_inv _
  · exact session_inv_congr gc _ h rfl rfl rfl rfl
  · exact session_inv_congr gc _ h rfl rfl rfl rfl

theorem create_inv (bws : String → window_strings) (stack : game_capture_config)
    (settings : obs_data) : session_inv (game_capture_create bws stack settings).1 := by
  unfold game_capture_create
  apply update_inv
  refine ⟨?_, ?_, ?_⟩
  · intro a; cases a
  · intro a; exact absurd rfl a
  · intro a; exact absurd rfl a

theorem agent_write_inv (f : hook_info → hook_info) (g : capture_data → capture_data)
    (gc : game_capture) (h : session_inv gc) : session_inv (agent_write f g gc) := by
  refine session_inv_congr gc _ h rfl ?_ rfl rfl
  show (gc.global_hook_info.map f).isSome = _
  cases gc.global_hook_info <;> rfl

theorem reachable_inv (gc : game_capture) (h : Reachable gc) : session_inv gc := by
  induction h with
  | create bws stack settings => exact create_inv bws stack settings
  | update bws stack settings gc _ ih => exact update_inv bws stack gc settings ih
  | tick env w seconds gc st _ ht ih => exact (tick_inv env gc w seconds ih).2 st ht
  | stop gc _ _ => exact stop_capture_inv gc
  | agent f g gc _ ih => exact agent_write_inv f g gc ih

theorem try_hook_logged (env : tick_env) (st st' : tick_state)
    (h : try_hook env st = Except.ok st') : Call.try_hook ∈ st'.calls := by
  unfold try_hook at h
  dsimp only [log_call] at h
  cases hf : find_target env st.gc with
  | error f => simp [hf] at h
  | ok g =>
      simp only [hf] at h
      split_ifs at h with h1 h2
      · cases h
        simp
      · cases hi : init_hook env
            { st with
              gc := { g with thread_id := env.window_thread_id,
                             process_id := env.window_process_id }
              calls := st.calls ++ [Call.try_hook] } with
        | error f => simp [hi] at h
        | ok r =>
            obtain ⟨_, _, _, _, hr⟩ := init_hook_spec _ _ _ hi
            have hm : Call.try_hook ∈ r.1.calls := by
              rcases hr with ⟨_, _, _, l, hl, _⟩ | ⟨_, l, s, hl, _⟩
              · rw [hl]; simp
              · rw [hl]; simp
            simp only [hi] at h
            split_ifs at h
            · cases h
              simp [do_stop_capture, hm]
            · cases h
              exact hm
      · cases h
        simp

theorem same_session_refl (g : game_capture) : same_session g g :=
  ⟨rfl, rfl, rfl, rfl, rfl, rfl, rfl, rfl, rfl, rfl, rfl, rfl, rfl, rfl, rfl, rfl⟩

theorem same_session_trans (g1 g2 g3 : game_capture) (h1 : same_session g1 g2)
    (h2 : same_session g2 g3) : same_session g1 g3 := by
  unfold same_session at *
  obtain ⟨a1, a2, a3, a4, a5, a6, a7, a8, a9, a10, a11, a12, a13, a14, a15, a16⟩ := h1
  obtain ⟨b1, b2, b3, b4, b5, b6, b7, b8, b9, b10, b11, b12, b13, b14, b15, b16⟩ := h2
  exact ⟨b1.trans a1, b2.trans a2, b3.trans a3, b4.trans a4, b5.trans a5, b6.trans a6,
    b7.trans a7, b8.trans a8, b9.trans a9, b10.trans a10, b11.trans a11, b12.trans a12,
    b13.trans a13, b14.trans a14, b15.trans a15, b16.trans a16⟩

theorem tick_open_ready_fields (env : tick_env) (st : tick_state) :
    same_session st.gc (tick_open_ready env st).gc ∧
    (tick_open_ready env st).gc.error_aqcuiring = st.gc.error_aqcuiring ∧
    (tick_open_ready env st).gc.injector_process = st.gc.injector_process ∧
    (tick_open_ready env st).gc.check_interval = st.gc.check_interval ∧
    (tick_open_ready env st).gc.hook_ready =
      (if st.gc.active = true ∧ st.gc.hook_ready = 0 ∧ st.gc.process_id ≠ 0 then
        env.get_event_hook_ready else st.gc.hook_ready) ∧
    (tick_open_ready env st).world = st.world ∧
    (tick_open_ready env st).calls = st.calls ∧
    (tick_open_ready env st).trace = st.trace := by
  unfold tick_open_ready
  by_cases hc : st.gc.active = true ∧ st.gc.hook_ready = 0 ∧ st.gc.process_id ≠ 0
  · rw [if_pos hc, if_pos hc]
    exact ⟨same_session_refl _, rfl, rfl, rfl, rfl, rfl, rfl, rfl⟩
  · rw [if_neg hc, if_neg hc]
    exact ⟨same_session_refl _, rfl, rfl, rfl, rfl, rfl, rfl, rfl⟩

theorem tick_injector_fields (env : tick_env) (st : tick_state) :
    same_session st.gc (tick_injector env st).gc ∧
    (tick_injector env st).gc.hook_ready = st.gc.hook_ready ∧
    (tick_injector env st).gc.check_interval = st.gc.check_interval ∧
    (¬(st.gc.injector_process ≠ 0 ∧ handle_signalled env st.gc.injector_process = true ∧
        env.exit_code ≠ 0) →
      (tick_injector env st).gc.error_aqcuiring = st.gc.error_aqcuiring) ∧
    (tick_injector env st).world = st.world ∧
    (tick_injector env st).calls = st.calls ∧
    ∃ tr, (tick_injector env st).trace = st.trace ++ tr := by
  unfold tick_injector
  by_cases hc : st.gc.injector_process ≠ 0 ∧ handle_signalled env st.gc.injector_process = true
  · rw [if_pos hc]
    refine ⟨same_session_refl _, rfl, rfl, ?_, rfl, rfl, _, rfl⟩
    intro hn
    have : env.exit_code = 0 := by
      by_contra h0
      exact hn ⟨hc.1, hc.2, h0⟩
    simp [this]
  · rw [if_neg hc]
    exact ⟨same_session_refl _, rfl, rfl, fun _ => rfl, rfl, rfl, [], by simp⟩

/-- The tick of an active session whose stop and ready events are not
signalled goes straight to the capturing branch. -/
theorem tick_active_path (env : tick_env) (gc : game_capture) (w : World) (seconds : Nat)
    (ha : gc.active = true)
    (hstop : ¬(gc.hook_stop ≠ 0 ∧ handle_signalled env gc.hook_stop = true))
    (hready : handle_signalled env
      (if gc.hook_ready = 0 ∧ gc.process_id ≠ 0 then env.get_event_hook_ready
       else gc.hook_ready) = false) :
    ∃ st5, game_capture_tick env gc w seconds = tick_capture env st5 seconds ∧
      st5.world = w ∧ st5.calls = [] ∧ same_session gc st5.gc ∧
      st5.gc.hook_ready = (if gc.hook_ready = 0 ∧ gc.process_id ≠ 0 then
        env.get_event_hook_ready else gc.hook_ready) ∧
      (¬(gc.injector_process ≠ 0 ∧ handle_signalled env gc.injector_process = true ∧
          env.exit_code ≠ 0) → st5.gc.error_aqcuiring = gc.error_aqcuiring) := by
  have h1 : tick_stop env { gc := gc, world := w, calls := [], trace := [] } =
      { gc := gc, world := w, calls := [], trace := [] } := by
    unfold tick_stop
    rw [if_neg hstop]
  obtain ⟨a1, a2, a3, _, a5, a6, a7, _⟩ :=
    tick_open_ready_fields env { gc := gc, world := w, calls := [], trace := [] }
  obtain ⟨b1, b2, _, b4, b5, b6, _⟩ :=
    tick_injector_fields env (tick_open_ready env { gc := gc, world := w, calls := [], trace := [] })
  have hs := same_session_trans _ _ _ a1 b1
  have hrdy : (tick_injector env (tick_open_ready env
      { gc := gc, world := w, calls := [], trace := [] })).gc.hook_ready =
      (if gc.hook_ready = 0 ∧ gc.process_id ≠ 0 then env.get_event_hook_ready
        else gc.hook_ready) := by
    rw [b2, a5]
    simp [ha]
  have hrd : tick_ready env (tick_injector env (tick_open_ready env
      { gc := gc, world := w, calls := [], trace := [] })) =
      Except.ok (tick_injector env (tick_open_ready env
        { gc := gc, world := w, calls := [], trace := [] })) := by
    unfold tick_ready
    have : ¬((tick_injector env (tick_open_ready env
        { gc := gc, world := w, calls := [], trace := [] })).gc.hook_ready ≠ 0 ∧
        handle_signalled env (tick_injector env (tick_open_ready env
          { gc := gc, world := w, calls := [], trace := [] })).gc.hook_ready = true) := by
      rw [hrdy, hready]
      simp
    exact if_neg this
  refine ⟨{ (tick_injector env (tick_open_ready env
      { gc := gc, world := w, calls := [], trace := [] })) with
      gc := { (tick_injector env (tick_open_ready env
        { gc := gc, world := w, calls := [], trace := [] })).gc with
        check_interval := f32_add (tick_injector env (tick_open_ready env
          { gc := gc, world := w, calls := [], trace := [] })).gc.check_interval seconds } },
    ?_, b5.trans a6, b6.trans a7, hs, hrdy, ?_⟩
  · unfold game_capture_tick
    dsimp only
    rw [h1, hrd]
    dsimp only
    rw [if_neg (by simp [hs.1, ha])]
  · intro hn
    have := b4 (by rw [a3]; exact hn)
    exact this.trans a2

theorem stop_capture_closes (gc : game_capture) (h : Nat)
    (hmem : h ∈ [gc.keep_alive, gc.hook_restart, gc.hook_stop, gc.hook_ready, gc.hook_exit,
      gc.hook_data_map, gc.global_hook_info_map, gc.target_process,
      gc.texture_mutexes.1, gc.texture_mutexes.2])
    (hr : real_handle h) : Event.CloseHandle h ∈ (stop_capture gc).2 := by
  have hc := close_handle_closes h hr.1 hr.2
  simp only [List.mem_cons, List.mem_singleton, List.not_mem_nil, or_false] at hmem
  simp only [stop_capture, List.mem_append]
  rcases hmem with rfl | rfl | rfl | rfl | rfl | rfl | rfl | rfl | rfl | rfl <;> simp [hc]

theorem stop_capture_unmaps (gc : game_capture) :
    (gc.global_hook_info ≠ none → Event.UnmapViewOfFile_hook_info ∈ (stop_capture gc).2) ∧
    (gc.data ≠ none → Event.UnmapViewOfFile_data ∈ (stop_capture gc).2) ∧
    (gc.texture ≠ 0 → Event.gs_texture_destroy gc.texture ∈ (stop_capture gc).2) ∧
    (gc.pipe = true → Event.pipe_server_stopped ∈ (stop_capture gc).2) := by
  refine ⟨?_, ?_, ?_, ?_⟩
  · intro h
    have : gc.global_hook_info.isSome = true := by
      cases hg : gc.global_hook_info with
      | none => exact absurd hg h
      | some x => rfl
    simp [stop_capture, this]
  · intro h
    have : gc.data.isSome = true := by
      cases hg : gc.data with
      | none => exact absurd hg h
      | some x => rfl
    simp [stop_capture, this]
  · intro h
    simp [stop_capture, h]
  · intro h
    simp [stop_capture, ipc_pipe_server_free, h]

theorem tick_calls_extend (env : tick_env) (gc : game_capture) (w : World) (seconds : Nat)
    (st : tick_state) (h : game_capture_tick env gc w seconds = Except.ok st) :
    ∃ l, st.calls = (tick_stop env { gc := gc, world := w, calls := [], trace := [] }).calls
      ++ l := by
  obtain ⟨_, _, b3⟩ :=
    tick_open_ready_spec env (tick_stop env { gc := gc, world := w, calls := [], trace := [] })
  obtain ⟨_, _, c3⟩ := tick_injector_spec env (tick_open_ready env
    (tick_stop env { gc := gc, world := w, calls := [], trace := [] }))
  have h3 := c3.trans b3
  unfold game_capture_tick at h
  dsimp only at h
  cases hr : tick_ready env (tick_injector env (tick_open_ready env
      (tick_stop env { gc := gc, world := w, calls := [], trace := [] }))) with
  | error f => simp [hr] at h
  | ok st4 =>
      obtain ⟨_, _, hcase⟩ := tick_ready_spec _ _ _ hr
      simp only [hr] at h
      have h4 : ∃ l, st4.calls =
          (tick_stop env { gc := gc, world := w, calls := [], trace := [] }).calls ++ l := by
        rcases hcase with ⟨l, hl, _⟩ | ⟨l, s, hl, _⟩
        · exact ⟨l, by rw [hl, h3]⟩
        · exact ⟨_, by rw [hl, h3]⟩
      obtain ⟨l4, hl4⟩ := h4
      split_ifs at h with ha
      · obtain ⟨_, _, hsr⟩ := tick_search_spec _ _ _ h
        rcases hsr with ⟨l', hl', _⟩ | ⟨l', s, hl', _⟩
        · refine ⟨l4 ++ l', ?_⟩
          rw [hl']
          show st4.calls ++ l' = _
          rw [hl4]
          simp
        · refine ⟨l4 ++ (l' ++ [Call.step s false, Call.stop_capture]), ?_⟩
          rw [hl']
          show st4.calls ++ _ = _
          rw [hl4]
          simp
      · obtain ⟨_, l', hl', _⟩ := tick_capture_spec _ _ _ _ h
        refine ⟨l4 ++ l', ?_⟩
        rw [hl']
        show st4.calls ++ l' = _
        rw [hl4]
        simp

/-- The tick of an inactive session without a ready event, whose stop event is
not signalled, goes straight to the search branch. -/
theorem tick_inactive_path (env : tick_env) (gc : game_capture) (w : World) (seconds : Nat)
    (ha : gc.active = false)
    (hstop : ¬(gc.hook_stop ≠ 0 ∧ handle_signalled env gc.hook_stop = true))
    (hready : gc.hook_ready = 0) :
    ∃ st5, game_capture_tick env gc w seconds = tick_search env st5 ∧
      st5.world = w ∧ st5.calls = [] ∧ same_session gc st5.gc ∧
      st5.gc.check_interval = f32_add gc.check_interval seconds ∧
      (¬(gc.injector_process ≠ 0 ∧ handle_signalled env gc.injector_process = true ∧
          env.exit_code ≠ 0) → st5.gc.error_aqcuiring = gc.error_aqcuiring) := by
  have h1 : tick_stop env { gc := gc, world := w, calls := [], trace := [] } =
      { gc := gc, world := w, calls := [], trace := [] } := by
    unfold tick_stop
    rw [if_neg hstop]
  obtain ⟨a1, a2, a3, a4, a5, a6, a7, _⟩ :=
    tick_open_ready_fields env { gc := gc, world := w, calls := [], trace := [] }
  obtain ⟨b1, b2, b3, b4, b5, b6, _⟩ :=
    tick_injector_fields env (tick_open_ready env { gc := gc, world := w, calls := [], trace := [] })
  have hs := same_session_trans _ _ _ a1 b1
  have hrdy : (tick_injector env (tick_open_ready env
      { gc := gc, world := w, calls := [], trace := [] })).gc.hook_ready = 0 := by
    rw [b2, a5]
    simp [ha, hready]
  have hrd : tick_ready env (tick_injector env (tick_open_ready env
      { gc := gc, world := w, calls := [], trace := [] })) =
      Except.ok (tick_injector env (tick_open_ready env
        { gc := gc, world := w, calls := [], trace := [] })) := by
    unfold tick_ready
    rw [if_neg (by rw [hrdy]; simp)]
  refine ⟨{ (tick_injector env (tick_open_ready env
      { gc := gc, world := w, calls := [], trace := [] })) with
      gc := { (tick_injector env (tick_open_ready env
        { gc := gc, world := w, calls := [], trace := [] })).gc with
        check_interval := f32_add (tick_injector env (tick_open_ready env
          { gc := gc, world := w, calls := [], trace := [] })).gc.check_interval seconds } },
    ?_, b5.trans a6, b6.trans a7, hs, ?_, ?_⟩
  · unfold game_capture_tick
    dsimp only
    rw [h1, hrd]
    dsimp only
    rw [if_pos (by simp [hs.1, ha])]
  · show f32_add (tick_injector env (tick_open_ready env
      { gc := gc, world := w, calls := [], trace := [] })).gc.check_interval seconds = _
    rw [b3, a4]
  · intro hn
    have := b4 (by rw [a3]; exact hn)
    exact this.trans a2

/-- A torn-down session whose flag is clear is searched for again by the next
tick, when the `float` sum of `check_interval` and `seconds` compares greater
than `3.0f`. -/
theorem tick_retry (env : tick_env) (gc : game_capture) (w : World) (seconds : Nat)
    (st : tick_state)
    (htd : torn_down gc) (he : gc.error_aqcuiring = false)
    (hinj : ¬(gc.injector_process ≠ 0 ∧ handle_signalled env gc.injector_process = true ∧
      env.exit_code ≠ 0))
    (hint : f32_gt (f32_add gc.check_interval seconds) f32_three = true)
    (hen : gc.config.capture_any_fullscreen = true ∨ gc.activate_hook = true)
    (h : game_capture_tick env gc w seconds = Except.ok st) :
    Call.try_hook ∈ st.calls := by
  obtain ⟨ha, _, _, _, _, _, _, hs0, hr0, _⟩ := htd
  obtain ⟨st5, ht, _, _, hs, hci, herr⟩ :=
    tick_inactive_path env gc w seconds ha (by rw [hs0]; simp) hr0
  rw [ht] at h
  unfold tick_search at h
  have hc1 : st5.gc.error_aqcuiring = false ∧ f32_gt st5.gc.check_interval f32_three = true := by
    rw [herr hinj, hci]
    exact ⟨he, hint⟩
  have hc2 : st5.gc.config.capture_any_fullscreen = true ∨ st5.gc.activate_hook = true := by
    rw [hs.2.2.2.2.2.2.2.2.2.2.2.2.2.2.1, hs.2.2.2.2.2.2.2.2.2.2.2.2.2.2.2]
    exact hen
  rw [if_pos hc1, if_pos hc2] at h
  cases hx : try_hook env st5 with
  | error f => simp [hx] at h
  | ok s =>
      simp only [hx] at h
      cases h
      exact try_hook_logged env st5 s hx

theorem inject_hook_missing (env : tick_env) (g : game_capture)
    (h : check_file_integrity env (env.module_file
          (if g.process_is_64bit then "inject-helper64.exe" else "inject-helper32.exe")) = false ∨
        check_file_integrity env (env.module_file
          (if g.process_is_64bit then "graphics-hook64.dll" else "graphics-hook32.dll")) = false) :
    inject_hook env g = (g, false) := by
  unfold inject_hook
  cases hb : g.process_is_64bit <;> simp [hb] at h ⊢
  · rcases h with h | h
    · simp [h]
    · intro _
      simp [h]
  · rcases h with h | h
    · simp [h]
    · intro _
      simp [h]

/-! ## The timers round -/

/-- The sum of `2.9833333f` and `0.016666668f` (one frame at sixty per second)
is exactly `3.0f` in single precision, although the sum of the two values is
above three: the comparison with `3.0f` is still false. -/
theorem f32_add_rounds_to_three :
    f32_add 1077866223 1015580809 = f32_three ∧
    f32_gt (f32_add 1077866223 1015580809) f32_three = false := by
  decide

/-- Addition of small whole numbers is exact: `10.0f + 5.0f = 15.0f` and
`0.0f + 4.0f = 4.0f`, which compares greater than `3.0f`. -/
theorem f32_add_whole :
    f32_add f32_ten f32_five = 1097859072 ∧ f32_add 0 f32_four = f32_four ∧
    f32_gt f32_four f32_three = true ∧ f32_ge f32_three f32_three = true ∧
    f32_gt f32_three f32_three = false := by
  decide

/-- A NaN never compares greater, and adding to a NaN gives a NaN. -/
theorem f32_nan_compare :
    f32_gt f32_nan f32_three = false ∧ f32_ge f32_nan f32_three = false ∧
    f32_is_nan (f32_add f32_nan f32_one) = true := by
  decide

/-- The tick of an idle session at `check_interval = 2.9833333f` with
`seconds = 0.016666668f`: the rounded sum is `3.0f`, which is not greater than
`3.0f`, so the tick does not search. -/
theorem tick_rounded_interval :
    ∃ st, game_capture_tick env_no_agent { gc_search with check_interval := 1077866223 }
        (world_of MutexState.free none) 1015580809 = Except.ok st ∧
      st.gc.check_interval = f32_three ∧ Call.try_hook ∉ st.calls :=
  ⟨_, rfl, by decide, by decide⟩

/-! ## Two concrete ticks -/

theorem gc_search_created :
    (game_capture_create no_window_strings cfg_zero settings_fullscreen).1 = gc_search := by
  rfl

theorem gc_search_reachable : Reachable gc_search := by
  rw [← gc_search_created]
  exact Reachable.create no_window_strings cfg_zero settings_fullscreen

theorem search_tick_eq (env : tick_env) (s : tick_state)
    (h : try_hook env st_search = Except.ok s)
    (h1 : game_capture_tick env gc_search (world_of MutexState.free none) f32_four =
      tick_search env st_search) :
    game_capture_tick env gc_search (world_of MutexState.free none) f32_four =
      Except.ok { s with gc := { s.gc with check_interval := 0 } } := by
  rw [h1]
  unfold tick_search
  have hc : st_search.gc.error_aqcuiring = false ∧
      f32_gt st_search.gc.check_interval f32_three = true := ⟨rfl, by decide⟩
  have hc2 : st_search.gc.config.capture_any_fullscreen = true ∨
      st_search.gc.activate_hook = true := Or.inl rfl
  rw [if_pos hc, if_pos hc2, h]

theorem st_hooked_eval :
    game_capture_tick env_hooked gc_search (world_of MutexState.free none) f32_four =
      Except.ok st_hooked ∧
    st_hooked.gc.active = true ∧ st_hooked.gc.texture = 0 ∧
    st_hooked.gc.global_hook_info ≠ none := by
  obtain ⟨s, hs, h1, h2, h3⟩ : ∃ s, try_hook env_hooked st_search = Except.ok s ∧
      s.gc.active = true ∧ s.gc.texture = 0 ∧ s.gc.global_hook_info.isSome = true :=
    ⟨_, rfl, rfl, rfl, rfl⟩
  have he := search_tick_eq env_hooked s hs rfl
  have hst : st_hooked = { s with gc := { s.gc with check_interval := 0 } } := by
    unfold st_hooked
    rw [he]
    rfl
  rw [hst]
  refine ⟨he, h1, h2, ?_⟩
  intro hn
  have : s.gc.global_hook_info = none := hn
  rw [this] at h3
  cases h3

theorem st_no_agent_eval :
    game_capture_tick env_no_agent gc_search (world_of MutexState.free none) f32_four =
      Except.ok st_no_agent ∧
    st_no_agent.gc.error_aqcuiring = false ∧
    Call.try_hook ∈ st_no_agent.calls ∧
    Call.step Step.inject_hook false ∈ st_no_agent.calls := by
  obtain ⟨s, hs, h1, h2, h3⟩ : ∃ s, try_hook env_no_agent st_search = Except.ok s ∧
      s.gc.error_aqcuiring = false ∧ Call.try_hook ∈ s.calls ∧
      Call.step Step.inject_hook false ∈ s.calls :=
    ⟨_, rfl, rfl, by decide, by decide⟩
  have he := search_tick_eq env_no_agent s hs rfl
  have hst : st_no_agent = { s with gc := { s.gc with check_interval := 0 } } := by
    unfold st_no_agent
    rw [he]
    rfl
  rw [hst]
  exact ⟨he, h1, h2, h3⟩

theorem st_suspended_eval :
    game_capture_tick env_zero gc_suspended (world_of MutexState.free none) f32_five =
      Except.ok st_suspended := rfl

theorem st_target_exit_eval :
    game_capture_tick env_target_exit gc_hooked (world_of MutexState.free none) f32_one =
      Except.ok st_target_exit ∧
    Call.stop_capture ∈ st_target_exit.calls := by
  obtain ⟨s, hs, h1⟩ : ∃ s, game_capture_tick env_target_exit gc_hooked
      (world_of MutexState.free none) f32_one = Except.ok s ∧ Call.stop_capture ∈ s.calls :=
    ⟨_, rfl, by decide⟩
  have hst : st_target_exit = s := by
    unfold st_target_exit
    rw [hs]
    rfl
  rw [hst]
  exact ⟨hs, h1⟩

/-! ## Claims on the tick -/

/-- C11: target exit is a normal teardown that does not suspend retries. For
every active session whose `error_aqcuiring` flag is clear, in a tick in which
the stop event is not signalled, the ready event is not signalled, the injector
does not report a failure and the target-process handle is signalled,
`game_capture_tick` completes, its only call is `stop_capture`, the session
ends torn down (inactive, views unmapped, texture and handles null), every
real handle it held has been closed, the views have been unmapped and the
texture destroyed, and `error_aqcuiring` is still clear; the next tick, when it
completes without an injector failure, has the search enabled (any-fullscreen
or `activate_hook`) and its `float` sum `check_interval + seconds` compares
greater than `3.0f`, calls `try_hook`. -/
theorem C11_target_exit (env : tick_env) (gc : game_capture) (w : World) (seconds : Nat)
    (ha : gc.active = true) (he : gc.error_aqcuiring = false)
    (hstop : ¬(gc.hook_stop ≠ 0 ∧ handle_signalled env gc.hook_stop = true))
    (hready : handle_signalled env
      (if gc.hook_ready = 0 ∧ gc.process_id ≠ 0 then env.get_event_hook_ready
       else gc.hook_ready) = false)
    (hinj : ¬(gc.injector_process ≠ 0 ∧ handle_signalled env gc.injector_process = true ∧
      env.exit_code ≠ 0))
    (htarget : handle_signalled env gc.target_process = true) :
    ∃ st, game_capture_tick env gc w seconds = Except.ok st ∧
      st.calls = [Call.stop_capture] ∧ torn_down st.gc ∧ st.gc.error_aqcuiring = false ∧
      (∀ h, h ∈ [gc.keep_alive, gc.hook_restart, gc.hook_stop, gc.hook_ready, gc.hook_exit,
          gc.hook_data_map, gc.global_hook_info_map, gc.target_process,
          gc.texture_mutexes.1, gc.texture_mutexes.2] →
        real_handle h → Event.CloseHandle h ∈ st.trace) ∧
      (gc.global_hook_info ≠ none → Event.UnmapViewOfFile_hook_info ∈ st.trace) ∧
      (gc.data ≠ none → Event.UnmapViewOfFile_data ∈ st.trace) ∧
      (gc.texture ≠ 0 → Event.gs_texture_destroy gc.texture ∈ st.trace) ∧
      (∀ (env2 : tick_env) (w2 : World) (sec2 : Nat) (st2 : tick_state),
        ¬(st.gc.injector_process ≠ 0 ∧ handle_signalled env2 st.gc.injector_process = true ∧
          env2.exit_code ≠ 0) →
        f32_gt (f32_add st.gc.check_interval sec2) f32_three = true →
        (st.gc.config.capture_any_fullscreen = true ∨ st.gc.activate_hook = true) →
        game_capture_tick env2 st.gc w2 sec2 = Except.ok st2 → Call.try_hook ∈ st2.calls) := by
  obtain ⟨st5, ht, _, hc, hs, hrdy, herr⟩ := tick_active_path env gc w seconds ha hstop hready
  obtain ⟨s1, s2, s3, s4, s5, s6, s7, s8, s9, s10, s11, s12, s13, s14, _, _⟩ := hs
  have hcap : tick_capture env st5 seconds = Except.ok (do_stop_capture st5) := by
    unfold tick_capture
    rw [if_pos (Or.inr (by rw [s2]; exact htarget))]
  obtain ⟨u1, u2, u3, _⟩ := stop_capture_unmaps st5.gc
  have hflag : (do_stop_capture st5).gc.error_aqcuiring = false := by
    show (stop_capture st5.gc).1.error_aqcuiring = false
    rw [stop_capture_error, herr hinj, he]
  refine ⟨do_stop_capture st5, ht.trans hcap, by simp [do_stop_capture, hc],
    do_stop_capture_torn_down st5, hflag, ?_, ?_, ?_, ?_, ?_⟩
  · intro h hmem hr
    have hmem5 : h ∈ [st5.gc.keep_alive, st5.gc.hook_restart, st5.gc.hook_stop,
        st5.gc.hook_ready, st5.gc.hook_exit, st5.gc.hook_data_map,
        st5.gc.global_hook_info_map, st5.gc.target_process,
        st5.gc.texture_mutexes.1, st5.gc.texture_mutexes.2] := by
      rw [s5, s6, s7, s8, s9, s10, s2, s11, hrdy]
      simp only [List.mem_cons, List.mem_singleton, List.not_mem_nil, or_false] at hmem ⊢
      rcases hmem with h0 | h0 | h0 | h0 | h0 | h0 | h0 | h0 | h0 | h0
      · exact Or.inl h0
      · exact Or.inr (Or.inl h0)
      · exact Or.inr (Or.inr (Or.inl h0))
      · right; right; right; left
        rw [h0]
        have hne : gc.hook_ready ≠ 0 := by rw [← h0]; exact hr.1
        simp [hne]
      · exact Or.inr (Or.inr (Or.inr (Or.inr (Or.inl h0))))
      · exact Or.inr (Or.inr (Or.inr (Or.inr (Or.inr (Or.inl h0)))))
      · exact Or.inr (Or.inr (Or.inr (Or.inr (Or.inr (Or.inr (Or.inl h0))))))
      · exact Or.inr (Or.inr (Or.inr (Or.inr (Or.inr (Or.inr (Or.inr (Or.inl h0)))))))
      · exact Or.inr (Or.inr (Or.inr (Or.inr (Or.inr (Or.inr (Or.inr (Or.inr (Or.inl h0))))))))
      · exact Or.inr (Or.inr (Or.inr (Or.inr (Or.inr (Or.inr (Or.inr (Or.inr (Or.inr h0))))))))
    exact List.mem_append_right _ (stop_capture_closes st5.gc h hmem5 hr)
  · intro hh
    exact List.mem_append_right _ (u1 (by rw [s13]; exact hh))
  · intro hh
    exact List.mem_append_right _ (u2 (by rw [s14]; exact hh))
  · intro hh
    have := u3 (by rw [s12]; exact hh)
    rw [s12] at this
    exact List.mem_append_right _ this
  · intro env2 w2 sec2 st2 hinj2 hint hen h2
    exact tick_retry env2 _ w2 sec2 st2 (do_stop_capture_torn_down st5) hflag hinj2 hint hen h2

theorem failed_step_unique (l : List Call) (s s' : Step) (hc : clean l)
    (h : Call.step s false ∈ l ++ [Call.step s' false, Call.stop_capture]) : s = s' := by
  rcases List.mem_append.mp h with h1 | h1
  · exact absurd h1 (hc s)
  · simp at h1
    exact h1

/-- C12 fails on the code at a concrete tick: `gc_search` is inactive, the
fullscreen window is found, no existing agent answers and the inject helper
fails `check_file_integrity`. The tick of four seconds calls `try_hook`, the
injection step fails, `stop_capture` runs and the session is torn down, yet
`error_aqcuiring` is still clear, and the next tick of four seconds calls
`try_hook` again without any `game_capture_update` in between. -/
theorem C12_missing_binary_no_suspend :
    gc_search.active = false ∧
    env_no_agent.open_event_restart = 0 ∧
    check_file_integrity env_no_agent (env_no_agent.module_file "inject-helper32.exe") = false ∧
    ∃ st, game_capture_tick env_no_agent gc_search (world_of MutexState.free none) f32_four =
        Except.ok st ∧
      Call.try_hook ∈ st.calls ∧ Call.step Step.inject_hook false ∈ st.calls ∧
      Call.stop_capture ∈ st.calls ∧ torn_down st.gc ∧
      st.gc.error_aqcuiring = false ∧
      ∃ st2, game_capture_tick env_no_agent st.gc (world_of MutexState.free none) f32_four =
          Except.ok st2 ∧
        Call.try_hook ∈ st2.calls ∧ st2.gc.error_aqcuiring = false := by
  refine ⟨rfl, rfl, rfl, st_no_agent, st_no_agent_eval.1, st_no_agent_eval.2.2.1,
    st_no_agent_eval.2.2.2, ?_, ?_, st_no_agent_eval.2.1, ?_⟩
  · rcases tick_calls _ _ _ _ _ st_no_agent_eval.1 with hc | ⟨l, s, hl, _, _, _⟩
    · exact absurd st_no_agent_eval.2.2.2 (hc _)
    · rw [hl]
      simp
  · rcases tick_calls _ _ _ _ _ st_no_agent_eval.1 with hc | ⟨l, s, hl, _, htd, _⟩
    · exact absurd st_no_agent_eval.2.2.2 (hc _)
    · exact htd
  · exact ⟨_, rfl, by decide, by decide⟩

/-- C13 as stated fails for the texture: the session reached from
`game_capture_create` by one tick that hooks the target is active while its
texture is still null (the agent has not signalled ready). -/
theorem C13_texture_counterexample :
    Reachable st_hooked.gc ∧ st_hooked.gc.active = true ∧ st_hooked.gc.texture = 0 :=
  ⟨Reachable.tick env_hooked (world_of MutexState.free none) f32_four gc_search st_hooked
      gc_search_reachable st_hooked_eval.1,
   st_hooked_eval.2.1, st_hooked_eval.2.2.1⟩

/-- C13 (amended): in every session state reachable from `game_capture_create`
by `game_capture_update`, `game_capture_tick` and `stop_capture` (with the
agent writing to the shared views in between), `active = true` implies that
the header mapping `global_hook_info` is non-null. -/
theorem C13_active_header (gc : game_capture) (hr : Reachable gc) (ha : gc.active = true) :
    gc.global_hook_info ≠ none :=
  (reachable_inv gc hr).1 ha

/-- C13 at the session one hooking tick after creation. -/
theorem C13_active_header_witness :
    (Reachable st_hooked.gc ∧ st_hooked.gc.active = true) ∧
    st_hooked.gc.global_hook_info ≠ none :=
  ⟨⟨Reachable.tick env_hooked (world_of MutexState.free none) f32_four gc_search st_hooked
      gc_search_reachable st_hooked_eval.1, st_hooked_eval.2.1⟩,
   C13_active_header st_hooked.gc
     (Reachable.tick env_hooked (world_of MutexState.free none) f32_four gc_search st_hooked
       gc_search_reachable st_hooked_eval.1) st_hooked_eval.2.1⟩

/-- C14: the teardown condition of a capturing session. For every active
session and every tick in which the ready event is not signalled and which
completes, `stop_capture` is called if and only if the stop event is
signalled, or the target-process handle is signalled, or the target window no
longer exists and the session is not in compositor mode; otherwise the session
stays active and the frame-copy function, when set, is called in that tick. -/
theorem C14_teardown_condition (env : tick_env) (gc : game_capture) (w : World)
    (seconds : Nat) (st : tick_state)
    (ha : gc.active = true)
    (hready : handle_signalled env
      (if gc.hook_ready = 0 ∧ gc.process_id ≠ 0 then env.get_event_hook_ready
       else gc.hook_ready) = false)
    (h : game_capture_tick env gc w seconds = Except.ok st) :
    (Call.stop_capture ∈ st.calls ↔
      ((gc.hook_stop ≠ 0 ∧ handle_signalled env gc.hook_stop = true) ∨
       handle_signalled env gc.target_process = true ∨
       (env.is_window = false ∧ gc.dwm_capture = false))) ∧
    (¬((gc.hook_stop ≠ 0 ∧ handle_signalled env gc.hook_stop = true) ∨
       handle_signalled env gc.target_process = true ∨
       (env.is_window = false ∧ gc.dwm_capture = false)) →
      st.gc.active = true ∧ (gc.copy_texture ≠ none → Call.copy_texture ∈ st.calls)) := by
  by_cases hstop : gc.hook_stop ≠ 0 ∧ handle_signalled env gc.hook_stop = true
  · obtain ⟨l, hl⟩ := tick_calls_extend env gc w seconds st h
    have h1 : (tick_stop env { gc := gc, world := w, calls := [], trace := [] }).calls =
        [Call.stop_capture] := by
      unfold tick_stop
      rw [if_pos hstop]
      rfl
    refine ⟨⟨fun _ => Or.inl hstop, fun _ => ?_⟩, fun hn => absurd (Or.inl hstop) hn⟩
    rw [hl, h1]
    simp
  · obtain ⟨st5, ht, _, hc, hs, _, _⟩ := tick_active_path env gc w seconds ha hstop hready
    obtain ⟨s1, s2, s3, s4, _⟩ := hs
    rw [ht] at h
    unfold tick_capture at h
    rw [s2, s3] at h
    by_cases hcond : (env.is_window = false ∧ gc.dwm_capture = false) ∨
        handle_signalled env gc.target_process = true
    · rw [if_pos hcond] at h
      cases h
      have hrhs : (gc.hook_stop ≠ 0 ∧ handle_signalled env gc.hook_stop = true) ∨
          handle_signalled env gc.target_process = true ∨
          (env.is_window = false ∧ gc.dwm_capture = false) := by
        rcases hcond with hw | ht
        · exact Or.inr (Or.inr hw)
        · exact Or.inr (Or.inl ht)
      refine ⟨⟨fun _ => hrhs, fun _ => ?_⟩, fun hn => absurd hrhs hn⟩
      simp [do_stop_capture]
    · rw [if_neg hcond] at h
      obtain ⟨a1, _, _, _, _, l, hl, _, _, hns, hcp⟩ := tick_frame_spec _ _ _ _ h
      have hnr : ¬((gc.hook_stop ≠ 0 ∧ handle_signalled env gc.hook_stop = true) ∨
          handle_signalled env gc.target_process = true ∨
          (env.is_window = false ∧ gc.dwm_capture = false)) := by
        intro hx
        rcases hx with hx | hx | hx
        · exact hstop hx
        · exact hcond (Or.inr hx)
        · exact hcond (Or.inl hx)
      rw [hc, List.nil_append] at hl
      refine ⟨⟨fun hm => ?_, fun hx => absurd hx hnr⟩, fun _ => ⟨a1.trans (s1.trans ha), ?_⟩⟩
      · rw [hl] at hm
        exact absurd hm hns
      · intro hcopy
        rw [hl]
        exact hcp (by rw [s4]; exact hcopy)

/-- C15: the sticky flag suppresses automatic re-search. For every session
state whose `error_aqcuiring` flag is set at the start of a tick, whatever the
elapsed time, the any-fullscreen setting and the activation flag, a completed
`game_capture_tick` never calls `try_hook` and leaves the flag set;
`stop_capture` leaves it set as well, while `game_capture_update` with forced
scaling off clears it. -/
theorem C15_sticky_flag (env : tick_env) (gc : game_capture) (w : World) (seconds : Nat)
    (st : tick_state) (he : gc.error_aqcuiring = true)
    (h : game_capture_tick env gc w seconds = Except.ok st) :
    Call.try_hook ∉ st.calls ∧ st.gc.error_aqcuiring = true ∧
    (stop_capture gc).1.error_aqcuiring = true ∧
    (∀ (bws : String → window_strings) (stack : game_capture_config) (settings : obs_data),
      settings.force_scaling = false →
      (game_capture_update bws stack gc settings).1.error_aqcuiring = false) := by
  obtain ⟨h1, h2⟩ := tick_error env gc w seconds st he h
  refine ⟨h2, h1, by rw [stop_capture_error]; exact he, ?_⟩
  intro bws stack settings hf
  have hfs : (get_config bws stack settings).force_scaling = false := hf
  unfold game_capture_update
  simp only [hfs, Bool.false_eq_true, false_and, decide_False]
  split
  · split
    · rw [stop_capture_error]
    · rfl
  · rfl

/-- C15 at a suspended session with any-fullscreen on and fifteen seconds
accumulated. -/
theorem C15_sticky_flag_witness :
    (gc_suspended.error_aqcuiring = true ∧
      game_capture_tick env_zero gc_suspended (world_of MutexState.free none) f32_five =
        Except.ok st_suspended) ∧
    Call.try_hook ∉ st_suspended.calls ∧ st_suspended.gc.error_aqcuiring = true :=
  ⟨⟨rfl, st_suspended_eval⟩,
   (C15_sticky_flag env_zero gc_suspended (world_of MutexState.free none) f32_five st_suspended rfl
      st_suspended_eval).1,
   (C15_sticky_flag env_zero gc_suspended (world_of MutexState.free none) f32_five st_suspended rfl
      st_suspended_eval).2.1⟩

theorem in_sequence_mem (k : Bool) (l : List Call) (s : Step) (b : Bool)
    (h : ∀ c ∈ l, in_sequence k c = true) (hm : Call.step s b ∈ l) : start_step s = k := by
  have := h _ hm
  simpa [in_sequence] using this

theorem open_target_process_fields (env : tick_env) (g : game_capture) :
    (open_target_process env g).1.target_process = env.open_process := by
  unfold open_target_process
  split_ifs <;> rfl

theorem attempt_existing_hook_fields (env : tick_env) (g : game_capture) :
    (attempt_existing_hook env g).1.target_process = g.target_process ∧
    (attempt_existing_hook env g).1.keep_alive = g.keep_alive ∧
    (attempt_existing_hook env g).1.texture_mutexes = g.texture_mutexes ∧
    (attempt_existing_hook env g).1.global_hook_info_map = g.global_hook_info_map ∧
    (attempt_existing_hook env g).1.global_hook_info = g.global_hook_info ∧
    (attempt_existing_hook env g).1.pipe = g.pipe := by
  unfold attempt_existing_hook
  split_ifs <;> exact ⟨rfl, rfl, rfl, rfl, rfl, rfl⟩

theorem inject_hook_fields (env : tick_env) (g : game_capture) :
    (inject_hook env g).1.target_process = g.target_process ∧
    (inject_hook env g).1.keep_alive = g.keep_alive ∧
    (inject_hook env g).1.texture_mutexes = g.texture_mutexes ∧
    (inject_hook env g).1.global_hook_info_map = g.global_hook_info_map ∧
    (inject_hook env g).1.global_hook_info = g.global_hook_info ∧
    (inject_hook env g).1.pipe = g.pipe := by
  unfold inject_hook create_inject_process
  dsimp only
  split_ifs <;>
    first
    | exact ⟨rfl, rfl, rfl, rfl, rfl, rfl⟩
    | (split <;> exact ⟨rfl, rfl, rfl, rfl, rfl, rfl⟩)

theorem reset_frame_interval_some (gc g : game_capture) (video : Option obs_video_info)
    (h : reset_frame_interval gc video = some g) :
    ∃ hi i, gc.global_hook_info = some hi ∧
      g = { gc with global_hook_info := some { hi with frame_interval := i } } := by
  cases hg : gc.global_hook_info with
  | none =>
      cases hl : gc.config.limit_framerate with
      | false => simp [reset_frame_interval, hg, hl] at h
      | true =>
          cases video with
          | none => simp [reset_frame_interval, hg, hl] at h
          | some ovi =>
              by_cases h0 : ovi.fps_num = 0
              · simp [reset_frame_interval, hg, hl, h0] at h
              · simp [reset_frame_interval, hg, hl, h0] at h
  | some hi =>
      cases hl : gc.config.limit_framerate with
      | false =>
          simp only [reset_frame_interval, hg, hl, Bool.false_eq_true, if_false,
            Option.some.injEq] at h
          exact ⟨hi, _, rfl, h.symm⟩
      | true =>
          cases video with
          | none =>
              simp only [reset_frame_interval, hg, hl, if_true, Option.some.injEq] at h
              exact ⟨hi, _, rfl, h.symm⟩
          | some ovi =>
              by_cases h0 : ovi.fps_num = 0
              · simp [reset_frame_interval, hg, hl, h0] at h
              · simp only [reset_frame_interval, hg, hl, h0, if_true, if_false,
                  Option.some.injEq] at h
                exact ⟨hi, _, rfl, h.symm⟩

theorem reset_frame_interval_fields (gc g : game_capture) (video : Option obs_video_info)
    (h : reset_frame_interval gc video = some g) :
    g.target_process = gc.target_process ∧ g.keep_alive = gc.keep_alive ∧
    g.texture_mutexes = gc.texture_mutexes ∧
    g.global_hook_info_map = gc.global_hook_info_map ∧ g.pipe = gc.pipe := by
  obtain ⟨hi, i, _, hg⟩ := reset_frame_interval_some gc g video h
  subst hg
  exact ⟨rfl, rfl, rfl, rfl, rfl⟩

theorem init_hook_info_fields (env : tick_env) (gc : game_capture) (r : game_capture × Bool)
    (h : init_hook_info env gc = Except.ok r) :
    r.1.target_process = gc.target_process ∧ r.1.keep_alive = gc.keep_alive ∧
    r.1.texture_mutexes = gc.texture_mutexes ∧
    r.1.global_hook_info_map = env.get_hook_info ∧
    (env.get_hook_info ≠ 0 → env.map_view_hook_info ≠ none → r.1.global_hook_info ≠ none) ∧
    r.1.pipe = gc.pipe := by
  unfold init_hook_info at h
  by_cases h0 : env.get_hook_info = 0
  · rw [if_pos h0] at h
    cases h
    exact ⟨rfl, rfl, rfl, rfl, fun hn => absurd h0 hn, rfl⟩
  · rw [if_neg h0] at h
    cases hv : env.map_view_hook_info with
    | none =>
        simp only [hv] at h
        cases h
        exact ⟨rfl, rfl, rfl, rfl, fun _ hn => absurd rfl hn, rfl⟩
    | some hi =>
        simp only [hv] at h
        split at h
        · cases h
        · rename_i gc2 hs
          obtain ⟨_, a2, _, _, _⟩ := reset_frame_interval_frame _ _ _ hs
          obtain ⟨b1, b2, b3, b4, b5⟩ := reset_frame_interval_fields _ _ _ hs
          cases h
          refine ⟨b1, b2, b3, b4, ?_, b5⟩
          intro _ _
          cases hg : gc2.global_hook_info with
          | none => exact absurd hg a2
          | some x => simp [hg]

theorem init_events_fields (env : tick_env) (g : game_capture) :
    (g.hook_restart = 0 → (init_events env g).1.hook_restart = env.event_restart) ∧
    (g.hook_restart ≠ 0 ∨ env.event_restart ≠ 0 →
      (init_events env g).1.hook_stop = env.event_stop) ∧
    (g.hook_restart ≠ 0 ∨ env.event_restart ≠ 0 → env.event_stop ≠ 0 →
      (init_events env g).1.hook_ready = env.event_ready) ∧
    (g.hook_restart ≠ 0 ∨ env.event_restart ≠ 0 → env.event_stop ≠ 0 → env.event_ready ≠ 0 →
      (init_events env g).1.hook_exit = env.event_exit) := by
  unfold init_events
  dsimp only
  by_cases h0 : g.hook_restart = 0
  · rw [if_pos h0]
    dsimp only
    by_cases h1 : env.event_restart = 0
    · rw [if_pos h1]
      refine ⟨fun _ => rfl, ?_, ?_, ?_⟩ <;> intro hc <;> rcases hc with hc | hc <;>
        first | exact absurd h0 hc | exact absurd h1 hc
    · rw [if_neg h1]
      by_cases h2 : env.event_stop = 0
      · rw [if_pos h2]
        exact ⟨fun _ => rfl, fun _ => rfl, fun _ hn => absurd h2 hn, fun _ hn => absurd h2 hn⟩
      · rw [if_neg h2]
        by_cases h3 : env.event_ready = 0
        · rw [if_pos h3]
          exact ⟨fun _ => rfl, fun _ => rfl, fun _ _ => rfl, fun _ _ hn => absurd h3 hn⟩
        · rw [if_neg h3]
          split_ifs <;> exact ⟨fun _ => rfl, fun _ => rfl, fun _ _ => rfl, fun _ _ _ => rfl⟩
  · rw [if_neg h0, if_neg h0]
    by_cases h2 : env.event_stop = 0
    · rw [if_pos h2]
      exact ⟨fun hn => absurd hn h0, fun _ => rfl, fun _ hn => absurd h2 hn,
        fun _ hn => absurd h2 hn⟩
    · rw [if_neg h2]
      by_cases h3 : env.event_ready = 0
      · rw [if_pos h3]
        exact ⟨fun hn => absurd hn h0, fun _ => rfl, fun _ _ => rfl,
          fun _ _ hn => absurd h3 hn⟩
      · rw [if_neg h3]
        split_ifs <;>
          exact ⟨fun hn => absurd hn h0, fun _ => rfl, fun _ _ => rfl, fun _ _ _ => rfl⟩

theorem init_capture_data_fields (env : tick_env) (g : game_capture) (r : game_capture × Bool)
    (h : init_capture_data env g = Except.ok r) :
    r.1.hook_restart = g.hook_restart ∧ r.1.hook_stop = g.hook_stop ∧
    r.1.hook_ready = g.hook_ready ∧ r.1.hook_exit = g.hook_exit ∧
    r.1.hook_data_map = env.open_file_mapping ∧
    (env.open_file_mapping ≠ 0 → env.map_view_data ≠ none → r.1.data ≠ none) := by
  unfold init_capture_data at h
  cases hg : g.global_hook_info with
  | none => simp [hg] at h
  | some hi =>
      simp only [hg] at h
      split_ifs at h with h1 h2
      · cases h
        exact ⟨rfl, rfl, rfl, rfl, rfl, fun hn => absurd h1 hn⟩
      · cases h
        refine ⟨rfl, rfl, rfl, rfl, rfl, fun _ hn => ?_⟩
        cases hd : env.map_view_data with
        | none => exact absurd hd hn
        | some d => simp [hd] at h2
      · cases h
        exact ⟨rfl, rfl, rfl, rfl, rfl, fun _ hn => hn⟩

theorem init_shmem_capture_fields (env : tick_env) (g : game_capture) (r : game_capture × Bool)
    (h : init_shmem_capture env g = Except.ok r) :
    r.1.hook_restart = g.hook_restart ∧ r.1.hook_stop = g.hook_stop ∧
    r.1.hook_ready = g.hook_ready ∧ r.1.hook_exit = g.hook_exit ∧
    r.1.hook_data_map = g.hook_data_map ∧ r.1.data = g.data := by
  unfold init_shmem_capture at h
  split at h
  · cases h
  · cases h
  · dsimp only at h
    split_ifs at h <;> cases h <;> exact ⟨rfl, rfl, rfl, rfl, rfl, rfl⟩

theorem init_shtex_capture_fields (env : tick_env) (g : game_capture) (r : game_capture × Bool)
    (h : init_shtex_capture env g = Except.ok r) :
    r.1.hook_restart = g.hook_restart ∧ r.1.hook_stop = g.hook_stop ∧
    r.1.hook_ready = g.hook_ready ∧ r.1.hook_exit = g.hook_exit ∧
    r.1.hook_data_map = g.hook_data_map ∧ r.1.data = g.data := by
  unfold init_shtex_capture at h
  split at h
  · cases h
  · dsimp only at h
    split_ifs at h <;> cases h <;> exact ⟨rfl, rfl, rfl, rfl, rfl, rfl⟩

theorem start_capture_held (env : tick_env) (st : tick_state) (r : tick_state × Bool)
    (h : start_capture env st = Except.ok r) :
    ∃ l, r.1.calls = st.calls ++ l ∧ (∀ c ∈ l, in_sequence true c = true) ∧
      (r.2 = true → ok_steps l) ∧ start_held env st.gc l r.1.gc := by
  obtain ⟨e1, e2, e3, e4⟩ := init_events_fields env st.gc
  unfold start_capture at h
  dsimp only at h
  split_ifs at h with h1
  · cases h
    exact ⟨[Call.start_capture, Call.step Step.init_events false], by simp [h1],
      by simp [in_sequence, start_step], fun hc => by simp at hc,
      e1, e2, e3, e4, fun b hm => by simp at hm⟩
  · have h1t : (init_events env st.gc).2 = true := by simpa using h1
    cases hd : init_capture_data env (init_events env st.gc).1 with
    | error f => simp [hd] at h
    | ok r2 =>
        obtain ⟨d1, d2, d3, d4, d5, d6⟩ := init_capture_data_fields _ _ _ hd
        simp only [hd] at h
        split_ifs at h with h2
        · cases h
          exact ⟨[Call.start_capture, Call.step Step.init_events true,
              Call.step Step.init_capture_data false], by simp [h1t, h2],
            by simp [in_sequence, start_step], fun hc => by simp at hc,
            fun x => d1.trans (e1 x), fun x => d2.trans (e2 x), fun x y => d3.trans (e3 x y),
            fun x y z => d4.trans (e4 x y z), fun _ _ => ⟨d5, d6⟩⟩
        · have h2t : r2.2 = true := by simpa using h2
          cases hg : r2.1.global_hook_info with
          | none => simp [hg] at h
          | some hi =>
              simp only [hg] at h
              split_ifs at h with h3
              · cases hs : init_shmem_capture env r2.1 with
                | error f => simp [hs] at h
                | ok r3 =>
                    obtain ⟨s1, s2, s3, s4, s5, s6⟩ := init_shmem_capture_fields _ _ _ hs
                    simp only [hs] at h
                    cases h
                    refine ⟨[Call.start_capture, Call.step Step.init_events true,
                        Call.step Step.init_capture_data true,
                        Call.step Step.init_shmem_capture r3.2], by simp [h1t, h2t],
                      by simp [in_sequence, start_step], ?_,
                      fun x => s1.trans (d1.trans (e1 x)), fun x => s2.trans (d2.trans (e2 x)),
                      fun x y => s3.trans (d3.trans (e3 x y)),
                      fun x y z => s4.trans (d4.trans (e4 x y z)),
                      fun _ _ => ⟨s5.trans d5, fun x y => by rw [s6]; exact d6 x y⟩⟩
                    intro hc
                    have hc2 : r3.2 = true := hc
                    simp [ok_steps, ok_step, hc2]
              · cases hs : init_shtex_capture env r2.1 with
                | error f => simp [hs] at h
                | ok r3 =>
                    obtain ⟨s1, s2, s3, s4, s5, s6⟩ := init_shtex_capture_fields _ _ _ hs
                    simp only [hs] at h
                    cases h
                    refine ⟨[Call.start_capture, Call.step Step.init_events true,
                        Call.step Step.init_capture_data true,
                        Call.step Step.init_shtex_capture r3.2], by simp [h1t, h2t],
                      by simp [in_sequence, start_step], ?_,
                      fun x => s1.trans (d1.trans (e1 x)), fun x => s2.trans (d2.trans (e2 x)),
                      fun x y => s3.trans (d3.trans (e3 x y)),
                      fun x y z => s4.trans (d4.trans (e4 x y z)),
                      fun _ _ => ⟨s5.trans d5, fun x y => by rw [s6]; exact d6 x y⟩⟩
                    intro hc
                    have hc2 : r3.2 = true := hc
                    simp [ok_steps, ok_step, hc2]

theorem init_hook_held (env : tick_env) (st : tick_state) (r : tick_state × Bool)
    (h : init_hook env st = Except.ok r) :
    ∃ l, r.1.calls = st.calls ++ l ∧ (∀ c ∈ l, in_sequence false c = true) ∧
      (r.2 = true → ok_steps l) ∧ hook_held env l r.1.gc := by
  have t1 := open_target_process_fields env st.gc
  unfold init_hook at h
  dsimp only at h
  by_cases h1 : (open_target_process env st.gc).2 = false
  · rw [if_pos h1] at h
    cases h
    refine ⟨[Call.init_hook, Call.step Step.open_target_process false], by simp [h1],
      by simp [in_sequence, start_step], fun hc => by simp at hc, fun _ _ => t1,
      fun b hm => by simp at hm, fun b hm => by simp at hm, fun b hm => by simp at hm,
      fun hm => by simp at hm⟩
  rw [if_neg h1] at h
  have h1t : (open_target_process env st.gc).2 = true := by simpa using h1
  by_cases h2 : (init_keepalive env (open_target_process env st.gc).1).2 = false
  · rw [if_pos h2] at h
    cases h
    refine ⟨[Call.init_hook, Call.step Step.open_target_process true,
        Call.step Step.init_keepalive false], by simp [h1t, h2],
      by simp [in_sequence, start_step], fun hc => by simp at hc, fun _ _ => t1,
      fun _ _ => rfl, fun b hm => by simp at hm, fun b hm => by simp at hm,
      fun hm => by simp at hm⟩
  rw [if_neg h2] at h
  have h2t : (init_keepalive env (open_target_process env st.gc).1).2 = true := by simpa using h2
  by_cases h3 : (init_texture_mutexes env
      (init_keepalive env (open_target_process env st.gc).1).1).2 = false
  · rw [if_pos h3] at h
    cases h
    refine ⟨[Call.init_hook, Call.step Step.open_target_process true,
        Call.step Step.init_keepalive true, Call.step Step.init_texture_mutexes false],
      by simp [h1t, h2t, h3],
      by simp [in_sequence, start_step], fun hc => by simp at hc, fun _ _ => t1,
      fun _ _ => rfl, fun _ _ => rfl, fun b hm => by simp at hm,
      fun hm => by simp at hm⟩
  rw [if_neg h3] at h
  have h3t : (init_texture_mutexes env
      (init_keepalive env (open_target_process env st.gc).1).1).2 = true := by simpa using h3
  cases h4e : init_hook_info env (init_texture_mutexes env
      (init_keepalive env (open_target_process env st.gc).1).1).1 with
  | error f => simp [h4e] at h
  | ok r4 =>
      obtain ⟨a1, a2, a3, a4, a5, a6⟩ := init_hook_info_fields _ _ _ h4e
      have t4 : r4.1.target_process = env.open_process := a1.trans t1
      have k4 : r4.1.keep_alive = env.create_keepalive := a2
      have m4 : r4.1.texture_mutexes = (env.mutex_texture1, env.mutex_texture2) := a3
      simp only [h4e] at h
      by_cases h4 : r4.2 = false
      · rw [if_pos h4] at h
        cases h
        refine ⟨[Call.init_hook, Call.step Step.open_target_process true,
            Call.step Step.init_keepalive true, Call.step Step.init_texture_mutexes true,
            Call.step Step.init_hook_info false],
          by simp [h1t, h2t, h3t, h4],
          by simp [in_sequence, start_step], fun hc => by simp [h4] at hc, fun _ _ => t4,
          fun _ _ => k4, fun _ _ => m4, fun _ _ => ⟨a4, a5⟩,
          fun hm => by simp at hm⟩
      rw [if_neg h4] at h
      have h4t : r4.2 = true := by simpa using h4
      by_cases h5 : (init_pipe env r4.1).2 = false
      · rw [if_pos h5] at h
        cases h
        refine ⟨[Call.init_hook, Call.step Step.open_target_process true,
            Call.step Step.init_keepalive true, Call.step Step.init_texture_mutexes true,
            Call.step Step.init_hook_info true, Call.step Step.init_pipe false],
          by simp [h1t, h2t, h3t, h4t, h5],
          by simp [in_sequence, start_step], fun hc => by simp at hc, fun _ _ => t4,
          fun _ _ => k4, fun _ _ => m4, fun _ _ => ⟨a4, a5⟩,
          fun hm => by simp at hm⟩
      rw [if_neg h5] at h
      have h5t : (init_pipe env r4.1).2 = true := by simpa using h5
      have p5 : (init_pipe env r4.1).1.pipe = true := h5t
      obtain ⟨b1, b2, b3, b4, b5, b6⟩ := attempt_existing_hook_fields env (init_pipe env r4.1).1
      have t6 : (attempt_existing_hook env (init_pipe env r4.1).1).1.target_process =
          env.open_process := b1.trans t4
      have k6 : (attempt_existing_hook env (init_pipe env r4.1).1).1.keep_alive =
          env.create_keepalive := b2.trans k4
      have m6 : (attempt_existing_hook env (init_pipe env r4.1).1).1.texture_mutexes =
          (env.mutex_texture1, env.mutex_texture2) := b3.trans m4
      have i6 : (attempt_existing_hook env (init_pipe env r4.1).1).1.global_hook_info_map =
          env.get_hook_info := b4.trans a4
      have v6 : env.get_hook_info ≠ 0 → env.map_view_hook_info ≠ none →
          (attempt_existing_hook env (init_pipe env r4.1).1).1.global_hook_info ≠ none := by
        intro x y
        rw [b5]
        exact a5 x y
      have p6 : (attempt_existing_hook env (init_pipe env r4.1).1).1.pipe = true := b6.trans p5
      by_cases h6 : (attempt_existing_hook env (init_pipe env r4.1).1).2.1 = true
      · rw [if_pos h6] at h
        cases h
        refine ⟨[Call.init_hook, Call.step Step.open_target_process true,
            Call.step Step.init_keepalive true, Call.step Step.init_texture_mutexes true,
            Call.step Step.init_hook_info true, Call.step Step.init_pipe true,
            Call.existing_hook true],
          by simp [h1t, h2t, h3t, h4t, h5t, h6],
          by simp [in_sequence, start_step], fun _ => by simp [ok_steps, ok_step],
          fun _ _ => t6, fun _ _ => k6, fun _ _ => m6, fun _ _ => ⟨i6, v6⟩, fun _ => p6⟩
      rw [if_neg h6] at h
      have h6f : (attempt_existing_hook env (init_pipe env r4.1).1).2.1 = false := by
        simpa using h6
      obtain ⟨c1, c2, c3, c4, c5, c6⟩ :=
        inject_hook_fields env (attempt_existing_hook env (init_pipe env r4.1).1).1
      have v7 : env.get_hook_info ≠ 0 → env.map_view_hook_info ≠ none →
          (inject_hook env (attempt_existing_hook env (init_pipe env r4.1).1).1).1.global_hook_info
            ≠ none := by
        intro x y
        rw [c5]
        exact v6 x y
      by_cases h7 : (inject_hook env (attempt_existing_hook env (init_pipe env r4.1).1).1).2 = false
      · rw [if_pos h7] at h
        cases h
        refine ⟨[Call.init_hook, Call.step Step.open_target_process true,
            Call.step Step.init_keepalive true, Call.step Step.init_texture_mutexes true,
            Call.step Step.init_hook_info true, Call.step Step.init_pipe true,
            Call.existing_hook false, Call.step Step.inject_hook false],
          by simp [h1t, h2t, h3t, h4t, h5t, h6f, h7],
          by simp [in_sequence, start_step], fun hc => by simp at hc,
          fun _ _ => c1.trans t6, fun _ _ => c2.trans k6, fun _ _ => c3.trans m6,
          fun _ _ => ⟨c4.trans i6, v7⟩, fun _ => c6.trans p6⟩
      rw [if_neg h7] at h
      have h7t : (inject_hook env (attempt_existing_hook env (init_pipe env r4.1).1).1).2 = true := by
        simpa using h7
      cases h
      refine ⟨[Call.init_hook, Call.step Step.open_target_process true,
          Call.step Step.init_keepalive true, Call.step Step.init_texture_mutexes true,
          Call.step Step.init_hook_info true, Call.step Step.init_pipe true,
          Call.existing_hook false, Call.step Step.inject_hook true],
        by simp [h1t, h2t, h3t, h4t, h5t, h6f, h7t],
        by simp [in_sequence, start_step], fun _ => by simp [ok_steps, ok_step],
        fun _ _ => c1.trans t6, fun _ _ => c2.trans k6, fun _ _ => c3.trans m6,
        fun _ _ => ⟨c4.trans i6, v7⟩, fun _ => c6.trans p6⟩

theorem mem_hook_step (pre l : List Call) (s : Step) (b : Bool)
    (hpre : ∀ c ∈ pre, in_sequence true c = true) (hs : start_step s = false)
    (hm : Call.step s b ∈ pre ++ l ++ [Call.stop_capture]) : Call.step s b ∈ l := by
  simp only [List.mem_append, List.mem_singleton] at hm
  rcases hm with (hm | hm) | hm
  · have := in_sequence_mem true pre s b hpre hm
    rw [hs] at this
    cases this
  · exact hm
  · cases hm

theorem mem_start_step (pre l : List Call) (s : Step) (b : Bool)
    (hpre : ∀ c ∈ pre, c = Call.stop_capture)
    (hm : Call.step s b ∈ pre ++ l ++ [Call.stop_capture]) : Call.step s b ∈ l := by
  simp only [List.mem_append, List.mem_singleton] at hm
  rcases hm with (hm | hm) | hm
  · cases hpre _ hm
  · exact hm
  · cases hm

theorem hook_held_released (env : tick_env) (pre l : List Call) (g : game_capture)
    (t : List Event) (hpre : ∀ c ∈ pre, in_sequence true c = true)
    (hh : hook_held env l g) :
    hook_released env (pre ++ l ++ [Call.stop_capture]) (t ++ (stop_capture g).2) := by
  obtain ⟨k1, k2, k3, k4, k5⟩ := hh
  obtain ⟨u1, _, _, u4⟩ := stop_capture_unmaps g
  refine ⟨?_, ?_, ?_, ?_, ?_⟩
  · intro b hm hr
    have e := k1 b (mem_hook_step pre l _ b hpre rfl hm)
    exact List.mem_append_right _ (stop_capture_closes g _ (by simp [e]) hr)
  · intro b hm hr
    have e := k2 b (mem_hook_step pre l _ b hpre rfl hm)
    exact List.mem_append_right _ (stop_capture_closes g _ (by simp [e]) hr)
  · intro b hm
    have e := k3 b (mem_hook_step pre l _ b hpre rfl hm)
    constructor
    · intro hr
      exact List.mem_append_right _ (stop_capture_closes g _ (by simp [e]) hr)
    · intro hr
      exact List.mem_append_right _ (stop_capture_closes g _ (by simp [e]) hr)
  · intro b hm
    obtain ⟨e, v⟩ := k4 b (mem_hook_step pre l _ b hpre rfl hm)
    constructor
    · intro hr
      exact List.mem_append_right _ (stop_capture_closes g _ (by simp [e]) hr)
    · intro x y
      exact List.mem_append_right _ (u1 (v x y))
  · intro hm
    exact List.mem_append_right _ (u4 (k5 (mem_hook_step pre l _ true hpre rfl hm)))

theorem start_held_released (env : tick_env) (g0 : game_capture) (pre l : List Call)
    (g : game_capture) (t : List Event) (hpre : ∀ c ∈ pre, c = Call.stop_capture)
    (hh : start_held env g0 l g) :
    start_released env g0 (pre ++ l ++ [Call.stop_capture]) (t ++ (stop_capture g).2) := by
  obtain ⟨k1, k2, k3, k4, k5⟩ := hh
  obtain ⟨_, u2, _, _⟩ := stop_capture_unmaps g
  refine ⟨?_, ?_, ?_, ?_, ?_⟩
  · intro x hr
    have e := k1 x
    exact List.mem_append_right _ (stop_capture_closes g _ (by simp [e]) hr)
  · intro x hr
    have e := k2 x
    exact List.mem_append_right _ (stop_capture_closes g _ (by simp [e]) hr)
  · intro x y hr
    have e := k3 x y
    exact List.mem_append_right _ (stop_capture_closes g _ (by simp [e]) hr)
  · intro x y z hr
    have e := k4 x y z
    exact List.mem_append_right _ (stop_capture_closes g _ (by simp [e]) hr)
  · intro b hm
    obtain ⟨e, v⟩ := k5 b (mem_start_step pre l _ b hpre hm)
    constructor
    · intro hr
      exact List.mem_append_right _ (stop_capture_closes g _ (by simp [e]) hr)
    · intro x y
      exact List.mem_append_right _ (u2 (v x y))

theorem start_released_congr (env : tick_env) (g1 g2 : game_capture) (l : List Call)
    (t : List Event) (he : g1.hook_restart = g2.hook_restart)
    (h : start_released env g1 l t) : start_released env g2 l t := by
  unfold start_released at *
  rw [← he]
  exact h

theorem try_hook_released (env : tick_env) (st st' : tick_state) (s : Step)
    (hpre : ∀ c ∈ st.calls, in_sequence true c = true)
    (h : try_hook env st = Except.ok st')
    (hf : Call.step s false ∈ st'.calls) (hs : start_step s = false) :
    hook_released env st'.calls st'.trace := by
  have hno : Call.step s false ∉ st.calls ++ [Call.try_hook] := by
    intro hm
    simp only [List.mem_append, List.mem_singleton] at hm
    rcases hm with hm | hm
    · have := in_sequence_mem true st.calls s false hpre hm
      rw [hs] at this
      cases this
    · cases hm
  have hpre2 : ∀ c ∈ st.calls ++ [Call.try_hook], in_sequence true c = true := by
    intro c hc
    simp only [List.mem_append, List.mem_singleton] at hc
    rcases hc with hc | hc
    · exact hpre c hc
    · rw [hc]
      rfl
  unfold try_hook at h
  dsimp only [log_call] at h
  cases hft : find_target env st.gc with
  | error f => simp [hft] at h
  | ok g =>
      simp only [hft] at h
      split_ifs at h with h1 h2
      · cases h
        exact absurd hf hno
      · cases hi : init_hook env
            { st with
              gc := { g with thread_id := env.window_thread_id,
                             process_id := env.window_process_id }
              calls := st.calls ++ [Call.try_hook] } with
        | error f => simp [hi] at h
        | ok r =>
            obtain ⟨l, hl, _, hok, hheld⟩ := init_hook_held _ _ _ hi
            simp only [hi] at h
            by_cases hr : r.2 = false
            · rw [if_pos hr] at h
              cases h
              show hook_released env (r.1.calls ++ [Call.stop_capture])
                (r.1.trace ++ (stop_capture r.1.gc).2)
              rw [hl]
              exact hook_held_released env _ l r.1.gc r.1.trace hpre2 hheld
            · rw [if_neg hr] at h
              cases h
              rw [hl] at hf
              rcases List.mem_append.mp hf with hm | hm
              · exact absurd hm hno
              · have := (ok_steps_clean l (hok (by simpa using hr))).1 s
                exact absurd hm this
      · cases h
        exact absurd hf hno

theorem tick_search_released (env : tick_env) (st st' : tick_state) (s : Step)
    (hpre : ∀ c ∈ st.calls, in_sequence true c = true)
    (h : tick_search env st = Except.ok st')
    (hf : Call.step s false ∈ st'.calls) (hs : start_step s = false) :
    hook_released env st'.calls st'.trace := by
  have hno : Call.step s false ∉ st.calls := by
    intro hm
    have := in_sequence_mem true st.calls s false hpre hm
    rw [hs] at this
    cases this
  unfold tick_search at h
  split_ifs at h with h1 h2
  · cases ht : try_hook env st with
    | error f => simp [ht] at h
    | ok s1 =>
        simp only [ht] at h
        cases h
        exact try_hook_released env st s1 s hpre ht hf hs
  · cases h
    exact absurd hf hno
  · cases h
    exact absurd hf hno

theorem tick_ready_released (env : tick_env) (st st' : tick_state)
    (hpre : ∀ c ∈ st.calls, c = Call.stop_capture)
    (h : tick_ready env st = Except.ok st') :
    (∀ c ∈ st'.calls, in_sequence true c = true) ∧
    (st.gc.hook_ready = 0 → st' = st) ∧
    (∀ s, Call.step s false ∈ st'.calls →
      start_released env st.gc st'.calls st'.trace) := by
  have hpre1 : ∀ c ∈ st.calls, in_sequence true c = true := by
    intro c hc
    rw [hpre c hc]
    rfl
  have hno : ∀ s, Call.step s false ∉ st.calls := by
    intro s hm
    cases hpre _ hm
  unfold tick_ready at h
  split_ifs at h with hc
  · cases hs : start_capture env st with
    | error f => simp [hs] at h
    | ok r =>
        obtain ⟨l, hl, hseq, hok, hheld⟩ := start_capture_held _ _ _ hs
        have hall : ∀ c ∈ r.1.calls, in_sequence true c = true := by
          intro c hm
          rw [hl] at hm
          rcases List.mem_append.mp hm with hm | hm
          · exact hpre1 c hm
          · exact hseq c hm
        simp only [hs] at h
        by_cases hr : r.2 = false
        · rw [if_pos hr] at h
          cases h
          refine ⟨?_, fun h0 => absurd h0 hc.1, fun _ _ => ?_⟩
          · intro c hm
            show in_sequence true c = true
            have hm2 : c ∈ r.1.calls ++ [Call.stop_capture] := hm
            rcases List.mem_append.mp hm2 with hm3 | hm3
            · exact hall c hm3
            · simp only [List.mem_singleton] at hm3
              rw [hm3]
              rfl
          · show start_released env st.gc (r.1.calls ++ [Call.stop_capture])
              (r.1.trace ++ (stop_capture r.1.gc).2)
            rw [hl]
            exact start_held_released env st.gc st.calls l r.1.gc r.1.trace hpre hheld
        · rw [if_neg hr] at h
          cases h
          refine ⟨hall, fun h0 => absurd h0 hc.1, fun s hm => ?_⟩
          rw [hl] at hm
          rcases List.mem_append.mp hm with hm | hm
          · exact absurd hm (hno s)
          · exact absurd hm ((ok_steps_clean l (hok (by simpa using hr))).1 s)
  · cases h
    exact ⟨hpre1, fun _ => rfl, fun s hm => absurd hm (hno s)⟩

theorem tick_pre_cases (env : tick_env) (gc : game_capture) (w : World) :
    (∀ c ∈ (tick_injector env (tick_open_ready env
        (tick_stop env { gc := gc, world := w, calls := [], trace := [] }))).calls,
      c = Call.stop_capture) ∧
    ((tick_injector env (tick_open_ready env
        (tick_stop env { gc := gc, world := w, calls := [], trace := [] }))).gc.hook_ready ≠ 0 →
      (tick_injector env (tick_open_ready env
        (tick_stop env { gc := gc, world := w, calls := [], trace := [] }))).gc.hook_restart =
        gc.hook_restart) := by
  obtain ⟨a1, _, _, _, a5, _, a7, _⟩ := tick_open_ready_fields env
    (tick_stop env { gc := gc, world := w, calls := [], trace := [] })
  obtain ⟨b1, b2, _, _, _, b6, _⟩ := tick_injector_fields env (tick_open_ready env
    (tick_stop env { gc := gc, world := w, calls := [], trace := [] }))
  have hr1 := a1.2.2.2.2.2.1
  have hr2 := b1.2.2.2.2.2.1
  rw [b6, a7, b2, a5, hr2, hr1]
  by_cases hstop : gc.hook_stop ≠ 0 ∧ handle_signalled env gc.hook_stop = true
  · have ht : tick_stop env { gc := gc, world := w, calls := [], trace := [] } =
        do_stop_capture { gc := gc, world := w, calls := [], trace := [] } := by
      unfold tick_stop
      rw [if_pos hstop]
    rw [ht]
    have htd := do_stop_capture_torn_down { gc := gc, world := w, calls := [], trace := [] }
    have hact := htd.1
    have hrdy := htd.2.2.2.2.2.2.2.2.1
    refine ⟨?_, ?_⟩
    · intro c hc
      simpa [do_stop_capture] using hc
    · intro hn
      rw [if_neg (by rw [hact]; simp), hrdy] at hn
      exact absurd rfl hn
  · have ht : tick_stop env { gc := gc, world := w, calls := [], trace := [] } =
        { gc := gc, world := w, calls := [], trace := [] } := by
      unfold tick_stop
      rw [if_neg hstop]
    rw [ht]
    exact ⟨fun c hc => by simp at hc, fun _ => rfl⟩

/-- What a tick with a failed initialisation step has released: the objects
the failed sequence had obtained. -/
theorem tick_released (env : tick_env) (gc : game_capture) (w : World) (seconds : Nat)
    (st : tick_state) (s : Step)
    (h : game_capture_tick env gc w seconds = Except.ok st)
    (hf : Call.step s false ∈ st.calls) :
    (start_step s = false → hook_released env st.calls st.trace) ∧
    (start_step s = true → start_released env gc st.calls st.trace) := by
  obtain ⟨p1, p2⟩ := tick_pre_cases env gc w
  obtain ⟨_, _, l0, c0, k0, _⟩ :=
    tick_pre_spec env { gc := gc, world := w, calls := [], trace := [] }
  unfold game_capture_tick at h
  dsimp only at h
  cases hr : tick_ready env (tick_injector env (tick_open_ready env
      (tick_stop env { gc := gc, world := w, calls := [], trace := [] }))) with
  | error f => simp [hr] at h
  | ok st4 =>
      obtain ⟨q1, q2, q3⟩ := tick_ready_released env _ st4 p1 hr
      obtain ⟨_, _, hcase⟩ := tick_ready_spec _ _ _ hr
      simp only [hr] at h
      have hno3 : ∀ s', Call.step s' false ∉ (tick_injector env (tick_open_ready env
          (tick_stop env { gc := gc, world := w, calls := [], trace := [] }))).calls := by
        intro s' hm
        cases p1 _ hm
      split_ifs at h with ha
      · obtain ⟨_, hsame, hsr⟩ := tick_search_spec _ _ _ h
        refine ⟨fun hs => tick_search_released env _ st s (by exact q1) h hf hs, fun hs => ?_⟩
        have hm4 : Call.step s false ∈ st4.calls := by
          rcases hsr with ⟨l', hl', hc'⟩ | ⟨l', s', hl', hc', hs', _, _⟩
          · rw [hl'] at hf
            rcases List.mem_append.mp hf with hm | hm
            · exact hm
            · exact absurd hm (hc' s)
          · rw [hl'] at hf
            rcases List.mem_append.mp hf with hm | hm
            · exact hm
            · have := failed_step_unique l' s s' hc' hm
              rw [this, hs'] at hs
              cases hs
        have herr : st4.gc.error_aqcuiring = true := by
          rcases hcase with ⟨l, hl, hc, _⟩ | ⟨_, _, _, _, _, _, he⟩
          · rw [hl] at hm4
            rcases List.mem_append.mp hm4 with hm | hm
            · exact absurd hm (hno3 s)
            · exact absurd hm (hc s)
          · exact he
        have heq := hsame herr
        subst heq
        have hrdy : (tick_injector env (tick_open_ready env
            (tick_stop env { gc := gc, world := w, calls := [], trace := [] }))).gc.hook_ready
              ≠ 0 := by
          intro h0
          have := q2 h0
          rw [this] at hm4
          exact hno3 s hm4
        exact start_released_congr env _ gc _ _ (p2 hrdy) (q3 s hm4)
      · obtain ⟨_, l', hl', hc', _⟩ := tick_capture_spec _ _ _ _ h
        exfalso
        rw [hl'] at hf
        rcases List.mem_append.mp hf with hm | hm
        · have hm4 : Call.step s false ∈ st4.calls := hm
          rcases hcase with ⟨l, hl, hc, _⟩ | ⟨_, _, _, _, _, htd, _⟩
          · rw [hl] at hm4
            rcases List.mem_append.mp hm4 with hm | hm
            · exact hno3 s hm
            · exact hc s hm
          · exact ha htd.1
        · exact hc' s hm

theorem st_no_agent_steps :
    Call.step Step.open_target_process true ∈ st_no_agent.calls ∧
    Call.step Step.init_hook_info true ∈ st_no_agent.calls := by
  obtain ⟨s, hs, h1, h2⟩ : ∃ s, try_hook env_no_agent st_search = Except.ok s ∧
      Call.step Step.open_target_process true ∈ s.calls ∧
      Call.step Step.init_hook_info true ∈ s.calls :=
    ⟨_, rfl, by decide, by decide⟩
  have he := search_tick_eq env_no_agent s hs rfl
  have hst : st_no_agent = { s with gc := { s.gc with check_interval := 0 } } := by
    unfold st_no_agent
    rw [he]
    rfl
  rw [hst]
  exact ⟨h1, h2⟩

/-- The tick of `gc_hooked` in `env_ready_fail`: `init_events` fails, and the
ready event the tick itself had opened (handle 30) is overwritten there and not
closed by `stop_capture`. -/
theorem st_ready_fail_eval :
    game_capture_tick env_ready_fail gc_hooked (world_of MutexState.free none) f32_one =
      Except.ok st_ready_fail ∧
    Call.step Step.init_events false ∈ st_ready_fail.calls ∧
    Event.CloseHandle 30 ∉ st_ready_fail.trace := by
  obtain ⟨s, hs, h1, h2⟩ : ∃ s, game_capture_tick env_ready_fail gc_hooked
      (world_of MutexState.free none) f32_one = Except.ok s ∧
      Call.step Step.init_events false ∈ s.calls ∧ Event.CloseHandle 30 ∉ s.trace :=
    ⟨_, rfl, by decide, by decide⟩
  have hst : st_ready_fail = s := by
    unfold st_ready_fail
    rw [hs]
    rfl
  rw [hst]
  exact ⟨hs, h1, h2⟩

/-- C16: no partial session survives a failed initialisation. For every
completed tick in which a step of `init_hook` (target process, keep-alive
event, texture mutexes, header mapping, pipe, injection) or of `start_capture`
(events, payload mapping, texture creation or import) returned failure, the
failed step is followed by `stop_capture` and by nothing else, no other step
failed, and the tick ends with the session torn down: inactive, header and
payload views unmapped, no texture, and every handle field null. What the
failed sequence had obtained has been released in that tick: after a failed
`init_hook` the real handles of the target process, the keep-alive event, the
texture mutexes and the header mapping are closed, the header view is unmapped
and the pipe server stopped, for each step that ran; after a failed
`start_capture` the real handles of the restart event (when the sequence
opened it), of the stop, ready and exit events as far as `init_events` got, and
of the payload mapping are closed and the payload view is unmapped. -/
theorem C16_no_partial_session (env : tick_env) (gc : game_capture) (w : World)
    (seconds : Nat) (st : tick_state) (s : Step)
    (h : game_capture_tick env gc w seconds = Except.ok st)
    (hf : Call.step s false ∈ st.calls) :
    (∃ l, st.calls = l ++ [Call.step s false, Call.stop_capture] ∧ clean l) ∧
    torn_down st.gc ∧
    (start_step s = false → hook_released env st.calls st.trace) ∧
    (start_step s = true → start_released env gc st.calls st.trace) := by
  obtain ⟨r1, r2⟩ := tick_released env gc w seconds st s h hf
  rcases tick_calls env gc w seconds st h with hc | ⟨l, s', hl, hc, htd, _⟩
  · exact absurd hf (hc s)
  · have hss : s = s' := failed_step_unique l s s' hc (by rw [← hl]; exact hf)
    subst hss
    exact ⟨⟨l, hl, hc⟩, htd, r1, r2⟩

/-- C16 at two ticks: the tick of `gc_search` whose injection step fails, after
which the target-process handle 20 and the header mapping 24 are closed and the
header view is unmapped, and the tick of `gc_hooked` whose `init_events` fails
on the ready event, after which the stop event 31 is closed. -/
theorem C16_no_partial_session_witness :
    ((game_capture_tick env_no_agent gc_search (world_of MutexState.free none) f32_four =
          Except.ok st_no_agent ∧
        Call.step Step.inject_hook false ∈ st_no_agent.calls) ∧
      (∃ l, st_no_agent.calls = l ++ [Call.step Step.inject_hook false, Call.stop_capture] ∧
        clean l) ∧
      torn_down st_no_agent.gc ∧
      Event.CloseHandle 20 ∈ st_no_agent.trace ∧
      Event.CloseHandle 24 ∈ st_no_agent.trace ∧
      Event.UnmapViewOfFile_hook_info ∈ st_no_agent.trace) ∧
    ((game_capture_tick env_ready_fail gc_hooked (world_of MutexState.free none) f32_one =
          Except.ok st_ready_fail ∧
        Call.step Step.init_events false ∈ st_ready_fail.calls) ∧
      torn_down st_ready_fail.gc ∧
      Event.CloseHandle 31 ∈ st_ready_fail.trace) := by
  obtain ⟨a1, a2, a3, _⟩ := C16_no_partial_session env_no_agent gc_search
    (world_of MutexState.free none) f32_four st_no_agent Step.inject_hook st_no_agent_eval.1
    st_no_agent_eval.2.2.2
  obtain ⟨_, b2, _, b4⟩ := C16_no_partial_session env_ready_fail gc_hooked
    (world_of MutexState.free none) f32_one st_ready_fail Step.init_events st_ready_fail_eval.1
    st_ready_fail_eval.2.1
  obtain ⟨c1, _, _, c4, _⟩ := a3 rfl
  obtain ⟨_, d2, _⟩ := b4 rfl
  exact ⟨⟨⟨st_no_agent_eval.1, st_no_agent_eval.2.2.2⟩, a1, a2,
      c1 true st_no_agent_steps.1 ⟨by decide, by decide⟩,
      (c4 true st_no_agent_steps.2).1 ⟨by decide, by decide⟩,
      (c4 true st_no_agent_steps.2).2 (by decide) (by decide)⟩,
    ⟨st_ready_fail_eval.1, st_ready_fail_eval.2.1⟩, b2,
    d2 (Or.inl (by decide)) ⟨by decide, by decide⟩⟩

theorem render_fault (gc : game_capture) (passes : Nat)
    (h : gc.texture ≠ 0 → gc.global_hook_info ≠ none) :
    game_capture_render gc passes ≠ Except.error Fault.null_header := by
  unfold game_capture_render
  split_ifs with ht
  · simp
  · cases passes with
    | zero => simp
    | succ n =>
        have hh := h ht
        cases hg : gc.global_hook_info with
        | none => exact absurd hg hh
        | some hi =>
            have hp : ∃ l, render_pass gc = Except.ok l := by
              unfold render_pass game_capture_render_cursor
              simp only [hg]
              split_ifs <;> exact ⟨_, rfl⟩
            obtain ⟨l, hl⟩ := hp
            simp [hl]

/-- C17: the header is never read through a null pointer. In every session
state reachable from `game_capture_create` by `game_capture_update`,
`game_capture_tick` and `stop_capture`, a non-null ready event, a non-null
texture and `active = true` each imply that `global_hook_info` is non-null;
`game_capture_width` and `game_capture_height` return 0 when the session is
inactive and the header's `cx` and `cy` when it is active; and neither a tick
(with `start_capture` and `reset_frame_interval` in it) nor
`game_capture_render` dereferences a null header. -/
theorem C17_header_never_null (gc : game_capture) (hr : Reachable gc) :
    (gc.hook_ready ≠ 0 → gc.global_hook_info ≠ none) ∧
    (gc.texture ≠ 0 → gc.global_hook_info ≠ none) ∧
    (gc.active = true → gc.global_hook_info ≠ none) ∧
    (gc.active = false →
      game_capture_width gc = Except.ok 0 ∧ game_capture_height gc = Except.ok 0) ∧
    (gc.active = true → ∃ hi, gc.global_hook_info = some hi ∧
      game_capture_width gc = Except.ok hi.cx ∧ game_capture_height gc = Except.ok hi.cy) ∧
    (∀ (env : tick_env) (w : World) (seconds : Nat),
      game_capture_tick env gc w seconds ≠ Except.error Fault.null_header) ∧
    (∀ passes : Nat, game_capture_render gc passes ≠ Except.error Fault.null_header) := by
  have hinv := reachable_inv gc hr
  obtain ⟨i1, i2, i3⟩ := hinv
  refine ⟨fun h => i1 (i2 h), fun h => i1 (i3 h), i1, ?_, ?_, ?_, ?_⟩
  · intro ha
    simp [game_capture_width, game_capture_height, ha]
  · intro ha
    cases hg : gc.global_hook_info with
    | none => exact absurd hg (i1 ha)
    | some hi =>
        exact ⟨hi, rfl, by simp [game_capture_width, ha, hg],
          by simp [game_capture_height, ha, hg]⟩
  · intro env w seconds
    exact (tick_inv env gc w seconds ⟨i1, i2, i3⟩).1
  · intro passes
    exact render_fault gc passes (fun h => i1 (i3 h))

/-- C17 at the session one hooking tick after creation. -/
theorem C17_header_never_null_witness :
    Reachable st_hooked.gc ∧ st_hooked.gc.global_hook_info ≠ none ∧
    game_capture_tick env_zero st_hooked.gc (world_of MutexState.free none) f32_one ≠
      Except.error Fault.null_header :=
  ⟨Reachable.tick env_hooked (world_of MutexState.free none) f32_four gc_search st_hooked
      gc_search_reachable st_hooked_eval.1,
   (C17_header_never_null st_hooked.gc
      (Reachable.tick env_hooked (world_of MutexState.free none) f32_four gc_search st_hooked
        gc_search_reachable st_hooked_eval.1)).2.2.1 st_hooked_eval.2.1,
   (C17_header_never_null st_hooked.gc
      (Reachable.tick env_hooked (world_of MutexState.free none) f32_four gc_search st_hooked
        gc_search_reachable st_hooked_eval.1)).2.2.2.2.2.1 env_zero
          (world_of MutexState.free none) f32_one⟩

theorem land_mask_mod_two (x : Nat) : Nat.land x 4294967293 % 2 = x % 2 := by
  have h1 : ∀ y : Nat, y % 2 = y &&& 1 := by
    intro y
    exact (Nat.and_pow_two_sub_one_eq_mod y 1).symm
  show (x &&& 4294967293) % 2 = x % 2
  rw [h1, h1, Nat.and_assoc]
  rfl

theorem land_mask_two : Nat.land 2 4294967293 = 0 := by decide

/-- C18: `get_config` stores each parsed scale dimension with bit 1 cleared
(the bitwise and with `0xFFFFFFFD`), not rounded to an even number. For every
resolution string from which `sscanf` reads two numbers `W` and `H`: the stored
pair is the two masked values when forced scaling is off or both masked values
are nonzero, and `(0, 0)` when forced scaling is on and a masked value is zero,
in which case `game_capture_update` sets `error_aqcuiring`; so a forced
resolution whose width or height is exactly 2 is stored as `0x0` and suspends
the session; and the masked value has the parity of the parsed one (odd
dimensions stay odd). -/
theorem C18_scale_mask (bws : String → window_strings) (stack : game_capture_config)
    (gc : game_capture) (settings : obs_data) (W H : Nat)
    (hp : sscanf settings.scale_res stack.scale_cx stack.scale_cy = (2, W, H)) :
    ((settings.force_scaling = false ∨
        (Nat.land W 4294967293 ≠ 0 ∧ Nat.land H 4294967293 ≠ 0)) →
      (get_config bws stack settings).scale_cx = Nat.land W 4294967293 ∧
      (get_config bws stack settings).scale_cy = Nat.land H 4294967293) ∧
    ((settings.force_scaling = true ∧
        (Nat.land W 4294967293 = 0 ∨ Nat.land H 4294967293 = 0)) →
      (get_config bws stack settings).scale_cx = 0 ∧
      (get_config bws stack settings).scale_cy = 0 ∧
      (game_capture_update bws stack gc settings).1.error_aqcuiring = true) ∧
    (settings.force_scaling = true → (W = 2 ∨ H = 2) →
      (get_config bws stack settings).scale_cx = 0 ∧
      (get_config bws stack settings).scale_cy = 0 ∧
      (game_capture_update bws stack gc settings).1.error_aqcuiring = true) ∧
    Nat.land W 4294967293 % 2 = W % 2 ∧ Nat.land H 4294967293 % 2 = H % 2 := by
  have hzero : (settings.force_scaling = true ∧
        (Nat.land W 4294967293 = 0 ∨ Nat.land H 4294967293 = 0)) →
      (get_config bws stack settings).scale_cx = 0 ∧
      (get_config bws stack settings).scale_cy = 0 ∧
      (game_capture_update bws stack gc settings).1.error_aqcuiring = true := by
    intro ⟨hf, hz⟩
    have hclear : (2 : Int) ≠ 2 ∨ Nat.land W 4294967293 = 0 ∨ Nat.land H 4294967293 = 0 :=
      Or.inr hz
    have hcx : (get_config bws stack settings).scale_cx = 0 := by
      simp only [get_config, hp, hf, true_and, decide_eq_true_eq, hclear, if_true]
    have hcy : (get_config bws stack settings).scale_cy = 0 := by
      simp only [get_config, hp, hf, true_and, decide_eq_true_eq, hclear, if_true]
    have hfs : (get_config bws stack settings).force_scaling = true := hf
    refine ⟨hcx, hcy, ?_⟩
    unfold game_capture_update
    simp only [hcx, hfs, true_or, and_self, decide_True]
    split
    · split
      · rw [stop_capture_error]
      · rfl
    · rfl
  refine ⟨?_, hzero, ?_, land_mask_mod_two W, land_mask_mod_two H⟩
  · intro hc
    have hnc : ¬(settings.force_scaling = true ∧
        ((2 : Int) ≠ 2 ∨ Nat.land W 4294967293 = 0 ∨ Nat.land H 4294967293 = 0)) := by
      intro ⟨hf, hz⟩
      rcases hc with hc | ⟨hw, hh⟩
      · rw [hf] at hc
        cases hc
      · rcases hz with hz | hz | hz
        · exact hz rfl
        · exact hw hz
        · exact hh hz
    constructor
    · simp only [get_config, hp, decide_eq_true_eq, hnc, if_false]
    · simp only [get_config, hp, decide_eq_true_eq, hnc, if_false]
  · intro hf h2
    apply hzero
    refine ⟨hf, ?_⟩
    rcases h2 with h2 | h2
    · left
      rw [h2]
      exact land_mask_two
    · right
      rw [h2]
      exact land_mask_two

/-- C18 at the forced resolution `2x1080`. -/
theorem C18_scale_mask_witness :
    sscanf (settings_of true "2x1080").scale_res cfg_zero.scale_cx cfg_zero.scale_cy
      = (2, 2, 1080) ∧
    (get_config no_window_strings cfg_zero (settings_of true "2x1080")).scale_cx = 0 ∧
    (get_config no_window_strings cfg_zero (settings_of true "2x1080")).scale_cy = 0 ∧
    (game_capture_update no_window_strings cfg_zero gc_zero
      (settings_of true "2x1080")).1.error_aqcuiring = true :=
  ⟨rfl,
   (C18_scale_mask no_window_strings cfg_zero gc_zero (settings_of true "2x1080") 2 1080
      rfl).2.2.1 rfl (Or.inl rfl)⟩

/-- C11 at the hooked session `gc_hooked` when the target process (handle 20)
has exited. -/
theorem C11_target_exit_witness :
    (gc_hooked.active = true ∧ gc_hooked.error_aqcuiring = false ∧
      ¬(gc_hooked.hook_stop ≠ 0 ∧ handle_signalled env_target_exit gc_hooked.hook_stop = true) ∧
      handle_signalled env_target_exit
        (if gc_hooked.hook_ready = 0 ∧ gc_hooked.process_id ≠ 0 then
          env_target_exit.get_event_hook_ready else gc_hooked.hook_ready) = false ∧
      ¬(gc_hooked.injector_process ≠ 0 ∧
        handle_signalled env_target_exit gc_hooked.injector_process = true ∧
        env_target_exit.exit_code ≠ 0) ∧
      handle_signalled env_target_exit gc_hooked.target_process = true) ∧
    ∃ st, game_capture_tick env_target_exit gc_hooked (world_of MutexState.free none) f32_one =
        Except.ok st ∧
      st.calls = [Call.stop_capture] ∧ torn_down st.gc ∧ st.gc.error_aqcuiring = false ∧
      Event.CloseHandle 20 ∈ st.trace := by
  refine ⟨⟨rfl, rfl, by decide, rfl, by decide, rfl⟩, ?_⟩
  obtain ⟨st, h1, h2, h3, h4, h5, _⟩ := C11_target_exit env_target_exit gc_hooked
    (world_of MutexState.free none) f32_one rfl rfl (by decide) rfl (by decide) rfl
  exact ⟨st, h1, h2, h3, h4, h5 20 (by simp [gc_hooked, gc_zero]) ⟨by decide, by decide⟩⟩

/-- C14 at the hooked session `gc_hooked` when the target process has exited:
teardown is called. -/
theorem C14_teardown_condition_witness :
    (gc_hooked.active = true ∧
      handle_signalled env_target_exit
        (if gc_hooked.hook_ready = 0 ∧ gc_hooked.process_id ≠ 0 then
          env_target_exit.get_event_hook_ready else gc_hooked.hook_ready) = false ∧
      game_capture_tick env_target_exit gc_hooked (world_of MutexState.free none) f32_one =
        Except.ok st_target_exit) ∧
    (Call.stop_capture ∈ st_target_exit.calls ↔
      ((gc_hooked.hook_stop ≠ 0 ∧
          handle_signalled env_target_exit gc_hooked.hook_stop = true) ∨
        handle_signalled env_target_exit gc_hooked.target_process = true ∨
        (env_target_exit.is_window = false ∧ gc_hooked.dwm_capture = false))) :=
  ⟨⟨rfl, rfl, st_target_exit_eval.1⟩,
   (C14_teardown_condition env_target_exit gc_hooked (world_of MutexState.free none) f32_one
      st_target_exit rfl rfl st_target_exit_eval.1).1⟩

end GameCapture
